import Mathlib

/-!
# Compound clouds of Thrive (`src/microbe_stage/compound_cloud_system.cpp`)

A shallow embedding of `CompoundCloudComponent` (one tile of up to four density
channels) and of `CompoundCloudSystem` (the 3x3 window of tiles, the
diffusion/advection step and the world-position router), followed by theorems
about them.

Conventions of the embedding:

* `float` is modelled by `ℚ` (exact arithmetic); the float-to-integer casts
  are modelled on values that fit the target type;
* a `std::vector<std::vector<float>>` of the fixed size
  `CLOUD_SIMULATION_WIDTH x CLOUD_SIMULATION_HEIGHT` (both at least 1) is a
  function `Nat → Nat → ℚ`, of which only the cells inside the size are
  meaningful;
* the constants of `compound_cloud_system.h` and of the engine, which are not
  part of the source file, are the fields of `CloudConstants`;
* a C++ exception or failed assertion is an `Except.error`.
-/

set_option autoImplicit false

namespace Thrive

/-! ## Numbers -/

/-- `static_cast<int>(f)` of a float: the fractional part is discarded
(rounding toward zero). -/
def cppTrunc (q : ℚ) : ℤ := if 0 ≤ q then ⌊q⌋ else -⌊-q⌋

/-- `std::round`: the nearest integer, halfway cases away from zero. -/
def cppRound (q : ℚ) : ℤ := if 0 ≤ q then ⌊q + 1 / 2⌋ else -⌊-q + 1 / 2⌋

/-- `std::clamp(v, lo, hi)` as the standard defines it. -/
def cppClamp (v lo hi : ℚ) : ℚ := if v < lo then lo else if hi < v then hi else v

/-- `static_cast<size_t>` of an integral value: reduction modulo `2^64`. -/
def toSizeT (z : ℤ) : Nat := (z % 2 ^ 64).toNat

/-- Engine vector `Float3`. -/
structure Float3 where
  X : ℚ
  Y : ℚ
  Z : ℚ
  deriving DecidableEq

/-- Engine vector `Float2`. -/
structure Float2 where
  X : ℚ
  Y : ℚ
  deriving DecidableEq

/-- `Float3::operator-`. -/
def Float3.sub (a b : Float3) : Float3 := ⟨a.X - b.X, a.Y - b.Y, a.Z - b.Z⟩

/-- `Float3::operator+`. -/
def Float3.add (a b : Float3) : Float3 := ⟨a.X + b.X, a.Y + b.Y, a.Z + b.Z⟩

/-- Modelled from the spec: `Float3::HAddAbs` of the engine is not in the
source file; the spec describes its use as matching a position "within a
small epsilon", and it is the sum of the absolute values of the components. -/
def Float3.HAddAbs (a : Float3) : ℚ := |a.X| + |a.Y| + |a.Z|

/-- `Float2::operator+`. -/
def Float2.add (a b : Float2) : Float2 := ⟨a.X + b.X, a.Y + b.Y⟩

/-- `Float2::operator*(float)`. -/
def Float2.scale (a : Float2) (k : ℚ) : Float2 := ⟨a.X * k, a.Y * k⟩

/-! ## Constants -/

/-- Identifier of a compound (substance) type. -/
abbrev CompoundId := Nat

/-- Handle of an entity of the host world. -/
abbrev ObjectID := Nat

/-- The constants the source file uses but does not define (they live in
`compound_cloud_system.h` and in the engine). -/
structure CloudConstants where
  /-- number of cells of a grid along X -/
  CLOUD_SIMULATION_WIDTH : Nat
  /-- number of cells of a grid along Z -/
  CLOUD_SIMULATION_HEIGHT : Nat
  /-- world units per cell -/
  CLOUD_RESOLUTION : ℚ
  /-- half of a tile's world size along X -/
  CLOUD_WIDTH : ℚ
  /-- half of a tile's world size along Z -/
  CLOUD_HEIGHT : ℚ
  /-- distance between neighbouring tile centres along X -/
  CLOUD_X_EXTENT : ℚ
  /-- distance between neighbouring tile centres along Z -/
  CLOUD_Y_EXTENT : ℚ
  /-- `Leviathan::EPSILON` -/
  EPSILON : ℚ
  /-- the id that marks an unbound slot -/
  NULL_COMPOUND : CompoundId

/-- Modelled from the spec: `CLOUDS_IN_ONE`, the number of compound types one
tile holds ("fixed-size batches of 4"); the header that defines it is not in
the source file. -/
def CLOUDS_IN_ONE : Nat := 4

/-- A registered compound type; only the id matters here. -/
structure Compound where
  id : CompoundId
  deriving DecidableEq

/-! ## Grids and loops -/

/-- A density array, indexed `[x][y]`. -/
abbrev Grid := Nat → Nat → ℚ

/-- The all-zero grid (a freshly allocated vector). -/
def Grid.zero : Grid := fun _ _ => 0

/-- The assignment `g[x][y] = v`. -/
def Grid.set (g : Grid) (x y : Nat) (v : ℚ) : Grid :=
  fun i j => if i = x ∧ j = y then v else g i j

/-- The loop `for (i = lo; i < lo + n; i++) s = body i s`: `forRange lo n body s`
runs `body lo`, `body (lo+1)`, ..., `body (lo+n-1)` in this order. -/
def forRange {σ : Type} (lo : Nat) : Nat → (Nat → σ → σ) → σ → σ
  | 0, _, s => s
  | n + 1, body, s => body (lo + n) (forRange lo n body s)

/-! ## CompoundCloudComponent -/

/-- `CompoundCloudComponent::SLOT`. -/
inductive SLOT
  | FIRST
  | SECOND
  | THIRD
  | FOURTH
  deriving DecidableEq

/-- What can go wrong: the `std::runtime_error` of the component, the
`Leviathan::InvalidArgument` of the coordinate conversion and a failed
`LEVIATHAN_ASSERT`. -/
inductive CloudError
  | runtimeError
  | invalidArgument
  | assertionFailed
  deriving DecidableEq

/-- The simulation state of one tile (the rendering members are left out). -/
structure CompoundCloudComponent where
  m_position : Float3
  m_compoundId1 : CompoundId
  m_compoundId2 : CompoundId
  m_compoundId3 : CompoundId
  m_compoundId4 : CompoundId
  m_density1 : Grid
  m_density2 : Grid
  m_density3 : Grid
  m_density4 : Grid
  m_oldDens1 : Grid
  m_oldDens2 : Grid
  m_oldDens3 : Grid
  m_oldDens4 : Grid
  m_initialized : Bool

namespace CompoundCloudComponent

/-- The constructor: `first` must not be null; a slot without a compound
keeps the default id `NULL_COMPOUND`, the position starts at the origin and
the vectors start empty. -/
def create (K : CloudConstants) (first second third fourth : Option Compound) :
    Except CloudError CompoundCloudComponent :=
  match first with
  | none => .error .runtimeError
  | some f =>
    .ok {
      m_position := ⟨0, 0, 0⟩
      m_compoundId1 := f.id
      m_compoundId2 := match second with
        | some c => c.id
        | none => K.NULL_COMPOUND
      m_compoundId3 := match third with
        | some c => c.id
        | none => K.NULL_COMPOUND
      m_compoundId4 := match fourth with
        | some c => c.id
        | none => K.NULL_COMPOUND
      m_density1 := Grid.zero
      m_density2 := Grid.zero
      m_density3 := Grid.zero
      m_density4 := Grid.zero
      m_oldDens1 := Grid.zero
      m_oldDens2 := Grid.zero
      m_oldDens3 := Grid.zero
      m_oldDens4 := Grid.zero
      m_initialized := false }

/-- `getCompoundId1`. -/
def getCompoundId1 (t : CompoundCloudComponent) : CompoundId := t.m_compoundId1

/-- `getSlotForCompound`: the first slot whose id equals `compound`, or the
`std::runtime_error`. -/
def getSlotForCompound (t : CompoundCloudComponent) (compound : CompoundId) :
    Except CloudError SLOT :=
  if compound = t.m_compoundId1 then .ok .FIRST
  else if compound = t.m_compoundId2 then .ok .SECOND
  else if compound = t.m_compoundId3 then .ok .THIRD
  else if compound = t.m_compoundId4 then .ok .FOURTH
  else .error .runtimeError

/-- `handlesCompound`. -/
def handlesCompound (t : CompoundCloudComponent) (compound : CompoundId) : Bool :=
  if compound = t.m_compoundId1 then true
  else if compound = t.m_compoundId2 then true
  else if compound = t.m_compoundId3 then true
  else if compound = t.m_compoundId4 then true
  else false

/-- The current density grid of a slot (`m_density1` .. `m_density4`). -/
def density (t : CompoundCloudComponent) : SLOT → Grid
  | .FIRST => t.m_density1
  | .SECOND => t.m_density2
  | .THIRD => t.m_density3
  | .FOURTH => t.m_density4

/-- The previous density grid of a slot (`m_oldDens1` .. `m_oldDens4`). -/
def oldDens (t : CompoundCloudComponent) : SLOT → Grid
  | .FIRST => t.m_oldDens1
  | .SECOND => t.m_oldDens2
  | .THIRD => t.m_oldDens3
  | .FOURTH => t.m_oldDens4

/-- The compound id of a slot. -/
def compoundId (t : CompoundCloudComponent) : SLOT → CompoundId
  | .FIRST => t.m_compoundId1
  | .SECOND => t.m_compoundId2
  | .THIRD => t.m_compoundId3
  | .FOURTH => t.m_compoundId4

/-- Component-level `addCloud`: `m_densityN[x][y] += dens` on the slot of
`compound`. The vectors are total grids here, which is what the source does
for a cell inside the allocated vectors of the slot (see `vectorSize` and
`addCloudOnVectors` for the bounds). -/
def addCloud (t : CompoundCloudComponent) (compound : CompoundId) (dens : ℚ)
    (x y : Nat) : Except CloudError CompoundCloudComponent :=
  match t.getSlotForCompound compound with
  | .error e => .error e
  | .ok .FIRST => .ok { t with m_density1 := t.m_density1.set x y (t.m_density1 x y + dens) }
  | .ok .SECOND => .ok { t with m_density2 := t.m_density2.set x y (t.m_density2 x y + dens) }
  | .ok .THIRD => .ok { t with m_density3 := t.m_density3.set x y (t.m_density3 x y + dens) }
  | .ok .FOURTH => .ok { t with m_density4 := t.m_density4.set x y (t.m_density4 x y + dens) }

/-- The body shared by the four cases of `takeCompound`, on the value of one
cell: `amountToGive = static_cast<int>(d * rate)`, `d -= amountToGive`,
`if (d < 1) d = 0`. Returns `amountToGive` and the new value of the cell. -/
def takeFromCell (d rate : ℚ) : ℤ × ℚ :=
  let amountToGive : ℤ := cppTrunc (d * rate)
  let d1 : ℚ := d - amountToGive
  (amountToGive, if d1 < 1 then 0 else d1)

/-- Component-level `takeCompound`. The vectors are total grids here, which
is what the source does for a cell inside the allocated vectors of the slot
(see `vectorSize` and `takeCompoundOnVectors` for the bounds). -/
def takeCompound (t : CompoundCloudComponent) (compound : CompoundId) (x y : Nat)
    (rate : ℚ) : Except CloudError (ℤ × CompoundCloudComponent) :=
  match t.getSlotForCompound compound with
  | .error e => .error e
  | .ok .FIRST =>
    let r := takeFromCell (t.m_density1 x y) rate
    .ok (r.1, { t with m_density1 := t.m_density1.set x y r.2 })
  | .ok .SECOND =>
    let r := takeFromCell (t.m_density2 x y) rate
    .ok (r.1, { t with m_density2 := t.m_density2.set x y r.2 })
  | .ok .THIRD =>
    let r := takeFromCell (t.m_density3 x y) rate
    .ok (r.1, { t with m_density3 := t.m_density3.set x y r.2 })
  | .ok .FOURTH =>
    let r := takeFromCell (t.m_density4 x y) rate
    .ok (r.1, { t with m_density4 := t.m_density4.set x y r.2 })

/-- Component-level `amountAvailable`: the amount `takeCompound` would give,
without changing the tile. The vectors are total grids here, which is what
the source does for a cell inside the allocated vectors of the slot (see
`vectorSize` and `amountAvailableOnVectors` for the bounds). -/
def amountAvailable (t : CompoundCloudComponent) (compound : CompoundId) (x y : Nat)
    (rate : ℚ) : Except CloudError ℤ :=
  match t.getSlotForCompound compound with
  | .error e => .error e
  | .ok .FIRST => .ok (cppTrunc (t.m_density1 x y * rate))
  | .ok .SECOND => .ok (cppTrunc (t.m_density2 x y * rate))
  | .ok .THIRD => .ok (cppTrunc (t.m_density3 x y * rate))
  | .ok .FOURTH => .ok (cppTrunc (t.m_density4 x y * rate))

/-- One of the four blocks of `getCompoundsAt`. -/
def compoundAt (K : CloudConstants) (id : CompoundId) (g : Grid) (x y : Nat)
    (result : List (CompoundId × ℚ)) : List (CompoundId × ℚ) :=
  if id ≠ K.NULL_COMPOUND then
    let amount := g x y
    if amount > 0 then result ++ [(id, amount)] else result
  else result

/-- `getCompoundsAt`: appends to `result`. -/
def getCompoundsAt (K : CloudConstants) (t : CompoundCloudComponent) (x y : Nat)
    (result : List (CompoundId × ℚ)) : List (CompoundId × ℚ) :=
  let r1 := compoundAt K t.m_compoundId1 t.m_density1 x y result
  let r2 := compoundAt K t.m_compoundId2 t.m_density2 x y r1
  let r3 := compoundAt K t.m_compoundId3 t.m_density3 x y r2
  compoundAt K t.m_compoundId4 t.m_density4 x y r3

/-- The double loop of `clearContents` on one grid; after `initializeCloud`
the vectors of a bound slot have the size
`CLOUD_SIMULATION_WIDTH x CLOUD_SIMULATION_HEIGHT`. -/
def clearGrid (K : CloudConstants) (g : Grid) : Grid :=
  forRange 0 K.CLOUD_SIMULATION_WIDTH
    (fun x g1 => forRange 0 K.CLOUD_SIMULATION_HEIGHT (fun y g2 => g2.set x y 0) g1) g

/-- The first block of `clearContents`. -/
def clearFirst (K : CloudConstants) (t : CompoundCloudComponent) : CompoundCloudComponent :=
  if t.m_compoundId1 ≠ K.NULL_COMPOUND then
    { t with m_density1 := clearGrid K t.m_density1, m_oldDens1 := clearGrid K t.m_oldDens1 }
  else t

/-- The second block of `clearContents`. -/
def clearSecond (K : CloudConstants) (t : CompoundCloudComponent) : CompoundCloudComponent :=
  if t.m_compoundId2 ≠ K.NULL_COMPOUND then
    { t with m_density2 := clearGrid K t.m_density2, m_oldDens2 := clearGrid K t.m_oldDens2 }
  else t

/-- The third block of `clearContents`. -/
def clearThird (K : CloudConstants) (t : CompoundCloudComponent) : CompoundCloudComponent :=
  if t.m_compoundId3 ≠ K.NULL_COMPOUND then
    { t with m_density3 := clearGrid K t.m_density3, m_oldDens3 := clearGrid K t.m_oldDens3 }
  else t

/-- The fourth block of `clearContents`. -/
def clearFourth (K : CloudConstants) (t : CompoundCloudComponent) : CompoundCloudComponent :=
  if t.m_compoundId4 ≠ K.NULL_COMPOUND then
    { t with m_density4 := clearGrid K t.m_density4, m_oldDens4 := clearGrid K t.m_oldDens4 }
  else t

/-- `clearContents`: zeroes both grids of every bound slot, one block after
the other. -/
def clearContents (K : CloudConstants) (t : CompoundCloudComponent) :
    CompoundCloudComponent :=
  clearFourth K (clearThird K (clearSecond K (clearFirst K t)))

/-- `recycleToPosition`. -/
def recycleToPosition (K : CloudConstants) (t : CompoundCloudComponent)
    (newPosition : Float3) : CompoundCloudComponent :=
  clearContents K { t with m_position := newPosition }

end CompoundCloudComponent

/-! ## CompoundCloudSystem: the numerical step -/

/-- The velocity field provider, `FluidSystem::getVelocityAt`. -/
abbrev FluidSystem := Float2 → Float2

/-- The assignment in the body of `diffuse`. -/
def diffuseCell (density : Grid) (a : ℚ) (x y : Nat) (oldDens : Grid) : Grid :=
  oldDens.set x y
    (density x y * (1 - a) +
      (oldDens (x - 1) y + oldDens (x + 1) y + oldDens x (y - 1) + oldDens x (y + 1)) *
        a / 4)

/-- `diffuse`: returns the new content of `oldDens`; `density` is read only.
The loops run `x = 1 .. CLOUD_SIMULATION_WIDTH - 2` and, inside,
`y = 1 .. CLOUD_SIMULATION_HEIGHT - 2`. -/
def diffuse (K : CloudConstants) (diffRate : ℚ) (oldDens density : Grid) (dt : ℚ) : Grid :=
  let a := dt * diffRate
  forRange 1 (K.CLOUD_SIMULATION_WIDTH - 2)
    (fun x g => forRange 1 (K.CLOUD_SIMULATION_HEIGHT - 2) (diffuseCell density a x) g)
    oldDens

/-- The first double loop of `advect`: `density[x][y] = 0` for every cell. -/
def zeroGrid (K : CloudConstants) (density : Grid) : Grid :=
  forRange 0 K.CLOUD_SIMULATION_WIDTH
    (fun x g => forRange 0 K.CLOUD_SIMULATION_HEIGHT (fun y g1 => g1.set x y 0) g) density

/-- `g[x][y] += v` with `int` indices. The indices `advect` uses are not
negative, so that their conversion to `size_t` keeps the value. -/
def Grid.addAt (g : Grid) (x y : ℤ) (v : ℚ) : Grid :=
  g.set x.toNat y.toNat (g x.toNat y.toNat + v)

/-- `viscosity` of `advect`, `0.0525f`. -/
def viscosity : ℚ := 21 / 400

/-- The clamped target position `dx` (or `dy`) of `advect` for a source
coordinate `x`, a velocity component `v` (already multiplied by the
viscosity) and `n` cells along the axis. -/
def advectTarget (n : Nat) (x : Nat) (dt v : ℚ) : ℚ :=
  cppClamp ((x : ℚ) + dt * v) (1 / 2) ((n : ℚ) - 3 / 2)

/-- The velocity `advect` uses for the source cell `(x, y)`:
`fluidSystem.getVelocityAt(pos + Float2(x, y) * CLOUD_RESOLUTION) * viscosity`. -/
def advectVelocity (K : CloudConstants) (fluidSystem : FluidSystem) (pos : Float2)
    (x y : Nat) : Float2 :=
  (fluidSystem (pos.add ((Float2.mk x y).scale K.CLOUD_RESOLUTION))).scale viscosity

/-- The four `+=` of `advect`: the mass `m` of a source cell is distributed
over the cells around the target position `(dx, dy)`. -/
def splat (density : Grid) (m dx dy : ℚ) : Grid :=
  let x0 : ℤ := cppTrunc dx
  let x1 : ℤ := x0 + 1
  let y0 : ℤ := cppTrunc dy
  let y1 : ℤ := y0 + 1
  let s1 : ℚ := dx - x0
  let s0 : ℚ := 1 - s1
  let t1 : ℚ := dy - y0
  let t0 : ℚ := 1 - t1
  let d1 := density.addAt x0 y0 (m * s0 * t0)
  let d2 := d1.addAt x0 y1 (m * s0 * t1)
  let d3 := d2.addAt x1 y0 (m * s1 * t0)
  d3.addAt x1 y1 (m * s1 * t1)

/-- The body of the second double loop of `advect` for the source cell
`(x, y)`. -/
def advectCell (K : CloudConstants) (oldDens : Grid) (dt : ℚ) (fluidSystem : FluidSystem)
    (pos : Float2) (x y : Nat) (density : Grid) : Grid :=
  if oldDens x y > 1 then
    let velocity : Float2 := advectVelocity K fluidSystem pos x y
    let dx : ℚ := advectTarget K.CLOUD_SIMULATION_WIDTH x dt velocity.X
    let dy : ℚ := advectTarget K.CLOUD_SIMULATION_HEIGHT y dt velocity.Y
    splat density (oldDens x y) dx dy
  else density

/-- `advect`: returns the new content of `density`; `oldDens` is read only. -/
def advect (K : CloudConstants) (oldDens density : Grid) (dt : ℚ)
    (fluidSystem : FluidSystem) (pos : Float2) : Grid :=
  forRange 1 (K.CLOUD_SIMULATION_WIDTH - 2)
    (fun x g => forRange 1 (K.CLOUD_SIMULATION_HEIGHT - 2)
      (advectCell K oldDens dt fluidSystem pos x) g)
    (zeroGrid K density)

/-- The two buffers of one channel. -/
structure Channel where
  oldDens : Grid
  density : Grid

/-- `diffuse` as a transformation of a channel (it writes `oldDens` only). -/
def Channel.diffuse (K : CloudConstants) (diffRate : ℚ) (c : Channel) (dt : ℚ) : Channel :=
  { c with oldDens := Thrive.diffuse K diffRate c.oldDens c.density dt }

/-- `advect` as a transformation of a channel (it writes `density` only). -/
def Channel.advect (K : CloudConstants) (c : Channel) (dt : ℚ) (fluidSystem : FluidSystem)
    (pos : Float2) : Channel :=
  { c with density := Thrive.advect K c.oldDens c.density dt fluidSystem pos }

/-- One of the four blocks of `processCloud`: diffuse with rate `0.007f`,
then advect. -/
def processChannel (K : CloudConstants) (c : Channel) (elapsed : ℚ)
    (fluidSystem : FluidSystem) (pos : Float2) : Channel :=
  (c.diffuse K (7 / 1000) elapsed).advect K elapsed fluidSystem pos

/-- The first block of `processCloud` (`elapsed` already multiplied). -/
def processFirst (K : CloudConstants) (cloud : CompoundCloudComponent) (elapsed : ℚ)
    (fluidSystem : FluidSystem) (pos : Float2) : CompoundCloudComponent :=
  if cloud.m_compoundId1 ≠ K.NULL_COMPOUND then
    let r := processChannel K ⟨cloud.m_oldDens1, cloud.m_density1⟩ elapsed fluidSystem pos
    { cloud with m_oldDens1 := r.oldDens, m_density1 := r.density }
  else cloud

/-- The second block of `processCloud`. -/
def processSecond (K : CloudConstants) (cloud : CompoundCloudComponent) (elapsed : ℚ)
    (fluidSystem : FluidSystem) (pos : Float2) : CompoundCloudComponent :=
  if cloud.m_compoundId2 ≠ K.NULL_COMPOUND then
    let r := processChannel K ⟨cloud.m_oldDens2, cloud.m_density2⟩ elapsed fluidSystem pos
    { cloud with m_oldDens2 := r.oldDens, m_density2 := r.density }
  else cloud

/-- The third block of `processCloud`. -/
def processThird (K : CloudConstants) (cloud : CompoundCloudComponent) (elapsed : ℚ)
    (fluidSystem : FluidSystem) (pos : Float2) : CompoundCloudComponent :=
  if cloud.m_compoundId3 ≠ K.NULL_COMPOUND then
    let r := processChannel K ⟨cloud.m_oldDens3, cloud.m_density3⟩ elapsed fluidSystem pos
    { cloud with m_oldDens3 := r.oldDens, m_density3 := r.density }
  else cloud

/-- The fourth block of `processCloud`. -/
def processFourth (K : CloudConstants) (cloud : CompoundCloudComponent) (elapsed : ℚ)
    (fluidSystem : FluidSystem) (pos : Float2) : CompoundCloudComponent :=
  if cloud.m_compoundId4 ≠ K.NULL_COMPOUND then
    let r := processChannel K ⟨cloud.m_oldDens4, cloud.m_density4⟩ elapsed fluidSystem pos
    { cloud with m_oldDens4 := r.oldDens, m_density4 := r.density }
  else cloud

/-- `processCloud`, the simulation part (the texture upload is left out): the
elapsed time is multiplied by 100, then the four channels are processed one
after the other. -/
def processCloud (K : CloudConstants) (cloud : CompoundCloudComponent) (elapsed : ℚ)
    (fluidSystem : FluidSystem) : CompoundCloudComponent :=
  let elapsed := elapsed * 100
  let pos : Float2 := ⟨cloud.m_position.X, cloud.m_position.Z⟩
  processFourth K
    (processThird K
      (processSecond K (processFirst K cloud elapsed fluidSystem pos) elapsed fluidSystem pos)
      elapsed fluidSystem pos)
    elapsed fluidSystem pos

/-! ## CompoundCloudSystem: positions and routing -/

/-- `cloudContainsPosition`. -/
def cloudContainsPosition (K : CloudConstants) (cloudPosition worldPosition : Float3) : Bool :=
  if worldPosition.X < cloudPosition.X - K.CLOUD_WIDTH ∨
      worldPosition.X ≥ cloudPosition.X + K.CLOUD_WIDTH ∨
      worldPosition.Z < cloudPosition.Z - K.CLOUD_HEIGHT ∨
      worldPosition.Z ≥ cloudPosition.Z + K.CLOUD_HEIGHT then false
  else true

/-- `convertWorldToCloudLocal`. -/
def convertWorldToCloudLocal (K : CloudConstants) (cloudPosition worldPosition : Float3) :
    Except CloudError (Nat × Nat) :=
  let topLeftRelative : Float3 :=
    ⟨worldPosition.X - (cloudPosition.X - K.CLOUD_WIDTH), 0,
      worldPosition.Z - (cloudPosition.Z - K.CLOUD_HEIGHT)⟩
  let localX := toSizeT ⌊topLeftRelative.X / K.CLOUD_RESOLUTION⌋
  let localY := toSizeT ⌊topLeftRelative.Z / K.CLOUD_RESOLUTION⌋
  if localX ≥ K.CLOUD_SIMULATION_WIDTH ∨ localY ≥ K.CLOUD_SIMULATION_HEIGHT then
    .error .invalidArgument
  else .ok (localX, localY)

/-- `calculateGridCenterForPlayerPos`. -/
def calculateGridCenterForPlayerPos (K : CloudConstants) (pos : Float3) : Float3 :=
  ⟨(cppRound (pos.X / K.CLOUD_X_EXTENT) : ℚ) * K.CLOUD_X_EXTENT, 0,
    (cppRound (pos.Z / K.CLOUD_Y_EXTENT) : ℚ) * K.CLOUD_Y_EXTENT⟩

/-- Modelled from the spec: `calculateGridPositions` is defined in the header,
which is not in the source file. "Required positions = the 9 offsets
`{-1,0,1} x {-1,0,1}` scaled by the tile's world extent, translated by
`gridCenter`"; the order of the nine is the centre first, then row by row. -/
def calculateGridPositions (K : CloudConstants) (center : Float3) : List Float3 :=
  [ center,
    center.add ⟨-K.CLOUD_X_EXTENT, 0, -K.CLOUD_Y_EXTENT⟩,
    center.add ⟨0, 0, -K.CLOUD_Y_EXTENT⟩,
    center.add ⟨K.CLOUD_X_EXTENT, 0, -K.CLOUD_Y_EXTENT⟩,
    center.add ⟨-K.CLOUD_X_EXTENT, 0, 0⟩,
    center.add ⟨K.CLOUD_X_EXTENT, 0, 0⟩,
    center.add ⟨-K.CLOUD_X_EXTENT, 0, K.CLOUD_Y_EXTENT⟩,
    center.add ⟨0, 0, K.CLOUD_Y_EXTENT⟩,
    center.add ⟨K.CLOUD_X_EXTENT, 0, K.CLOUD_Y_EXTENT⟩ ]

/-- The managed tiles, `m_managedClouds`, in iteration order: handle and tile. -/
abbrev ManagedClouds := List (ObjectID × CompoundCloudComponent)

/-- The state of `CompoundCloudSystem`. -/
structure CompoundCloudSystem where
  m_cloudTypes : List Compound
  m_cloudGridCenter : Float3
  m_managedClouds : ManagedClouds

/-- Replaces the tile at place `i` of the iteration order (a write through
the pointer the map holds). -/
def ManagedClouds.setTile (m : ManagedClouds) (i : Nat) (t : CompoundCloudComponent) :
    ManagedClouds :=
  match m[i]? with
  | some e => m.set i (e.1, t)
  | none => m

/-- System-level `addCloud`: the scan of `m_managedClouds`; `i` is the place
of the head of `rest` in `all`. Returns the result and the tiles. -/
def addCloudScan (K : CloudConstants) (compound : CompoundId) (density : ℚ)
    (worldPosition : Float3) (all : ManagedClouds) :
    Nat → ManagedClouds → Except CloudError (Bool × ManagedClouds)
  | _, [] => .ok (false, all)
  | i, cloud :: rest =>
    let pos := cloud.2.m_position
    if cloudContainsPosition K pos worldPosition then
      if !cloud.2.handlesCompound compound then
        addCloudScan K compound density worldPosition all (i + 1) rest
      else
        match convertWorldToCloudLocal K pos worldPosition with
        | .ok (x, y) =>
          match cloud.2.addCloud compound density x y with
          | .ok t => .ok (true, all.setTile i t)
          | .error e => .error e
        | .error .invalidArgument => .ok (false, all)
        | .error e => .error e
    else addCloudScan K compound density worldPosition all (i + 1) rest

/-- System-level `addCloud`. -/
def CompoundCloudSystem.addCloud (K : CloudConstants) (s : CompoundCloudSystem)
    (compound : CompoundId) (density : ℚ) (worldPosition : Float3) :
    Except CloudError (Bool × CompoundCloudSystem) :=
  match addCloudScan K compound density worldPosition s.m_managedClouds 0 s.m_managedClouds with
  | .ok (b, m) => .ok (b, { s with m_managedClouds := m })
  | .error e => .error e

/-- System-level `takeCompound`: the scan of `m_managedClouds`. The result is
a `float`: the `int` of the tile converted, or `false` converted (`0`). -/
def takeCompoundScan (K : CloudConstants) (compound : CompoundId) (worldPosition : Float3)
    (rate : ℚ) (all : ManagedClouds) :
    Nat → ManagedClouds → Except CloudError (ℚ × ManagedClouds)
  | _, [] => .ok (0, all)
  | i, cloud :: rest =>
    let pos := cloud.2.m_position
    if cloudContainsPosition K pos worldPosition then
      if !cloud.2.handlesCompound compound then
        takeCompoundScan K compound worldPosition rate all (i + 1) rest
      else
        match convertWorldToCloudLocal K pos worldPosition with
        | .ok (x, y) =>
          match cloud.2.takeCompound compound x y rate with
          | .ok (amount, t) => .ok ((amount : ℚ), all.setTile i t)
          | .error e => .error e
        | .error .invalidArgument => .ok (0, all)
        | .error e => .error e
    else takeCompoundScan K compound worldPosition rate all (i + 1) rest

/-- System-level `takeCompound`. -/
def CompoundCloudSystem.takeCompound (K : CloudConstants) (s : CompoundCloudSystem)
    (compound : CompoundId) (worldPosition : Float3) (rate : ℚ) :
    Except CloudError (ℚ × CompoundCloudSystem) :=
  match takeCompoundScan K compound worldPosition rate s.m_managedClouds 0 s.m_managedClouds with
  | .ok (v, m) => .ok (v, { s with m_managedClouds := m })
  | .error e => .error e

/-- System-level `amountAvailable`: the scan of `m_managedClouds`. -/
def amountAvailableScan (K : CloudConstants) (compound : CompoundId) (worldPosition : Float3)
    (rate : ℚ) : ManagedClouds → Except CloudError ℚ
  | [] => .ok 0
  | cloud :: rest =>
    let pos := cloud.2.m_position
    if cloudContainsPosition K pos worldPosition then
      if !cloud.2.handlesCompound compound then
        amountAvailableScan K compound worldPosition rate rest
      else
        match convertWorldToCloudLocal K pos worldPosition with
        | .ok (x, y) =>
          match cloud.2.amountAvailable compound x y rate with
          | .ok amount => .ok (amount : ℚ)
          | .error e => .error e
        | .error .invalidArgument => .ok 0
        | .error e => .error e
    else amountAvailableScan K compound worldPosition rate rest

/-- System-level `amountAvailable`. -/
def CompoundCloudSystem.amountAvailable (K : CloudConstants) (s : CompoundCloudSystem)
    (compound : CompoundId) (worldPosition : Float3) (rate : ℚ) : Except CloudError ℚ :=
  amountAvailableScan K compound worldPosition rate s.m_managedClouds

/-- `getAllAvailableAt`: the scan of `m_managedClouds`, appending to `result`. -/
def getAllAvailableAtScan (K : CloudConstants) (worldPosition : Float3) :
    ManagedClouds → List (CompoundId × ℚ) → List (CompoundId × ℚ)
  | [], result => result
  | cloud :: rest, result =>
    let pos := cloud.2.m_position
    if cloudContainsPosition K pos worldPosition then
      match convertWorldToCloudLocal K pos worldPosition with
      | .ok (x, y) =>
        getAllAvailableAtScan K worldPosition rest (cloud.2.getCompoundsAt K x y result)
      | .error _ => getAllAvailableAtScan K worldPosition rest result
    else getAllAvailableAtScan K worldPosition rest result

/-- `getAllAvailableAt`. -/
def CompoundCloudSystem.getAllAvailableAt (K : CloudConstants) (s : CompoundCloudSystem)
    (worldPosition : Float3) : List (CompoundId × ℚ) :=
  getAllAvailableAtScan K worldPosition s.m_managedClouds []

/-! ## CompoundCloudSystem: the window of tiles -/

/-- The part of the host world the system uses: `CreateEntity` hands out
`entities 0`, `entities 1`, ... -/
structure CellStageWorld where
  entities : Nat → ObjectID
  created : Nat

/-- `world.CreateEntity()`. -/
def CellStageWorld.CreateEntity (world : CellStageWorld) : ObjectID × CellStageWorld :=
  (world.entities world.created, { world with created := world.created + 1 })

/-- The assignment `m_managedClouds[entity] = &cloud`: replaces the value of a
key that is present, and inserts the key otherwise (a new key comes last in
the iteration order of the model). -/
def ManagedClouds.assign (m : ManagedClouds) (entity : ObjectID)
    (cloud : CompoundCloudComponent) : ManagedClouds :=
  if m.any (fun e => e.1 == entity) then
    m.map (fun e => if e.1 == entity then (e.1, cloud) else e)
  else m ++ [(entity, cloud)]

/-- `initializeCloud`, the simulation part: the vectors of every bound slot
are resized to the grid size and filled with zeroes. -/
def initializeCloud (K : CloudConstants) (cloud : CompoundCloudComponent) :
    CompoundCloudComponent :=
  let c1 := if cloud.m_compoundId1 ≠ K.NULL_COMPOUND then
      { cloud with m_density1 := Grid.zero, m_oldDens1 := Grid.zero }
    else cloud
  let c2 := if c1.m_compoundId2 ≠ K.NULL_COMPOUND then
      { c1 with m_density2 := Grid.zero, m_oldDens2 := Grid.zero }
    else c1
  let c3 := if c2.m_compoundId3 ≠ K.NULL_COMPOUND then
      { c2 with m_density3 := Grid.zero, m_oldDens3 := Grid.zero }
    else c2
  let c4 := if c3.m_compoundId4 ≠ K.NULL_COMPOUND then
      { c3 with m_density4 := Grid.zero, m_oldDens4 := Grid.zero }
    else c3
  { c4 with m_initialized := true }

/-- `_spawnCloud`. -/
def spawnCloud (K : CloudConstants) (cloudTypes : List Compound)
    (st : CellStageWorld × ManagedClouds) (pos : Float3) (startIndex : Nat) :
    Except CloudError (CellStageWorld × ManagedClouds) :=
  let (entity, world) := st.1.CreateEntity
  let first := if startIndex < cloudTypes.length then cloudTypes[startIndex]? else none
  let second := if startIndex + 1 < cloudTypes.length then cloudTypes[startIndex + 1]? else none
  let third := if startIndex + 2 < cloudTypes.length then cloudTypes[startIndex + 2]? else none
  let fourth := if startIndex + 3 < cloudTypes.length then cloudTypes[startIndex + 3]? else none
  match CompoundCloudComponent.create K first second third fourth with
  | .error e => .error e
  | .ok cloud =>
    .ok (world, st.2.assign entity (initializeCloud K { cloud with m_position := pos }))

/-- The values of the loop variable of
`for (c = 0; c < n; c += CLOUDS_IN_ONE)`: `0, 4, 8, ...` below `n`. -/
def groupStarts (n : Nat) : List Nat :=
  (List.range ((n + (CLOUDS_IN_ONE - 1)) / CLOUDS_IN_ONE)).map (fun g => g * CLOUDS_IN_ONE)

/-- The inner loop of the initial spawning: one tile of the group at every
position. -/
def spawnGroup (K : CloudConstants) (cloudTypes : List Compound) (startIndex : Nat) :
    List Float3 → CellStageWorld × ManagedClouds →
      Except CloudError (CellStageWorld × ManagedClouds)
  | [], st => .ok st
  | pos :: rest, st =>
    match spawnCloud K cloudTypes st pos startIndex with
    | .error e => .error e
    | .ok st1 => spawnGroup K cloudTypes startIndex rest st1

/-- The outer loop of the initial spawning, over the groups. -/
def spawnAll (K : CloudConstants) (cloudTypes : List Compound) (required : List Float3) :
    List Nat → CellStageWorld × ManagedClouds →
      Except CloudError (CellStageWorld × ManagedClouds)
  | [], st => .ok st
  | i :: rest, st =>
    match spawnGroup K cloudTypes i required st with
    | .error e => .error e
    | .ok st1 => spawnAll K cloudTypes required rest st1

/-- The test `(pos - requiredPos).HAddAbs() < Leviathan::EPSILON`. -/
def positionMatches (K : CloudConstants) (pos requiredPos : Float3) : Bool :=
  decide ((pos.sub requiredPos).HAddAbs < K.EPSILON)

/-- What `applyNewCloudPositioning` works on and leaves behind. The tile
pointers of `m_tooFarAwayClouds` are places in the iteration order of
`m_managedClouds`; `none` is `nullptr`. `recycled` and `fatal` record the
calls of `recycleToPosition` (place of the tile, new position) and the number
of `LOG_FATAL` calls. -/
structure Repositioning where
  clouds : ManagedClouds
  tooFarAway : List (Option Nat)
  recycled : List (Nat × Float3)
  fatal : Nat

/-- The first loop of `applyNewCloudPositioning`: every tile that is at none
of the required positions is appended to `m_tooFarAwayClouds`. `i` is the
place of the head of the remaining tiles, `far` the entries
`0 .. farAwayIndex - 1` (the later loops read no entry beyond them, so the
model keeps only these); the second component of the result counts the
`LOG_FATAL` of this loop. -/
def collectFarAway (K : CloudConstants) (required : List Float3) (maxFarClouds : Nat) :
    Nat → ManagedClouds → List (Option Nat) → List (Option Nat) × Nat
  | _, [], far => (far, 0)
  | i, cloud :: rest, far =>
    let matched := required.any (fun requiredPos => positionMatches K cloud.2.m_position requiredPos)
    if !matched then
      if far.length ≥ maxFarClouds then (far, 1)
      else collectFarAway K required maxFarClouds (i + 1) rest (far ++ [some i])
    else collectFarAway K required maxFarClouds (i + 1) rest far

/-- The scan for `hasCloud`: some tile is at `requiredPos` and has the group
type as its first compound. -/
def hasCloudAt (K : CloudConstants) (clouds : ManagedClouds) (groupType : CompoundId)
    (requiredPos : Float3) : Bool :=
  clouds.any (fun e => positionMatches K e.2.m_position requiredPos &&
    decide (groupType = e.2.getCompoundId1))

/-- The scan of `m_tooFarAwayClouds` for a candidate: the first entry that is
not null and whose tile has the group type as its first compound. Returns the
index of the entry, the place of the tile and the tile. -/
def findCandidate (clouds : ManagedClouds) (groupType : CompoundId) :
    Nat → List (Option Nat) → Option (Nat × Nat × CompoundCloudComponent)
  | _, [] => none
  | j, entry :: rest =>
    match entry with
    | some k =>
      match clouds[k]? with
      | some e =>
        if e.2.getCompoundId1 = groupType then some (j, k, e.2)
        else findCandidate clouds groupType (j + 1) rest
      | none => findCandidate clouds groupType (j + 1) rest
    | none => findCandidate clouds groupType (j + 1) rest

/-- The loop over the required positions for one group; it stops at the first
position that cannot be filled (`LOG_FATAL; break`). -/
def fillGroup (K : CloudConstants) (groupType : CompoundId) :
    List Float3 → Repositioning → Repositioning
  | [], st => st
  | requiredPos :: rest, st =>
    if hasCloudAt K st.clouds groupType requiredPos then fillGroup K groupType rest st
    else
      match findCandidate st.clouds groupType 0 st.tooFarAway with
      | some (j, k, cloud) =>
        fillGroup K groupType rest
          { st with
            clouds := st.clouds.setTile k (cloud.recycleToPosition K requiredPos)
            tooFarAway := st.tooFarAway.set j none
            recycled := st.recycled ++ [(k, requiredPos)] }
      | none => { st with fatal := st.fatal + 1 }

/-- The loop over the groups, `c` running through `groupStarts`. -/
def fillGroups (K : CloudConstants) (cloudTypes : List Compound) (required : List Float3) :
    List Nat → Repositioning → Repositioning
  | [], st => st
  | c :: rest, st =>
    match cloudTypes[c]? with
    | some groupCompound =>
      fillGroups K cloudTypes required rest (fillGroup K groupCompound.id required st)
    | none => fillGroups K cloudTypes required rest st

/-- The last loop: one `LOG_FATAL` for every entry that is still not null. -/
def countNotMoved (far : List (Option Nat)) : Nat :=
  (far.filter (fun entry => entry.isSome)).length

/-- `applyNewCloudPositioning`. -/
def applyNewCloudPositioning (K : CloudConstants) (s : CompoundCloudSystem) : Repositioning :=
  let requiredCloudPositions := calculateGridPositions K s.m_cloudGridCenter
  let MAX_FAR_CLOUDS := s.m_managedClouds.length
  let far := collectFarAway K requiredCloudPositions MAX_FAR_CLOUDS 0 s.m_managedClouds []
  let st := fillGroups K s.m_cloudTypes requiredCloudPositions
    (groupStarts s.m_cloudTypes.length)
    { clouds := s.m_managedClouds, tooFarAway := far.1, recycled := [], fatal := far.2 }
  { st with fatal := st.fatal + countNotMoved st.tooFarAway }

/-- The count the assertion of `doSpawnCycle` compares with. -/
def expectedCloudCount (n : Nat) : Nat := (((n + 4 - 1) / 4 * 4) / 4) * 9

/-- What a spawn cycle leaves behind: the world, the system, and the record
of the repositioning (empty when the centre did not change). -/
structure SpawnCycle where
  world : CellStageWorld
  system : CompoundCloudSystem
  recycled : List (Nat × Float3)
  fatal : Nat

/-- The first part of `doSpawnCycle`: the initial spawning if there is no
tile yet. -/
def initialSpawn (K : CloudConstants) (world : CellStageWorld) (s : CompoundCloudSystem) :
    Except CloudError (CellStageWorld × CompoundCloudSystem) :=
  if s.m_managedClouds.isEmpty then
    let center : Float3 := ⟨0, 0, 0⟩
    match spawnAll K s.m_cloudTypes (calculateGridPositions K center)
        (groupStarts s.m_cloudTypes.length) (world, s.m_managedClouds) with
    | .error e => .error e
    | .ok (w, m) => .ok (w, { s with m_cloudGridCenter := center, m_managedClouds := m })
  else .ok (world, s)

/-- The second part of `doSpawnCycle`: the assertion on the number of tiles,
then the repositioning if the centre has to change. -/
def updateWindow (K : CloudConstants) (world : CellStageWorld) (s : CompoundCloudSystem)
    (playerPos : Float3) : Except CloudError SpawnCycle :=
  if s.m_managedClouds.length ≠ expectedCloudCount s.m_cloudTypes.length then
    .error .assertionFailed
  else
    let targetCenter := calculateGridCenterForPlayerPos K playerPos
    if s.m_cloudGridCenter ≠ targetCenter then
      let s2 := { s with m_cloudGridCenter := targetCenter }
      let r := applyNewCloudPositioning K s2
      .ok { world := world, system := { s2 with m_managedClouds := r.clouds },
            recycled := r.recycled, fatal := r.fatal }
    else .ok { world := world, system := s, recycled := [], fatal := 0 }

/-- `doSpawnCycle`. -/
def doSpawnCycle (K : CloudConstants) (world : CellStageWorld) (s : CompoundCloudSystem)
    (playerPos : Float3) : Except CloudError SpawnCycle :=
  match initialSpawn K world s with
  | .error e => .error e
  | .ok (w, s1) => updateWindow K w s1 playerPos

/-- `registerCloudTypes`. -/
def registerCloudTypes (K : CloudConstants) (world : CellStageWorld) (s : CompoundCloudSystem)
    (clouds : List Compound) : Except CloudError SpawnCycle :=
  doSpawnCycle K world { s with m_cloudTypes := clouds } ⟨0, 0, 0⟩

/-! ## Notions used in the statements -/

/-- The sum of all cells of a grid of `W x H` cells. -/
def Grid.sum (W H : Nat) (g : Grid) : ℚ :=
  ∑ x in Finset.range W, ∑ y in Finset.range H, g x y

/-- The border cells inside the grid are all zero. -/
def BorderZero (W H : Nat) (g : Grid) : Prop :=
  ∀ i j, i < W → j < H → (i = 0 ∨ i + 1 = W ∨ j = 0 ∨ j + 1 = H) → g i j = 0

/-- The targets of every source cell of `advect` (interior, with more than 1
in `previous`) are at least one cell away from the border of the grid. -/
def TargetsInside (K : CloudConstants) (oldDens : Grid) (dt : ℚ) (fluidSystem : FluidSystem)
    (pos : Float2) : Prop :=
  ∀ x y, 1 ≤ x → x + 1 < K.CLOUD_SIMULATION_WIDTH → 1 ≤ y → y + 1 < K.CLOUD_SIMULATION_HEIGHT →
    oldDens x y > 1 →
      1 ≤ advectTarget K.CLOUD_SIMULATION_WIDTH x dt (advectVelocity K fluidSystem pos x y).X ∧
      advectTarget K.CLOUD_SIMULATION_WIDTH x dt (advectVelocity K fluidSystem pos x y).X ≤
        (K.CLOUD_SIMULATION_WIDTH : ℚ) - 2 ∧
      1 ≤ advectTarget K.CLOUD_SIMULATION_HEIGHT y dt (advectVelocity K fluidSystem pos x y).Y ∧
      advectTarget K.CLOUD_SIMULATION_HEIGHT y dt (advectVelocity K fluidSystem pos x y).Y ≤
        (K.CLOUD_SIMULATION_HEIGHT : ℚ) - 2

/-- The id slot `i` of the registry gives to a tile: the id of the type
number `i` when it exists, `NULL_COMPOUND` (unbound) otherwise. -/
def slotId (K : CloudConstants) (cloudTypes : List Compound) (i : Nat) : CompoundId :=
  match cloudTypes[i]? with
  | some c => c.id
  | none => K.NULL_COMPOUND

/-- The tile the initial spawn is expected to create for the group that
starts at type number `c`, at the position `pos`: bound to the types
`c .. c + 3` as far as they exist, all densities zero. -/
def freshTile (K : CloudConstants) (cloudTypes : List Compound) (c : Nat) (pos : Float3) :
    CompoundCloudComponent :=
  { m_position := pos
    m_compoundId1 := slotId K cloudTypes c
    m_compoundId2 := slotId K cloudTypes (c + 1)
    m_compoundId3 := slotId K cloudTypes (c + 2)
    m_compoundId4 := slotId K cloudTypes (c + 3)
    m_density1 := Grid.zero
    m_density2 := Grid.zero
    m_density3 := Grid.zero
    m_density4 := Grid.zero
    m_oldDens1 := Grid.zero
    m_oldDens2 := Grid.zero
    m_oldDens3 := Grid.zero
    m_oldDens4 := Grid.zero
    m_initialized := true }

/-- The empty state: types registered, no tile yet. -/
def emptySystem (cloudTypes : List Compound) : CompoundCloudSystem :=
  { m_cloudTypes := cloudTypes, m_cloudGridCenter := ⟨0, 0, 0⟩, m_managedClouds := [] }

/-- Every handle of the map was handed out by the world before. -/
def HandlesKnown (st : CellStageWorld × ManagedClouds) : Prop :=
  ∀ e ∈ st.2, ∃ j, j < st.1.created ∧ e.1 = st.1.entities j

/-- The first compound ids of the groups: the ids of the types number
`0, 4, 8, ...` of the registry. -/
def groupTypes (cloudTypes : List Compound) : List CompoundId :=
  (groupStarts cloudTypes.length).filterMap (fun c => cloudTypes[c]?.map (fun t => t.id))

/-- The test "tile `e` belongs to the group of `groupType` and is at `pos`". -/
def isTileOf (groupType : CompoundId) (pos : Float3) (e : ObjectID × CompoundCloudComponent) :
    Bool :=
  decide (e.2.getCompoundId1 = groupType) && decide (e.2.m_position = pos)

/-- The number of tiles of a group at a position. -/
def tilesOf (clouds : ManagedClouds) (groupType : CompoundId) (pos : Float3) : Nat :=
  clouds.countP (isTileOf groupType pos)

/-- The Stable state of the window for the centre `center`: every tile
belongs to a group and is at a required position, and every group has exactly
one tile at every required position. -/
structure Stable (K : CloudConstants) (cloudTypes : List Compound) (center : Float3)
    (clouds : ManagedClouds) : Prop where
  known : ∀ e ∈ clouds, e.2.getCompoundId1 ∈ groupTypes cloudTypes ∧
    e.2.m_position ∈ calculateGridPositions K center
  one : ∀ g ∈ groupTypes cloudTypes, ∀ p ∈ calculateGridPositions K center,
    tilesOf clouds g p = 1

/-- The test of the first loop of `applyNewCloudPositioning`: the tile is at
none of the required positions. -/
def isDisplaced (K : CloudConstants) (required : List Float3)
    (e : ObjectID × CompoundCloudComponent) : Bool :=
  !required.any (fun requiredPos => positionMatches K e.2.m_position requiredPos)

/-- What the theorems on the window need of the constants: a positive
epsilon that is not more than the distance between two tile centres. -/
structure CloudConstants.Sound (K : CloudConstants) : Prop where
  epsilon_pos : 0 < K.EPSILON
  epsilon_le_x : K.EPSILON ≤ K.CLOUD_X_EXTENT
  epsilon_le_y : K.EPSILON ≤ K.CLOUD_Y_EXTENT

/-- The position is a tile centre: integer multiples of the extents, `Y = 0`. -/
def OnGrid (K : CloudConstants) (p : Float3) : Prop :=
  ∃ i j : ℤ, p = ⟨(i : ℚ) * K.CLOUD_X_EXTENT, 0, (j : ℚ) * K.CLOUD_Y_EXTENT⟩

/-- The nine offsets of the required positions, in tile steps. -/
def gridOffsets : List (ℤ × ℤ) :=
  [(0, 0), (-1, -1), (0, -1), (1, -1), (-1, 0), (1, 0), (-1, 1), (0, 1), (1, 1)]

/-- The position `o` tile steps away from `center`. -/
def offsetPosition (K : CloudConstants) (center : Float3) (o : ℤ × ℤ) : Float3 :=
  ⟨center.X + (o.1 : ℚ) * K.CLOUD_X_EXTENT, center.Y, center.Z + (o.2 : ℚ) * K.CLOUD_Y_EXTENT⟩

/-- The places of the displaced tiles among `rest`, the place of its head
being `i`. -/
def displacedFrom (K : CloudConstants) (required : List Float3) :
    Nat → ManagedClouds → List Nat
  | _, [] => []
  | i, e :: rest =>
    if isDisplaced K required e then i :: displacedFrom K required (i + 1) rest
    else displacedFrom K required (i + 1) rest

/-- What holds between the iterations of the second loop of
`applyNewCloudPositioning`, for the group types `G`, the required positions
`P` and `D` tiles displaced at the start. -/
structure FillInvariant (K : CloudConstants) (G : List CompoundId) (P : List Float3) (D : Nat)
    (st : Repositioning) : Prop where
  known : ∀ e ∈ st.clouds, e.2.getCompoundId1 ∈ G
  exact : ∀ e ∈ st.clouds, ∀ r ∈ P,
    (positionMatches K e.2.m_position r = true ↔ e.2.m_position = r)
  atMostOne : ∀ g ∈ G, ∀ p ∈ P, tilesOf st.clouds g p ≤ 1
  nine : ∀ g ∈ G, st.clouds.countP (fun e => decide (e.2.getCompoundId1 = g)) = P.length
  farOnce : ∀ k, st.tooFarAway.countP (fun a => decide (a = some k)) ≤ 1
  farIff : ∀ k, some k ∈ st.tooFarAway ↔ ∃ e, st.clouds[k]? = some e ∧ e.2.m_position ∉ P
  noFatal : st.fatal = 0
  balance : st.recycled.length + countNotMoved st.tooFarAway = D

/-- Every cell inside the grid, of both grids of every bound slot, is zero. -/
def CompoundCloudComponent.Cleared (K : CloudConstants) (t : CompoundCloudComponent) : Prop :=
  ∀ slot, t.compoundId slot ≠ K.NULL_COMPOUND →
    ∀ x y, x < K.CLOUD_SIMULATION_WIDTH → y < K.CLOUD_SIMULATION_HEIGHT →
      t.density slot x y = 0 ∧ t.oldDens slot x y = 0

/-- The positions the tiles of a group were recycled to, in the order of the
calls. -/
def recycledTargets (clouds : ManagedClouds) (recycled : List (Nat × Float3))
    (g : CompoundId) : List Float3 :=
  (recycled.filter (fun kp =>
    match clouds[kp.1]? with
    | some e => decide (e.2.getCompoundId1 = g)
    | none => false)).map Prod.snd

/-- What the record of the recycling calls says about the tiles, `clouds0`
being the tiles before the repositioning: a recycled tile is the old tile at
its place after `recycleToPosition`, and every other tile is as it was. -/
structure TraceInvariant (K : CloudConstants) (P : List Float3) (clouds0 : ManagedClouds)
    (st : Repositioning) : Prop where
  done : ∀ kp ∈ st.recycled, kp.2 ∈ P ∧
    ∃ e0, clouds0[kp.1]? = some e0 ∧ e0.2.m_position ∉ P ∧
      st.clouds[kp.1]? = some (e0.1, e0.2.recycleToPosition K kp.2)
  untouched : ∀ k, (∀ p, (k, p) ∉ st.recycled) → st.clouds[k]? = clouds0[k]?
  sameLength : st.clouds.length = clouds0.length

/-- The required positions of `target` that are not required positions of
`center`. -/
def newlyRequired (K : CloudConstants) (center target : Float3) : List Float3 :=
  (calculateGridPositions K target).filter
    (fun p => decide (p ∉ calculateGridPositions K center))

/-- The observer at `q` moves by `d`, which is one tile extent along one axis,
and does not go from the half-way point `-extent/2` to `+extent/2` or back
(where `std::round` moves the centre by two extents). -/
def OneTileStep (K : CloudConstants) (q d : Float3) : Prop :=
  (d = ⟨K.CLOUD_X_EXTENT, 0, 0⟩ ∧ q.X / K.CLOUD_X_EXTENT ≠ -1 / 2) ∨
  (d = ⟨-K.CLOUD_X_EXTENT, 0, 0⟩ ∧ q.X / K.CLOUD_X_EXTENT ≠ 1 / 2) ∨
  (d = ⟨0, 0, K.CLOUD_Y_EXTENT⟩ ∧ q.Z / K.CLOUD_Y_EXTENT ≠ -1 / 2) ∨
  (d = ⟨0, 0, -K.CLOUD_Y_EXTENT⟩ ∧ q.Z / K.CLOUD_Y_EXTENT ≠ 1 / 2)

/-- The tile has a bound slot that is bound to `id`: the id of the slot is not
`NULL_COMPOUND` (the test `getCompoundsAt` and `clearContents` use for a bound
slot) and it is `id`. -/
def CompoundCloudComponent.BoundTo (K : CloudConstants) (t : CompoundCloudComponent)
    (id : CompoundId) : Prop :=
  ∃ slot : SLOT, t.compoundId slot ≠ K.NULL_COMPOUND ∧ t.compoundId slot = id

/-- The spec's formula for the local cell, per axis
`floor((worldPos - (tilePos - halfExtent)) / cellResolution)`, as integers
(first the value along X, then the one along Z). -/
def localCellFormula (K : CloudConstants) (cloudPosition worldPosition : Float3) : ℤ × ℤ :=
  (⌊(worldPosition.X - (cloudPosition.X - K.CLOUD_WIDTH)) / K.CLOUD_RESOLUTION⌋,
    ⌊(worldPosition.Z - (cloudPosition.Z - K.CLOUD_HEIGHT)) / K.CLOUD_RESOLUTION⌋)

/-- The integer fits a signed 64-bit word: the range in which the conversion
of a floored float to `size_t` is the reduction modulo `2^64`. -/
def FitsWord (z : ℤ) : Prop := -(2 ^ 63) ≤ z ∧ z < 2 ^ 63

/-- The test the routing operations make on a tile before they use it: its
rectangle contains the position and it handles the compound. -/
def routeMatches (K : CloudConstants) (compound : CompoundId) (worldPosition : Float3)
    (e : ObjectID × CompoundCloudComponent) : Bool :=
  cloudContainsPosition K e.2.m_position worldPosition && e.2.handlesCompound compound

/-- Place `i` holds the first tile, in scan order, that passes the test of the
routing operations. -/
def FirstMatch (K : CloudConstants) (compound : CompoundId) (worldPosition : Float3)
    (clouds : ManagedClouds) (i : Nat) (e : ObjectID × CompoundCloudComponent) : Prop :=
  clouds[i]? = some e ∧ routeMatches K compound worldPosition e = true ∧
    ∀ j e1, j < i → clouds[j]? = some e1 → routeMatches K compound worldPosition e1 = false

/-- The snapshot of a cell as the spec words it: the pairs `(id, density)` of
the bound slots whose density at the cell is more than 0, in the order of the
slots. -/
def snapshotAt (K : CloudConstants) (t : CompoundCloudComponent) (x y : Nat) :
    List (CompoundId × ℚ) :=
  ([SLOT.FIRST, SLOT.SECOND, SLOT.THIRD, SLOT.FOURTH].filter
    (fun slot => decide (t.compoundId slot ≠ K.NULL_COMPOUND) &&
      decide (t.density slot x y > 0))).map
    (fun slot => (t.compoundId slot, t.density slot x y))

/-- What one tile adds to the list of `getAllAvailableAt`, as the spec words
it: its snapshot at the converted cell when its rectangle contains the
position and the conversion succeeds, nothing otherwise. -/
def tileContribution (K : CloudConstants) (worldPosition : Float3)
    (e : ObjectID × CompoundCloudComponent) : List (CompoundId × ℚ) :=
  if cloudContainsPosition K e.2.m_position worldPosition then
    match convertWorldToCloudLocal K e.2.m_position worldPosition with
    | .ok (x, y) => snapshotAt K e.2 x y
    | .error _ => []
  else []

/-- The half-extents of the containment test are half the distance between
neighbouring tile centres (half the tile's world extent), which is positive. -/
structure CloudConstants.HalfExtents (K : CloudConstants) : Prop where
  x_pos : 0 < K.CLOUD_X_EXTENT
  y_pos : 0 < K.CLOUD_Y_EXTENT
  width : 2 * K.CLOUD_WIDTH = K.CLOUD_X_EXTENT
  height : 2 * K.CLOUD_HEIGHT = K.CLOUD_Y_EXTENT

/-- The world point is inside the window of 3 x 3 tiles around `center`: per
axis in `[center - 1.5 * extent, center + 1.5 * extent)`. -/
def InWindow (K : CloudConstants) (center p : Float3) : Prop :=
  center.X - 3 / 2 * K.CLOUD_X_EXTENT ≤ p.X ∧ p.X < center.X + 3 / 2 * K.CLOUD_X_EXTENT ∧
  center.Z - 3 / 2 * K.CLOUD_Y_EXTENT ≤ p.Z ∧ p.Z < center.Z + 3 / 2 * K.CLOUD_Y_EXTENT

/-- The tile is bound as the registry binds the tiles of a group: for the
start `c` of a group, its four slots carry the ids of the types number
`c .. c + 3` as far as those exist and are unbound beyond. -/
def RegisteredTile (K : CloudConstants) (cloudTypes : List Compound)
    (t : CompoundCloudComponent) : Prop :=
  ∃ c ∈ groupStarts cloudTypes.length,
    t.m_compoundId1 = slotId K cloudTypes c ∧
    t.m_compoundId2 = slotId K cloudTypes (c + 1) ∧
    t.m_compoundId3 = slotId K cloudTypes (c + 2) ∧
    t.m_compoundId4 = slotId K cloudTypes (c + 3)

/-- The cell is inside the grid of `W x H` cells and on its border ring. -/
def IsBorderCell (W H x y : Nat) : Prop :=
  x < W ∧ y < H ∧ (x = 0 ∨ x + 1 = W ∨ y = 0 ∨ y + 1 = H)

/-- The two tiles agree everywhere except on border-ring cells of the current
grids: same position, same ids, same previous grids, and the same value in
every cell of a current grid that is not a border-ring cell. -/
structure AgreeOffBorder (K : CloudConstants) (t1 t2 : CompoundCloudComponent) : Prop where
  position : t1.m_position = t2.m_position
  ids : ∀ s : SLOT, t1.compoundId s = t2.compoundId s
  previous : ∀ s : SLOT, t1.oldDens s = t2.oldDens s
  current : ∀ (s : SLOT) (x y : Nat),
    ¬ IsBorderCell K.CLOUD_SIMULATION_WIDTH K.CLOUD_SIMULATION_HEIGHT x y →
      t1.density s x y = t2.density s x y

/-- What holds of the tiles at the required positions during the second loop
of `applyNewCloudPositioning`, `clouds0` being the tiles before it: the
far-away list names displaced tiles only, and a tile that was not displaced
is still in its place as it was. -/
structure FrameInvariant (K : CloudConstants) (P : List Float3) (clouds0 : ManagedClouds)
    (st : Repositioning) : Prop where
  far : ∀ k, some k ∈ st.tooFarAway →
    ∃ e, clouds0[k]? = some e ∧ isDisplaced K P e = true
  kept : ∀ (k : Nat) (e : ObjectID × CompoundCloudComponent), clouds0[k]? = some e →
    isDisplaced K P e = false → st.clouds[k]? = some e

/-- Constants of a toy configuration: grids of 4 x 4 cells of 2 world units,
tiles of 8 x 8 world units. -/
def toyConstants : CloudConstants :=
  { CLOUD_SIMULATION_WIDTH := 4
    CLOUD_SIMULATION_HEIGHT := 4
    CLOUD_RESOLUTION := 2
    CLOUD_WIDTH := 4
    CLOUD_HEIGHT := 4
    CLOUD_X_EXTENT := 8
    CLOUD_Y_EXTENT := 8
    EPSILON := 1 / 100000
    NULL_COMPOUND := 65535 }

/-- A tile at the origin bound to the compounds 1 and 2, with density 3
everywhere in the first channel and nothing elsewhere. -/
def toyTile : CompoundCloudComponent :=
  { m_position := ⟨0, 0, 0⟩
    m_compoundId1 := 1
    m_compoundId2 := 2
    m_compoundId3 := 65535
    m_compoundId4 := 65535
    m_density1 := fun _ _ => 3
    m_density2 := Grid.zero
    m_density3 := Grid.zero
    m_density4 := Grid.zero
    m_oldDens1 := Grid.zero
    m_oldDens2 := Grid.zero
    m_oldDens3 := Grid.zero
    m_oldDens4 := Grid.zero
    m_initialized := true }

/-- A system that manages the one tile `toyTile`. -/
def toySystem : CompoundCloudSystem :=
  { m_cloudTypes := [⟨1⟩, ⟨2⟩]
    m_cloudGridCenter := ⟨0, 0, 0⟩
    m_managedClouds := [(100, toyTile)] }

/-- The `current` grid of the 4 x 4 scenario: 1000 at `[1][1]`, 0 elsewhere. -/
def scenarioCurrent : Grid := fun x y => if x = 1 ∧ y = 1 then 1000 else 0

/-- A velocity field that pushes everything far to the left. -/
def windToTheLeft : FluidSystem := fun _ => ⟨-1000, 0⟩

/-- The velocity field of a fluid at rest. -/
def stillFluid : FluidSystem := fun _ => ⟨0, 0⟩

/-- The tile `toyTile` moved to the position `p`. -/
def toyTileAt (p : Float3) : CompoundCloudComponent := { toyTile with m_position := p }

/-- A Stable window of the toy configuration: the two compound types 1 and 2
(one group), centre at the origin, one tile at each of the nine required
positions. -/
def toyWindow : CompoundCloudSystem :=
  { m_cloudTypes := [⟨1⟩, ⟨2⟩]
    m_cloudGridCenter := ⟨0, 0, 0⟩
    m_managedClouds :=
      [ (100, toyTileAt ⟨0, 0, 0⟩), (101, toyTileAt ⟨-8, 0, -8⟩), (102, toyTileAt ⟨0, 0, -8⟩),
        (103, toyTileAt ⟨8, 0, -8⟩), (104, toyTileAt ⟨-8, 0, 0⟩), (105, toyTileAt ⟨8, 0, 0⟩),
        (106, toyTileAt ⟨-8, 0, 8⟩), (107, toyTileAt ⟨0, 0, 8⟩), (108, toyTileAt ⟨8, 0, 8⟩) ] }

/-- A host world that hands out the handles `100, 101, ...`. -/
def toyWorld : CellStageWorld := { entities := fun n => n + 100, created := 9 }

/-- The tile `toyTile` with 500 more in the corner cell `(0, 0)` and in the
border cell `(3, 1)` of its first current grid. -/
def toyBorderTile : CompoundCloudComponent :=
  { toyTile with
    m_density1 := fun x y => if (x = 0 ∧ y = 0) ∨ (x = 3 ∧ y = 1) then 503 else 3 }

/-! ## Theorems -/

/-! ### Numbers -/

theorem cppTrunc_of_nonneg {q : ℚ} (h : 0 ≤ q) : cppTrunc q = ⌊q⌋ := by
  simp [cppTrunc, h]

theorem getSlotForCompound_of_handles (t : CompoundCloudComponent) (compound : CompoundId)
    (h : t.handlesCompound compound = true) :
    ∃ slot, t.getSlotForCompound compound = .ok slot := by
  unfold CompoundCloudComponent.handlesCompound at h
  unfold CompoundCloudComponent.getSlotForCompound
  split_ifs at h ⊢ <;> simp at h ⊢

theorem takeCompound_of_slot (t : CompoundCloudComponent) (compound : CompoundId) (x y : Nat)
    (rate : ℚ) (slot : SLOT) (h : t.getSlotForCompound compound = .ok slot) :
    ∃ t1, t.takeCompound compound x y rate =
        .ok ((CompoundCloudComponent.takeFromCell (t.density slot x y) rate).1, t1) ∧
      t1.density slot x y = (CompoundCloudComponent.takeFromCell (t.density slot x y) rate).2 := by
  unfold CompoundCloudComponent.takeCompound
  rw [h]
  cases slot <;>
    simp [CompoundCloudComponent.density, Grid.set]

theorem forRange_succ {σ : Type} (lo n : Nat) (body : Nat → σ → σ) (s : σ) :
    forRange lo (n + 1) body s = body (lo + n) (forRange lo n body s) := rfl

theorem forRange_zero {σ : Type} (lo : Nat) (body : Nat → σ → σ) (s : σ) :
    forRange lo 0 body s = s := rfl

/-- A property kept by every iteration is kept by the loop. -/
theorem forRange_preserves {σ : Type} (P : σ → Prop) (lo n : Nat) (body : Nat → σ → σ)
    (hbody : ∀ i s, lo ≤ i → i < lo + n → P s → P (body i s)) (s : σ) (hs : P s) :
    P (forRange lo n body s) := by
  induction n with
  | zero => exact hs
  | succ n ih =>
    rw [forRange_succ]
    exact hbody _ _ (Nat.le_add_right _ _) (by omega)
      (ih (fun i s h1 h2 hp => hbody i s h1 (by omega) hp))

theorem Grid.set_same (g : Grid) (x y : Nat) (v : ℚ) : g.set x y v x y = v := by
  simp [Grid.set]

theorem Grid.set_other (g : Grid) (x y : Nat) (v : ℚ) (i j : Nat) (h : ¬(i = x ∧ j = y)) :
    g.set x y v i j = g i j := by
  simp [Grid.set, h]

/-! ### Diffusion -/

theorem diffuseCell_same (density : Grid) (a : ℚ) (x y : Nat) (g : Grid) :
    diffuseCell density a x y g x y =
      density x y * (1 - a) +
        (g (x - 1) y + g (x + 1) y + g x (y - 1) + g x (y + 1)) * a / 4 := by
  simp [diffuseCell, Grid.set]

theorem diffuseCell_other (density : Grid) (a : ℚ) (x y : Nat) (g : Grid) (i j : Nat)
    (h : ¬(i = x ∧ j = y)) : diffuseCell density a x y g i j = g i j := by
  simp [diffuseCell, Grid.set, h]

/-- One row of the sweep leaves alone every cell outside `{x} x [1, n]`. -/
theorem diffuseRow_other (density : Grid) (a : ℚ) (x n : Nat) (g : Grid) (i j : Nat)
    (h : i ≠ x ∨ j = 0 ∨ n < j) :
    forRange 1 n (diffuseCell density a x) g i j = g i j := by
  induction n with
  | zero => rfl
  | succ n ih =>
    rw [forRange_succ, diffuseCell_other _ _ _ _ _ _ _ (by omega)]
    exact ih (by omega)

/-- One row of the sweep: the value written to `(x, j)` uses the values before
the row at the three neighbours not in the part of the row already swept, and
the new value at `(x, j - 1)`. -/
theorem diffuseRow_written (density : Grid) (a : ℚ) (x n : Nat) (g : Grid)
    (j : Nat) (hj1 : 1 ≤ j) (hjn : j ≤ n) :
    forRange 1 n (diffuseCell density a x) g x j =
      density x j * (1 - a) +
        (g (x - 1) j + g (x + 1) j + forRange 1 n (diffuseCell density a x) g x (j - 1) +
          g x (j + 1)) * a / 4 := by
  induction n with
  | zero => omega
  | succ n ih =>
    rw [forRange_succ]
    by_cases hj : j = 1 + n
    · subst hj
      rw [diffuseCell_same, diffuseCell_other _ _ _ _ _ _ _ (by omega)]
      rw [diffuseRow_other density a x n g (x - 1) (1 + n) (by omega),
        diffuseRow_other density a x n g (x + 1) (1 + n) (by omega),
        diffuseRow_other density a x n g x (1 + n + 1) (by omega)]
    · have hjn1 : j ≤ n := by omega
      rw [diffuseCell_other _ _ _ _ _ _ _ (by omega),
        diffuseCell_other _ _ _ _ _ _ _ (by omega)]
      exact ih hjn1

/-- The sweep over the rows `1 .. m` leaves alone every cell outside
`[1, m] x [1, n]`. -/
theorem diffuseRows_other (density : Grid) (a : ℚ) (m n : Nat) (g : Grid) (i j : Nat)
    (h : i = 0 ∨ m < i ∨ j = 0 ∨ n < j) :
    forRange 1 m (fun x g1 => forRange 1 n (diffuseCell density a x) g1) g i j = g i j := by
  induction m with
  | zero => rfl
  | succ m ih =>
    rw [forRange_succ]
    rw [diffuseRow_other density a (1 + m) n _ i j (by omega)]
    exact ih (by omega)

/-- The sweep over the rows `1 .. m`: the value written to `(i, j)` uses the
new values at `(i - 1, j)` and `(i, j - 1)` and the old ones at `(i + 1, j)`
and `(i, j + 1)`. -/
theorem diffuseRows_written (density : Grid) (a : ℚ) (m n : Nat) (g : Grid)
    (i j : Nat) (hi1 : 1 ≤ i) (him : i ≤ m) (hj1 : 1 ≤ j) (hjn : j ≤ n) :
    forRange 1 m (fun x g1 => forRange 1 n (diffuseCell density a x) g1) g i j =
      density i j * (1 - a) +
        (forRange 1 m (fun x g1 => forRange 1 n (diffuseCell density a x) g1) g (i - 1) j +
          g (i + 1) j +
          forRange 1 m (fun x g1 => forRange 1 n (diffuseCell density a x) g1) g i (j - 1) +
          g i (j + 1)) * a / 4 := by
  induction m with
  | zero => omega
  | succ m ih =>
    rw [forRange_succ]
    by_cases hi : i = 1 + m
    · subst hi
      rw [diffuseRow_written density a (1 + m) n _ j hj1 hjn]
      rw [diffuseRow_other density a (1 + m) n _ (1 + m - 1) j (by omega)]
      rw [diffuseRows_other density a m n g (1 + m + 1) j (by omega),
        diffuseRows_other density a m n g (1 + m) (j + 1) (by omega)]
    · have him1 : i ≤ m := by omega
      rw [diffuseRow_other density a (1 + m) n _ i j (by omega),
        diffuseRow_other density a (1 + m) n _ (i - 1) j (by omega),
        diffuseRow_other density a (1 + m) n _ i (j - 1) (by omega)]
      exact ih him1

/-- Cells that are not interior keep their value in `diffuse`. -/
theorem diffuse_not_interior (K : CloudConstants) (diffRate : ℚ) (oldDens density : Grid)
    (dt : ℚ) (x y : Nat)
    (h : x = 0 ∨ K.CLOUD_SIMULATION_WIDTH - 2 < x ∨ y = 0 ∨ K.CLOUD_SIMULATION_HEIGHT - 2 < y) :
    diffuse K diffRate oldDens density dt x y = oldDens x y := by
  unfold diffuse
  exact diffuseRows_other density (dt * diffRate) _ _ oldDens x y h

/-- The value `diffuse` leaves in an interior cell. -/
theorem diffuse_interior (K : CloudConstants) (diffRate : ℚ) (oldDens density : Grid)
    (dt : ℚ) (x y : Nat) (hx1 : 1 ≤ x) (hxW : x + 1 < K.CLOUD_SIMULATION_WIDTH)
    (hy1 : 1 ≤ y) (hyH : y + 1 < K.CLOUD_SIMULATION_HEIGHT) :
    diffuse K diffRate oldDens density dt x y =
      density x y * (1 - dt * diffRate) +
        (diffuse K diffRate oldDens density dt (x - 1) y + oldDens (x + 1) y +
          diffuse K diffRate oldDens density dt x (y - 1) + oldDens x (y + 1)) *
          (dt * diffRate) / 4 := by
  unfold diffuse
  exact diffuseRows_written density (dt * diffRate) _ _ oldDens x y hx1 (by omega) hy1 (by omega)

theorem scenario_value_11 :
    diffuse toyConstants (7 / 1000) Grid.zero scenarioCurrent 1 1 1 = 993 := by
  rw [diffuse_interior toyConstants (7 / 1000) Grid.zero scenarioCurrent 1 1 1
    (by decide) (by decide) (by decide) (by decide)]
  rw [diffuse_not_interior toyConstants (7 / 1000) Grid.zero scenarioCurrent 1 (1 - 1) 1
    (by decide),
    diffuse_not_interior toyConstants (7 / 1000) Grid.zero scenarioCurrent 1 1 (1 - 1)
    (by decide)]
  norm_num [Grid.zero, scenarioCurrent]

/-- C5: `diffuse` is the in-place sweep. Every interior cell gets
`current * (1 - a) + a / 4 * (sum of the four neighbours in previous)`, with
`a = dt * diffRate`, where the neighbours `(x - 1, y)` and `(x, y - 1)` are
read after their own update when they are interior, and every other neighbour
is read as it was before the pass. In the 4 x 4 scenario (previous all zero,
`current[1][1] = 1000`, `a = 0.007`) this gives `previous[1][1] = 993`. -/
theorem diffuse_in_place_sweep (K : CloudConstants) (diffRate : ℚ) (oldDens density : Grid)
    (dt : ℚ) (x y : Nat) (hx1 : 1 ≤ x) (hxW : x + 1 < K.CLOUD_SIMULATION_WIDTH)
    (hy1 : 1 ≤ y) (hyH : y + 1 < K.CLOUD_SIMULATION_HEIGHT) :
    diffuse K diffRate oldDens density dt x y =
        density x y * (1 - dt * diffRate) +
          dt * diffRate / 4 *
            ((if 1 ≤ x - 1 then diffuse K diffRate oldDens density dt (x - 1) y
              else oldDens (x - 1) y) +
             oldDens (x + 1) y +
             (if 1 ≤ y - 1 then diffuse K diffRate oldDens density dt x (y - 1)
              else oldDens x (y - 1)) +
             oldDens x (y + 1)) ∧
      diffuse toyConstants (7 / 1000) Grid.zero scenarioCurrent 1 1 1 = 993 := by
  constructor
  · rw [diffuse_interior K diffRate oldDens density dt x y hx1 hxW hy1 hyH]
    have hleft : (if 1 ≤ x - 1 then diffuse K diffRate oldDens density dt (x - 1) y
        else oldDens (x - 1) y) = diffuse K diffRate oldDens density dt (x - 1) y := by
      split_ifs with h
      · rfl
      · exact (diffuse_not_interior K diffRate oldDens density dt (x - 1) y (by omega)).symm
    have hdown : (if 1 ≤ y - 1 then diffuse K diffRate oldDens density dt x (y - 1)
        else oldDens x (y - 1)) = diffuse K diffRate oldDens density dt x (y - 1) := by
      split_ifs with h
      · rfl
      · exact (diffuse_not_interior K diffRate oldDens density dt x (y - 1) (by omega)).symm
    rw [hleft, hdown]
    ring
  · exact scenario_value_11

/-- Witness of C5: the cell `(2, 2)` of the 4 x 4 scenario. -/
theorem diffuse_in_place_sweep_witness :
    diffuse toyConstants (7 / 1000) Grid.zero scenarioCurrent 1 2 2 =
        scenarioCurrent 2 2 * (1 - 1 * (7 / 1000)) +
          1 * (7 / 1000) / 4 *
            ((if 1 ≤ 2 - 1 then diffuse toyConstants (7 / 1000) Grid.zero scenarioCurrent 1 (2 - 1) 2
              else Grid.zero (2 - 1) 2) +
             Grid.zero (2 + 1) 2 +
             (if 1 ≤ 2 - 1 then diffuse toyConstants (7 / 1000) Grid.zero scenarioCurrent 1 2 (2 - 1)
              else Grid.zero 2 (2 - 1)) +
             Grid.zero 2 (2 + 1)) ∧
      diffuse toyConstants (7 / 1000) Grid.zero scenarioCurrent 1 1 1 = 993 :=
  diffuse_in_place_sweep toyConstants (7 / 1000) Grid.zero scenarioCurrent 1 2 2
    (by decide) (by decide) (by decide) (by decide)

theorem scenario_value_12 :
    diffuse toyConstants (7 / 1000) Grid.zero scenarioCurrent 1 1 2 = 6951 / 4000 := by
  rw [diffuse_interior toyConstants (7 / 1000) Grid.zero scenarioCurrent 1 1 2
    (by decide) (by decide) (by decide) (by decide)]
  rw [diffuse_not_interior toyConstants (7 / 1000) Grid.zero scenarioCurrent 1 (1 - 1) 2
    (by decide)]
  have h : (2 : Nat) - 1 = 1 := rfl
  rw [h, scenario_value_11]
  norm_num [Grid.zero, scenarioCurrent]

theorem scenario_value_21 :
    diffuse toyConstants (7 / 1000) Grid.zero scenarioCurrent 1 2 1 = 6951 / 4000 := by
  rw [diffuse_interior toyConstants (7 / 1000) Grid.zero scenarioCurrent 1 2 1
    (by decide) (by decide) (by decide) (by decide)]
  rw [diffuse_not_interior toyConstants (7 / 1000) Grid.zero scenarioCurrent 1 2 (1 - 1)
    (by decide)]
  have h : (2 : Nat) - 1 = 1 := rfl
  rw [h, scenario_value_11]
  norm_num [Grid.zero, scenarioCurrent]

/-- C6 (as amended): in the 4 x 4 scenario, after one diffuse pass the other
interior cells are not 0: `previous[1][2]` and `previous[2][1]` read the
already updated `previous[1][1] = 993` and become `993 * 0.007 / 4`, and
`previous[2][2]` reads both of them. -/
theorem scenario_other_interior_cells :
    diffuse toyConstants (7 / 1000) Grid.zero scenarioCurrent 1 1 2 = 993 * (7 / 1000) / 4 ∧
      diffuse toyConstants (7 / 1000) Grid.zero scenarioCurrent 1 2 1 = 993 * (7 / 1000) / 4 ∧
      diffuse toyConstants (7 / 1000) Grid.zero scenarioCurrent 1 2 2 =
        (993 * (7 / 1000) / 4 + 993 * (7 / 1000) / 4) * (7 / 1000) / 4 := by
  refine ⟨?_, ?_, ?_⟩
  · rw [scenario_value_12]
    norm_num
  · rw [scenario_value_21]
    norm_num
  · rw [diffuse_interior toyConstants (7 / 1000) Grid.zero scenarioCurrent 1 2 2
      (by decide) (by decide) (by decide) (by decide)]
    have h : (2 : Nat) - 1 = 1 := rfl
    rw [h, scenario_value_12, scenario_value_21]
    norm_num [Grid.zero, scenarioCurrent]

/-- Counterexample to C6 as stated: after the pass `previous[1][2]` and
`previous[2][1]` are not 0. -/
theorem scenario_neighbours_not_zero :
    diffuse toyConstants (7 / 1000) Grid.zero scenarioCurrent 1 1 2 ≠ 0 ∧
      diffuse toyConstants (7 / 1000) Grid.zero scenarioCurrent 1 2 1 ≠ 0 := by
  rw [scenario_value_12, scenario_value_21]
  norm_num

/-- C8: one diffuse pass leaves every border cell of the previous buffer as it
was, and does not change the current buffer at all. -/
theorem diffuse_border_unchanged (K : CloudConstants) (diffRate : ℚ) (c : Channel) (dt : ℚ)
    (x y : Nat)
    (hborder : x = 0 ∨ x + 1 = K.CLOUD_SIMULATION_WIDTH ∨ y = 0 ∨
      y + 1 = K.CLOUD_SIMULATION_HEIGHT) :
    (c.diffuse K diffRate dt).oldDens x y = c.oldDens x y ∧
      (c.diffuse K diffRate dt).density = c.density := by
  constructor
  · exact diffuse_not_interior K diffRate c.oldDens c.density dt x y (by omega)
  · rfl

/-- Witness of C8: the border cell `(3, 1)` of the 4 x 4 scenario. -/
theorem diffuse_border_unchanged_witness :
    ((Channel.mk Grid.zero scenarioCurrent).diffuse toyConstants (7 / 1000) 1).oldDens 3 1 =
        (Channel.mk Grid.zero scenarioCurrent).oldDens 3 1 ∧
      ((Channel.mk Grid.zero scenarioCurrent).diffuse toyConstants (7 / 1000) 1).density =
        (Channel.mk Grid.zero scenarioCurrent).density :=
  diffuse_border_unchanged toyConstants (7 / 1000) (Channel.mk Grid.zero scenarioCurrent) 1 3 1
    (by decide)

/-! ### Advection -/

theorem Grid.sum_set (W H : Nat) (g : Grid) (i j : Nat) (v : ℚ) (hi : i < W) (hj : j < H) :
    Grid.sum W H (g.set i j v) = Grid.sum W H g + (v - g i j) := by
  have h : ∀ x y, g.set i j v x y =
      g x y + (if x = i then (if y = j then v - g i j else 0) else 0) := by
    intro x y
    unfold Grid.set
    by_cases hx : x = i
    · by_cases hy : y = j
      · subst hx
        subst hy
        simp
      · simp [hx, hy]
    · simp [hx]
  unfold Grid.sum
  simp only [h, Finset.sum_add_distrib]
  congr 1
  rw [Finset.sum_eq_single i]
  · simp only [if_true]
    rw [Finset.sum_eq_single j]
    · simp
    · intro b _ hb
      simp [hb]
    · intro hj1
      exact absurd (Finset.mem_range.mpr hj) hj1
  · intro b _ hb
    simp [hb]
  · intro hi1
    exact absurd (Finset.mem_range.mpr hi) hi1

theorem Grid.addAt_apply (g : Grid) (x y : ℤ) (v : ℚ) (i j : Nat) :
    g.addAt x y v i j = g i j + (if i = x.toNat ∧ j = y.toNat then v else 0) := by
  unfold Grid.addAt Grid.set
  by_cases h : i = x.toNat ∧ j = y.toNat
  · rw [if_pos h, if_pos h, h.1, h.2]
  · rw [if_neg h, if_neg h, add_zero]

theorem Grid.sum_addAt (W H : Nat) (g : Grid) (x y : ℤ) (v : ℚ) (hx : x.toNat < W)
    (hy : y.toNat < H) : Grid.sum W H (g.addAt x y v) = Grid.sum W H g + v := by
  unfold Grid.addAt
  rw [Grid.sum_set W H g _ _ _ hx hy]
  ring

/-- The row loop that writes zeroes. -/
theorem clearRow_apply (x n : Nat) (g : Grid) (i j : Nat) :
    forRange 0 n (fun y g1 => Grid.set g1 x y 0) g i j =
      if i = x ∧ j < n then 0 else g i j := by
  induction n with
  | zero => simp [forRange_zero]
  | succ n ih =>
    rw [forRange_succ]
    by_cases h : i = x ∧ j = 0 + n
    · rw [h.1, h.2, Grid.set_same, if_pos ⟨rfl, by omega⟩]
    · rw [Grid.set_other _ _ _ _ _ _ h, ih]
      by_cases h1 : i = x ∧ j < n
      · rw [if_pos h1, if_pos ⟨h1.1, by omega⟩]
      · rw [if_neg h1, if_neg (by omega)]

/-- The double loop that writes zeroes. -/
theorem clearRows_apply (m n : Nat) (g : Grid) (i j : Nat) :
    forRange 0 m (fun x g1 => forRange 0 n (fun y g2 => Grid.set g2 x y 0) g1) g i j =
      if i < m ∧ j < n then 0 else g i j := by
  induction m with
  | zero => simp [forRange_zero]
  | succ m ih =>
    rw [forRange_succ, clearRow_apply, ih]
    by_cases h : i = 0 + m ∧ j < n
    · rw [if_pos h, if_pos ⟨by omega, h.2⟩]
    · rw [if_neg h]
      by_cases h1 : i < m ∧ j < n
      · rw [if_pos h1, if_pos ⟨by omega, h1.2⟩]
      · rw [if_neg h1, if_neg (by omega)]

theorem zeroGrid_apply (K : CloudConstants) (g : Grid) (i j : Nat) :
    zeroGrid K g i j =
      if i < K.CLOUD_SIMULATION_WIDTH ∧ j < K.CLOUD_SIMULATION_HEIGHT then 0 else g i j :=
  clearRows_apply _ _ g i j

theorem zeroGrid_sum (K : CloudConstants) (g : Grid) :
    Grid.sum K.CLOUD_SIMULATION_WIDTH K.CLOUD_SIMULATION_HEIGHT (zeroGrid K g) = 0 := by
  unfold Grid.sum
  apply Finset.sum_eq_zero
  intro x hx
  apply Finset.sum_eq_zero
  intro y hy
  rw [zeroGrid_apply, if_pos ⟨Finset.mem_range.mp hx, Finset.mem_range.mp hy⟩]

theorem cppClamp_bounds (v lo hi : ℚ) (h : lo ≤ hi) :
    lo ≤ cppClamp v lo hi ∧ cppClamp v lo hi ≤ hi := by
  unfold cppClamp
  split_ifs with h1 h2
  · exact ⟨le_refl _, h⟩
  · exact ⟨h, le_refl _⟩
  · exact ⟨not_lt.mp h1, not_lt.mp h2⟩

theorem advectTarget_bounds (n x : Nat) (dt v : ℚ) (hn : 2 ≤ n) :
    1 / 2 ≤ advectTarget n x dt v ∧ advectTarget n x dt v ≤ (n : ℚ) - 3 / 2 := by
  unfold advectTarget
  apply cppClamp_bounds
  have : (2 : ℚ) ≤ n := by exact_mod_cast hn
  linarith

/-- The cell index `static_cast<int>(d)` of a clamped target: it is not
negative, at most `d`, more than `d - 1`, and its successor is inside the
grid. -/
theorem cppTrunc_target (n : Nat) (d : ℚ) (h1 : 1 / 2 ≤ d) (h2 : d ≤ (n : ℚ) - 3 / 2) :
    0 ≤ cppTrunc d ∧ ((cppTrunc d : ℤ) : ℚ) ≤ d ∧ d < ((cppTrunc d : ℤ) : ℚ) + 1 ∧
      (cppTrunc d).toNat + 1 < n ∧ (cppTrunc d + 1).toNat = (cppTrunc d).toNat + 1 := by
  have h0 : (0 : ℚ) ≤ d := by linarith
  rw [cppTrunc_of_nonneg h0]
  have hf0 : 0 ≤ ⌊d⌋ := Int.floor_nonneg.mpr h0
  have hle : ((⌊d⌋ : ℤ) : ℚ) ≤ d := Int.floor_le d
  have hlt : d < ((⌊d⌋ : ℤ) : ℚ) + 1 := Int.lt_floor_add_one d
  have hn : ((⌊d⌋ : ℤ) : ℚ) < ((n : ℤ) : ℚ) - 1 := by
    have : (((n : ℤ) : ℚ)) = (n : ℚ) := by norm_cast
    rw [this]
    linarith
  have hn1 : ⌊d⌋ < (n : ℤ) - 1 := by exact_mod_cast hn
  refine ⟨hf0, hle, hlt, ?_, ?_⟩
  · omega
  · omega

theorem splat_apply (g : Grid) (m dx dy : ℚ) (i j : Nat) :
    splat g m dx dy i j =
      g i j +
        (if i = (cppTrunc dx).toNat ∧ j = (cppTrunc dy).toNat then
          m * (1 - (dx - cppTrunc dx)) * (1 - (dy - cppTrunc dy)) else 0) +
        (if i = (cppTrunc dx).toNat ∧ j = (cppTrunc dy + 1).toNat then
          m * (1 - (dx - cppTrunc dx)) * (dy - cppTrunc dy) else 0) +
        (if i = (cppTrunc dx + 1).toNat ∧ j = (cppTrunc dy).toNat then
          m * (dx - cppTrunc dx) * (1 - (dy - cppTrunc dy)) else 0) +
        (if i = (cppTrunc dx + 1).toNat ∧ j = (cppTrunc dy + 1).toNat then
          m * (dx - cppTrunc dx) * (dy - cppTrunc dy) else 0) := by
  simp only [splat, Grid.addAt_apply]

theorem splat_sum (W H : Nat) (g : Grid) (m dx dy : ℚ)
    (hx0 : (cppTrunc dx).toNat < W) (hx1 : (cppTrunc dx + 1).toNat < W)
    (hy0 : (cppTrunc dy).toNat < H) (hy1 : (cppTrunc dy + 1).toNat < H) :
    Grid.sum W H (splat g m dx dy) = Grid.sum W H g + m := by
  simp only [splat]
  rw [Grid.sum_addAt W H _ _ _ _ hx1 hy1, Grid.sum_addAt W H _ _ _ _ hx1 hy0,
    Grid.sum_addAt W H _ _ _ _ hx0 hy1, Grid.sum_addAt W H _ _ _ _ hx0 hy0]
  ring

theorem advectCell_sum (K : CloudConstants) (oldDens : Grid) (dt : ℚ)
    (fluidSystem : FluidSystem) (pos : Float2) (x y : Nat) (g : Grid)
    (hW : 2 ≤ K.CLOUD_SIMULATION_WIDTH) (hH : 2 ≤ K.CLOUD_SIMULATION_HEIGHT) :
    Grid.sum K.CLOUD_SIMULATION_WIDTH K.CLOUD_SIMULATION_HEIGHT
        (advectCell K oldDens dt fluidSystem pos x y g) =
      Grid.sum K.CLOUD_SIMULATION_WIDTH K.CLOUD_SIMULATION_HEIGHT g +
        (if oldDens x y > 1 then oldDens x y else 0) := by
  unfold advectCell
  by_cases h : oldDens x y > 1
  · rw [if_pos h, if_pos h]
    obtain ⟨hx1, hx2⟩ := advectTarget_bounds K.CLOUD_SIMULATION_WIDTH x dt
      (advectVelocity K fluidSystem pos x y).X hW
    obtain ⟨hy1, hy2⟩ := advectTarget_bounds K.CLOUD_SIMULATION_HEIGHT y dt
      (advectVelocity K fluidSystem pos x y).Y hH
    obtain ⟨_, _, _, hxa, hxb⟩ := cppTrunc_target _ _ hx1 hx2
    obtain ⟨_, _, _, hya, hyb⟩ := cppTrunc_target _ _ hy1 hy2
    exact splat_sum _ _ g _ _ _ (by omega) (by omega) (by omega) (by omega)
  · rw [if_neg h, if_neg h, add_zero]

/-- A loop whose iterations each add `c i` to a quantity adds their sum. -/
theorem forRange_sum {σ : Type} (F : σ → ℚ) (c : Nat → ℚ) (lo n : Nat) (body : Nat → σ → σ)
    (hbody : ∀ i s, F (body i s) = F s + c i) (s : σ) :
    F (forRange lo n body s) = F s + ∑ i in Finset.range n, c (lo + i) := by
  induction n with
  | zero => simp [forRange_zero]
  | succ n ih =>
    rw [forRange_succ, hbody, ih, Finset.sum_range_succ]
    ring

theorem advect_sum_aux (K : CloudConstants) (oldDens density : Grid) (dt : ℚ)
    (fluidSystem : FluidSystem) (pos : Float2)
    (hW : 2 ≤ K.CLOUD_SIMULATION_WIDTH) (hH : 2 ≤ K.CLOUD_SIMULATION_HEIGHT) :
    Grid.sum K.CLOUD_SIMULATION_WIDTH K.CLOUD_SIMULATION_HEIGHT
        (advect K oldDens density dt fluidSystem pos) =
      ∑ i in Finset.range (K.CLOUD_SIMULATION_WIDTH - 2),
        ∑ j in Finset.range (K.CLOUD_SIMULATION_HEIGHT - 2),
          (if oldDens (1 + i) (1 + j) > 1 then oldDens (1 + i) (1 + j) else 0) := by
  unfold advect
  rw [forRange_sum (Grid.sum K.CLOUD_SIMULATION_WIDTH K.CLOUD_SIMULATION_HEIGHT)
    (fun x => ∑ j in Finset.range (K.CLOUD_SIMULATION_HEIGHT - 2),
      (if oldDens x (1 + j) > 1 then oldDens x (1 + j) else 0))]
  · rw [zeroGrid_sum, zero_add]
  · intro x g
    exact forRange_sum (Grid.sum K.CLOUD_SIMULATION_WIDTH K.CLOUD_SIMULATION_HEIGHT)
      (fun y => if oldDens x y > 1 then oldDens x y else 0) 1 _ _
      (fun y g1 => advectCell_sum K oldDens dt fluidSystem pos x y g1 hW hH) g

/-- C7: over exact arithmetic, after one advect pass the sum of all cells of
`current` is the sum of `previous[x][y]` over the interior cells with
`previous[x][y] > 1`. -/
theorem advect_conserves_mass (K : CloudConstants) (oldDens density : Grid) (dt : ℚ)
    (fluidSystem : FluidSystem) (pos : Float2) :
    Grid.sum K.CLOUD_SIMULATION_WIDTH K.CLOUD_SIMULATION_HEIGHT
        (advect K oldDens density dt fluidSystem pos) =
      ∑ x in Finset.Ico 1 (K.CLOUD_SIMULATION_WIDTH - 1),
        ∑ y in Finset.Ico 1 (K.CLOUD_SIMULATION_HEIGHT - 1),
          (if oldDens x y > 1 then oldDens x y else 0) := by
  rw [Finset.sum_Ico_eq_sum_range]
  have hrow : ∀ x, ∑ y in Finset.Ico 1 (K.CLOUD_SIMULATION_HEIGHT - 1),
      (if oldDens x y > 1 then oldDens x y else 0) =
      ∑ j in Finset.range (K.CLOUD_SIMULATION_HEIGHT - 2),
        (if oldDens x (1 + j) > 1 then oldDens x (1 + j) else 0) := by
    intro x
    rw [Finset.sum_Ico_eq_sum_range]
    rfl
  simp only [hrow]
  have hsub : K.CLOUD_SIMULATION_WIDTH - 1 - 1 = K.CLOUD_SIMULATION_WIDTH - 2 := rfl
  rw [hsub]
  by_cases hW : 2 ≤ K.CLOUD_SIMULATION_WIDTH
  · by_cases hH : 2 ≤ K.CLOUD_SIMULATION_HEIGHT
    · exact advect_sum_aux K oldDens density dt fluidSystem pos hW hH
    · have h0 : K.CLOUD_SIMULATION_HEIGHT - 2 = 0 := by omega
      unfold advect
      simp only [h0, forRange_zero, Finset.range_zero, Finset.sum_empty, Finset.sum_const_zero]
      have hid : ∀ n (g : Grid), forRange 1 n (fun _ g1 => g1) g = g := by
        intro n g
        induction n with
        | zero => rfl
        | succ n ih => rw [forRange_succ]; exact ih
      rw [hid, zeroGrid_sum]
  · have h0 : K.CLOUD_SIMULATION_WIDTH - 2 = 0 := by omega
    unfold advect
    simp only [h0, forRange_zero, Finset.range_zero, Finset.sum_empty]
    exact zeroGrid_sum K density

/-- The cell index of a target at least one cell away from both ends of the
axis: it is an interior index, and when its successor is the last index the
target sits exactly on it. -/
theorem cppTrunc_inner (n : Nat) (d : ℚ) (h1 : 1 ≤ d) (h2 : d ≤ (n : ℚ) - 2) :
    1 ≤ cppTrunc d ∧ cppTrunc d + 2 ≤ (n : ℤ) ∧
      (cppTrunc d + 2 = (n : ℤ) → d - (cppTrunc d : ℚ) = 0) := by
  have h0 : (0 : ℚ) ≤ d := by linarith
  rw [cppTrunc_of_nonneg h0]
  have hle : ((⌊d⌋ : ℤ) : ℚ) ≤ d := Int.floor_le d
  have hf1 : 1 ≤ ⌊d⌋ := Int.le_floor.mpr (by exact_mod_cast h1)
  have hcast : (((n : ℤ) : ℚ)) = (n : ℚ) := by norm_cast
  have hn : ((⌊d⌋ : ℤ) : ℚ) ≤ ((n : ℤ) : ℚ) - 2 := by
    rw [hcast]
    linarith
  have hn1 : ⌊d⌋ ≤ (n : ℤ) - 2 := by exact_mod_cast hn
  refine ⟨hf1, by omega, ?_⟩
  intro he
  have he1 : ((⌊d⌋ : ℤ) : ℚ) = ((n : ℤ) : ℚ) - 2 := by
    have : ⌊d⌋ = (n : ℤ) - 2 := by omega
    rw [this]
    push_cast
    ring
  rw [hcast] at he1
  linarith

theorem splat_borderZero (W H : Nat) (g : Grid) (m dx dy : ℚ) (hg : BorderZero W H g)
    (hx1 : 1 ≤ dx) (hx2 : dx ≤ (W : ℚ) - 2) (hy1 : 1 ≤ dy) (hy2 : dy ≤ (H : ℚ) - 2) :
    BorderZero W H (splat g m dx dy) := by
  intro i j hi hj hb
  obtain ⟨hxa, hxb, hxc⟩ := cppTrunc_inner W dx hx1 hx2
  obtain ⟨hya, hyb, hyc⟩ := cppTrunc_inner H dy hy1 hy2
  rw [splat_apply, hg i j hi hj hb]
  have e1 : (if i = (cppTrunc dx).toNat ∧ j = (cppTrunc dy).toNat then
      m * (1 - (dx - cppTrunc dx)) * (1 - (dy - cppTrunc dy)) else 0) = 0 := by
    rw [if_neg]
    omega
  have e2 : (if i = (cppTrunc dx).toNat ∧ j = (cppTrunc dy + 1).toNat then
      m * (1 - (dx - cppTrunc dx)) * (dy - cppTrunc dy) else 0) = 0 := by
    by_cases hc : i = (cppTrunc dx).toNat ∧ j = (cppTrunc dy + 1).toNat
    · rw [if_pos hc, hyc (by omega)]
      ring
    · rw [if_neg hc]
  have e3 : (if i = (cppTrunc dx + 1).toNat ∧ j = (cppTrunc dy).toNat then
      m * (dx - cppTrunc dx) * (1 - (dy - cppTrunc dy)) else 0) = 0 := by
    by_cases hc : i = (cppTrunc dx + 1).toNat ∧ j = (cppTrunc dy).toNat
    · rw [if_pos hc, hxc (by omega)]
      ring
    · rw [if_neg hc]
  have e4 : (if i = (cppTrunc dx + 1).toNat ∧ j = (cppTrunc dy + 1).toNat then
      m * (dx - cppTrunc dx) * (dy - cppTrunc dy) else 0) = 0 := by
    by_cases hc : i = (cppTrunc dx + 1).toNat ∧ j = (cppTrunc dy + 1).toNat
    · rw [if_pos hc]
      have hor : cppTrunc dx + 2 = (W : ℤ) ∨ cppTrunc dy + 2 = (H : ℤ) := by omega
      rcases hor with h | h
      · rw [hxc h]
        ring
      · rw [hyc h]
        ring
    · rw [if_neg hc]
  rw [e1, e2, e3, e4]
  ring

/-- C4 (as amended): after one advect pass every border cell of `current` is
0, whatever `current` held before, provided that the clamped target of every
source cell lies at least one cell away from the border of the grid (as it
does when the fluid is at rest). -/
theorem advect_border_zero (K : CloudConstants) (oldDens density : Grid) (dt : ℚ)
    (fluidSystem : FluidSystem) (pos : Float2)
    (htargets : TargetsInside K oldDens dt fluidSystem pos) (x y : Nat)
    (hx : x < K.CLOUD_SIMULATION_WIDTH) (hy : y < K.CLOUD_SIMULATION_HEIGHT)
    (hborder : x = 0 ∨ x + 1 = K.CLOUD_SIMULATION_WIDTH ∨ y = 0 ∨
      y + 1 = K.CLOUD_SIMULATION_HEIGHT) :
    advect K oldDens density dt fluidSystem pos x y = 0 := by
  have hall : BorderZero K.CLOUD_SIMULATION_WIDTH K.CLOUD_SIMULATION_HEIGHT
      (advect K oldDens density dt fluidSystem pos) := by
    unfold advect
    apply forRange_preserves (BorderZero K.CLOUD_SIMULATION_WIDTH K.CLOUD_SIMULATION_HEIGHT)
    · intro i g hi1 hi2 hg
      apply forRange_preserves (BorderZero K.CLOUD_SIMULATION_WIDTH K.CLOUD_SIMULATION_HEIGHT)
      · intro j g1 hj1 hj2 hg1
        unfold advectCell
        by_cases h : oldDens i j > 1
        · rw [if_pos h]
          obtain ⟨a1, a2, a3, a4⟩ := htargets i j hi1 (by omega) hj1 (by omega) h
          exact splat_borderZero _ _ g1 _ _ _ hg1 a1 a2 a3 a4
        · rw [if_neg h]
          exact hg1
      · exact hg
    · intro i j hi hj _
      rw [zeroGrid_apply, if_pos ⟨hi, hj⟩]
  exact hall x y hx hy hborder

theorem stillFluid_targetsInside :
    TargetsInside toyConstants scenarioCurrent 1 stillFluid ⟨0, 0⟩ := by
  intro x y hx1 hx2 hy1 hy2 _
  have hW : toyConstants.CLOUD_SIMULATION_WIDTH = 4 := rfl
  have hH : toyConstants.CLOUD_SIMULATION_HEIGHT = 4 := rfl
  rw [hW] at hx2
  rw [hH] at hy2
  have hvx : (advectVelocity toyConstants stillFluid ⟨0, 0⟩ x y).X = 0 := by
    simp [advectVelocity, stillFluid, Float2.scale]
  have hvy : (advectVelocity toyConstants stillFluid ⟨0, 0⟩ x y).Y = 0 := by
    simp [advectVelocity, stillFluid, Float2.scale]
  rw [hvx, hvy, hW, hH]
  have hx : x = 1 ∨ x = 2 := by omega
  have hy : y = 1 ∨ y = 2 := by omega
  rcases hx with rfl | rfl <;> rcases hy with rfl | rfl <;>
    norm_num [advectTarget, cppClamp]

/-- Witness of C4: the fluid at rest in the 4 x 4 scenario, border cell
`(0, 1)`. -/
theorem advect_border_zero_witness :
    advect toyConstants scenarioCurrent Grid.zero 1 stillFluid ⟨0, 0⟩ 0 1 = 0 :=
  advect_border_zero toyConstants scenarioCurrent Grid.zero 1 stillFluid ⟨0, 0⟩
    stillFluid_targetsInside 0 1 (by decide) (by decide) (by decide)

/-- Counterexample to C4 as stated: in the 4 x 4 grid with `previous[1][1] =
1000` and a strong velocity toward the left, the target is clamped to
`dx = 0.5`, and the border cell `current[0][1]` receives half of the mass. -/
theorem advect_writes_border :
    advect toyConstants scenarioCurrent Grid.zero 1 windToTheLeft ⟨0, 0⟩ 0 1 = 500 := by
  have hdx : advectTarget 4 1 1 (advectVelocity toyConstants windToTheLeft ⟨0, 0⟩ 1 1).X
      = 1 / 2 := by
    norm_num [advectTarget, cppClamp, advectVelocity, windToTheLeft, Float2.scale, viscosity]
  have hdy : advectTarget 4 1 1 (advectVelocity toyConstants windToTheLeft ⟨0, 0⟩ 1 1).Y
      = 1 := by
    norm_num [advectTarget, cppClamp, advectVelocity, windToTheLeft, Float2.scale, viscosity]
  have ht1 : cppTrunc (1 / 2) = 0 := by norm_num [cppTrunc]
  have ht2 : cppTrunc 1 = 1 := by norm_num [cppTrunc]
  have hW : toyConstants.CLOUD_SIMULATION_WIDTH = 4 := rfl
  have hH : toyConstants.CLOUD_SIMULATION_HEIGHT = 4 := rfl
  have c11 : ∀ g, advectCell toyConstants scenarioCurrent 1 windToTheLeft ⟨0, 0⟩ 1 1 g =
      splat g 1000 (1 / 2) 1 := by
    intro g
    unfold advectCell
    rw [if_pos (by norm_num [scenarioCurrent]), hW, hH]
    simp only [Nat.cast_one]
    rw [hdx, hdy]
    norm_num [scenarioCurrent]
  have cother : ∀ x y g, ¬(x = 1 ∧ y = 1) →
      advectCell toyConstants scenarioCurrent 1 windToTheLeft ⟨0, 0⟩ x y g = g := by
    intro x y g h
    unfold advectCell
    rw [if_neg]
    simp [scenarioCurrent, h]
  unfold advect
  rw [hW, hH]
  simp only [forRange_succ, forRange_zero, Nat.reduceSub]
  rw [cother 2 2 _ (by decide), cother 2 1 _ (by decide), cother 1 2 _ (by decide), c11]
  rw [splat_apply, zeroGrid_apply, ht1, ht2]
  norm_num [Grid.zero]

/-! ### The initial spawn -/

theorem assign_fresh (m : ManagedClouds) (entity : ObjectID) (cloud : CompoundCloudComponent)
    (h : ∀ e ∈ m, e.1 ≠ entity) : m.assign entity cloud = m ++ [(entity, cloud)] := by
  unfold ManagedClouds.assign
  rw [if_neg]
  simp only [List.any_eq_true, beq_iff_eq, not_exists, not_and]
  exact fun e he => h e he

theorem initializeCloud_create (K : CloudConstants) (cloudTypes : List Compound) (c : Nat)
    (pos : Float3) (f : Compound) (hf : cloudTypes[c]? = some f) (cloud : CompoundCloudComponent)
    (hcreate : CompoundCloudComponent.create K
      (if c < cloudTypes.length then cloudTypes[c]? else none)
      (if c + 1 < cloudTypes.length then cloudTypes[c + 1]? else none)
      (if c + 2 < cloudTypes.length then cloudTypes[c + 2]? else none)
      (if c + 3 < cloudTypes.length then cloudTypes[c + 3]? else none) = .ok cloud) :
    initializeCloud K { cloud with m_position := pos } = freshTile K cloudTypes c pos := by
  have hget : ∀ i, (if i < cloudTypes.length then cloudTypes[i]? else none) = cloudTypes[i]? := by
    intro i
    split_ifs with h
    · rfl
    · exact (List.getElem?_eq_none (by omega)).symm
  simp only [hget] at hcreate
  rw [hf] at hcreate
  simp only [CompoundCloudComponent.create, Except.ok.injEq] at hcreate
  subst hcreate
  have h2 : (match cloudTypes[c + 1]? with
      | some c => c.id
      | none => K.NULL_COMPOUND) = slotId K cloudTypes (c + 1) := rfl
  have h3 : (match cloudTypes[c + 2]? with
      | some c => c.id
      | none => K.NULL_COMPOUND) = slotId K cloudTypes (c + 2) := rfl
  have h4 : (match cloudTypes[c + 3]? with
      | some c => c.id
      | none => K.NULL_COMPOUND) = slotId K cloudTypes (c + 3) := rfl
  have h1 : f.id = slotId K cloudTypes c := by
    simp [slotId, hf]
  simp only [h1, h2, h3, h4]
  unfold initializeCloud freshTile
  simp only
  split_ifs <;> rfl

theorem spawnCloud_fresh (K : CloudConstants) (cloudTypes : List Compound)
    (st : CellStageWorld × ManagedClouds) (pos : Float3) (c : Nat)
    (hinj : Function.Injective st.1.entities) (hknown : HandlesKnown st)
    (hc : c < cloudTypes.length) :
    ∃ st1, spawnCloud K cloudTypes st pos c = .ok st1 ∧
      st1.1.entities = st.1.entities ∧ st1.1.created = st.1.created + 1 ∧
      st1.2.map Prod.snd = st.2.map Prod.snd ++ [freshTile K cloudTypes c pos] ∧
      HandlesKnown st1 := by
  obtain ⟨f, hf⟩ : ∃ f, cloudTypes[c]? = some f := ⟨cloudTypes[c], List.getElem?_eq_getElem hc⟩
  unfold spawnCloud
  simp only [CellStageWorld.CreateEntity]
  cases hcreate : CompoundCloudComponent.create K
      (if c < cloudTypes.length then cloudTypes[c]? else none)
      (if c + 1 < cloudTypes.length then cloudTypes[c + 1]? else none)
      (if c + 2 < cloudTypes.length then cloudTypes[c + 2]? else none)
      (if c + 3 < cloudTypes.length then cloudTypes[c + 3]? else none) with
  | error e =>
    simp [if_pos hc, hf, CompoundCloudComponent.create] at hcreate
  | ok cloud =>
    have hfresh : ∀ e ∈ st.2, e.1 ≠ st.1.entities st.1.created := by
      intro e he heq
      obtain ⟨j, hj, hej⟩ := hknown e he
      rw [hej] at heq
      have := hinj heq
      omega
    dsimp only
    rw [initializeCloud_create K cloudTypes c pos f hf cloud hcreate]
    rw [assign_fresh _ _ _ hfresh]
    refine ⟨_, rfl, rfl, rfl, ?_, ?_⟩
    · simp
    · intro e he
      simp only [List.mem_append, List.mem_singleton] at he
      rcases he with he | he
      · obtain ⟨j, hj, hej⟩ := hknown e he
        exact ⟨j, Nat.lt_succ_of_lt hj, hej⟩
      · exact ⟨st.1.created, Nat.lt_succ_self _, by rw [he]⟩

theorem spawnGroup_fresh (K : CloudConstants) (cloudTypes : List Compound) (c : Nat)
    (hc : c < cloudTypes.length) (required : List Float3)
    (st : CellStageWorld × ManagedClouds)
    (hinj : Function.Injective st.1.entities) (hknown : HandlesKnown st) :
    ∃ st1, spawnGroup K cloudTypes c required st = .ok st1 ∧
      st1.1.entities = st.1.entities ∧
      st1.2.map Prod.snd =
        st.2.map Prod.snd ++ required.map (fun pos => freshTile K cloudTypes c pos) ∧
      HandlesKnown st1 := by
  induction required generalizing st with
  | nil => exact ⟨st, rfl, rfl, by simp, hknown⟩
  | cons pos rest ih =>
    obtain ⟨st1, h1, he1, _, hm1, hk1⟩ := spawnCloud_fresh K cloudTypes st pos c hinj hknown hc
    obtain ⟨st2, h2, he2, hm2, hk2⟩ := ih st1 (by rw [he1]; exact hinj) hk1
    refine ⟨st2, ?_, by rw [he2, he1], ?_, hk2⟩
    · simp only [spawnGroup, h1]
      exact h2
    · rw [hm2, hm1]
      simp

theorem spawnAll_fresh (K : CloudConstants) (cloudTypes : List Compound)
    (required : List Float3) (starts : List Nat) (hstarts : ∀ c ∈ starts, c < cloudTypes.length)
    (st : CellStageWorld × ManagedClouds)
    (hinj : Function.Injective st.1.entities) (hknown : HandlesKnown st) :
    ∃ st1, spawnAll K cloudTypes required starts st = .ok st1 ∧
      st1.2.map Prod.snd =
        st.2.map Prod.snd ++
          starts.flatMap (fun c => required.map (fun pos => freshTile K cloudTypes c pos)) := by
  induction starts generalizing st with
  | nil => exact ⟨st, rfl, by simp⟩
  | cons c rest ih =>
    obtain ⟨st1, h1, he1, hm1, hk1⟩ := spawnGroup_fresh K cloudTypes c
      (hstarts c (List.mem_cons_self _ _)) required st hinj hknown
    obtain ⟨st2, h2, hm2⟩ := ih (fun d hd => hstarts d (List.mem_cons_of_mem _ hd)) st1
      (by rw [he1]; exact hinj) hk1
    refine ⟨st2, ?_, ?_⟩
    · simp only [spawnAll, h1]
      exact h2
    · rw [hm2, hm1]
      simp

theorem groupStarts_lt (n c : Nat) (h : c ∈ groupStarts n) : c < n := by
  unfold groupStarts CLOUDS_IN_ONE at h
  simp only [List.mem_map, List.mem_range] at h
  obtain ⟨g, hg, rfl⟩ := h
  omega

theorem groupStarts_length (n : Nat) : (groupStarts n).length = (n + 3) / 4 := by
  simp [groupStarts, CLOUDS_IN_ONE]

theorem expectedCloudCount_eq (n : Nat) : expectedCloudCount n = (n + 3) / 4 * 9 := by
  unfold expectedCloudCount
  omega

theorem ceil_div_four (n : Nat) : ⌈(n : ℚ) / 4⌉₊ = (n + 3) / 4 := by
  apply le_antisymm
  · rw [Nat.ceil_le]
    have h : n ≤ 4 * ((n + 3) / 4) := by omega
    have h1 : (n : ℚ) ≤ 4 * (((n + 3) / 4 : ℕ) : ℚ) := by exact_mod_cast h
    linarith
  · by_contra hlt
    have hlt1 : ⌈(n : ℚ) / 4⌉₊ < (n + 3) / 4 := not_le.mp hlt
    have h : 4 * ⌈(n : ℚ) / 4⌉₊ < n := by omega
    have h1 : 4 * ((⌈(n : ℚ) / 4⌉₊ : ℕ) : ℚ) < (n : ℚ) := by exact_mod_cast h
    have h2 : (n : ℚ) / 4 ≤ ((⌈(n : ℚ) / 4⌉₊ : ℕ) : ℚ) := Nat.le_ceil _
    linarith

theorem flatMap_const_length {α β : Type} (l : List α) (f : α → List β) (n : Nat)
    (h : ∀ a ∈ l, (f a).length = n) : (l.flatMap f).length = l.length * n := by
  induction l with
  | nil => simp
  | cons a rest ih =>
    rw [List.flatMap_cons, List.length_append, h a (List.mem_cons_self _ _),
      ih (fun b hb => h b (List.mem_cons_of_mem _ hb)), List.length_cons]
    ring

theorem calculateGridCenterForPlayerPos_origin (K : CloudConstants) :
    calculateGridCenterForPlayerPos K ⟨0, 0, 0⟩ = ⟨0, 0, 0⟩ := by
  have h : cppRound 0 = 0 := by norm_num [cppRound]
  simp [calculateGridCenterForPlayerPos, h]

/-- C3: from the empty state, registering `N` compound types spawns exactly
`ceil(N/4) * 9` tiles: up to their order, for every group `g < ceil(N/4)` and
every one of the 9 required positions around the origin one tile at that
position, bound to the types `4g .. 4g+3` as far as they exist (the other
slots unbound), provided the host hands out distinct handles. The count of the assertion,
`(((N+4-1)/4*4)/4)*9` in integer arithmetic, is `ceil(N/4) * 9` (18 for
`N = 5`, 9 for `N = 4`), so the assertion passes. -/
theorem initial_spawn (K : CloudConstants) (world : CellStageWorld) (s : CompoundCloudSystem)
    (cloudTypes : List Compound) (hempty : s.m_managedClouds = [])
    (hdistinct : Function.Injective world.entities) :
    ∃ r, registerCloudTypes K world s cloudTypes = .ok r ∧
      r.system.m_managedClouds.length = ⌈(cloudTypes.length : ℚ) / 4⌉₊ * 9 ∧
      (r.system.m_managedClouds.map Prod.snd).Perm
        ((List.range ⌈(cloudTypes.length : ℚ) / 4⌉₊).flatMap (fun g =>
          (calculateGridPositions K ⟨0, 0, 0⟩).map (fun pos =>
            freshTile K cloudTypes (4 * g) pos))) ∧
      r.system.m_cloudGridCenter = ⟨0, 0, 0⟩ ∧
      expectedCloudCount cloudTypes.length = ⌈(cloudTypes.length : ℚ) / 4⌉₊ * 9 ∧
      expectedCloudCount 5 = 18 ∧ expectedCloudCount 4 = 9 := by
  obtain ⟨st1, h1, hm1⟩ := spawnAll_fresh K cloudTypes (calculateGridPositions K ⟨0, 0, 0⟩)
    (groupStarts cloudTypes.length) (fun c hc => groupStarts_lt _ c hc) (world, [])
    hdistinct (by intro e he; simp at he)
  have htiles : st1.2.map Prod.snd =
      (List.range ⌈(cloudTypes.length : ℚ) / 4⌉₊).flatMap (fun g =>
        (calculateGridPositions K ⟨0, 0, 0⟩).map (fun pos =>
          freshTile K cloudTypes (4 * g) pos)) := by
    rw [hm1, ceil_div_four]
    simp only [List.map_nil, List.nil_append, groupStarts, CLOUDS_IN_ONE, List.flatMap_map]
    congr 1
    funext g
    rw [Nat.mul_comm]
  have hlen : st1.2.length = ⌈(cloudTypes.length : ℚ) / 4⌉₊ * 9 := by
    have h := congrArg List.length htiles
    rw [List.length_map] at h
    rw [h, flatMap_const_length _ _ 9 (fun g _ => by simp [calculateGridPositions]),
      List.length_range]
  have hcount : expectedCloudCount cloudTypes.length = ⌈(cloudTypes.length : ℚ) / 4⌉₊ * 9 := by
    rw [expectedCloudCount_eq, ceil_div_four]
  refine ⟨{ world := st1.1,
            system := { m_cloudTypes := cloudTypes, m_cloudGridCenter := ⟨0, 0, 0⟩,
                        m_managedClouds := st1.2 },
            recycled := [], fatal := 0 }, ?_, hlen, List.Perm.of_eq htiles, rfl, hcount,
    by decide, by decide⟩
  unfold registerCloudTypes doSpawnCycle initialSpawn updateWindow
  simp only [hempty, List.isEmpty_nil, if_true, h1]
  rw [if_neg (by simp only [ne_eq, not_not]; rw [hlen, hcount])]
  rw [calculateGridCenterForPlayerPos_origin, if_neg (by simp)]

/-- Witness of C3: five compound types in the toy configuration, handles
`100, 101, ...`. -/
theorem initial_spawn_witness :
    ∃ r, registerCloudTypes toyConstants ⟨fun n => n + 100, 0⟩ (emptySystem [])
        [⟨1⟩, ⟨2⟩, ⟨3⟩, ⟨4⟩, ⟨5⟩] = .ok r ∧
      r.system.m_managedClouds.length =
        ⌈(([⟨1⟩, ⟨2⟩, ⟨3⟩, ⟨4⟩, ⟨5⟩] : List Compound).length : ℚ) / 4⌉₊ * 9 ∧
      (r.system.m_managedClouds.map Prod.snd).Perm
        ((List.range ⌈(([⟨1⟩, ⟨2⟩, ⟨3⟩, ⟨4⟩, ⟨5⟩] : List Compound).length : ℚ) / 4⌉₊).flatMap
          (fun g => (calculateGridPositions toyConstants ⟨0, 0, 0⟩).map (fun pos =>
            freshTile toyConstants [⟨1⟩, ⟨2⟩, ⟨3⟩, ⟨4⟩, ⟨5⟩] (4 * g) pos))) ∧
      r.system.m_cloudGridCenter = ⟨0, 0, 0⟩ ∧
      expectedCloudCount ([⟨1⟩, ⟨2⟩, ⟨3⟩, ⟨4⟩, ⟨5⟩] : List Compound).length =
        ⌈(([⟨1⟩, ⟨2⟩, ⟨3⟩, ⟨4⟩, ⟨5⟩] : List Compound).length : ℚ) / 4⌉₊ * 9 ∧
      expectedCloudCount 5 = 18 ∧ expectedCloudCount 4 = 9 :=
  initial_spawn toyConstants ⟨fun n => n + 100, 0⟩ (emptySystem [])
    [⟨1⟩, ⟨2⟩, ⟨3⟩, ⟨4⟩, ⟨5⟩] rfl (fun a b h => by simpa using h)

/-! ### Counting in lists -/

theorem countP_split {α : Type} (r s : α → Bool) (l : List α) :
    l.countP r = l.countP (fun a => r a && s a) + l.countP (fun a => r a && !s a) := by
  induction l with
  | nil => rfl
  | cons a rest ih =>
    simp only [List.countP_cons, ih]
    cases r a <;> cases s a <;> simp <;> omega

theorem countP_by_key {α β : Type} [DecidableEq β] (key : α → β) (q : α → Bool)
    (P : List β) (hP : P.Nodup) (l : List α) :
    l.countP q =
      (P.map (fun p => l.countP (fun a => q a && decide (key a = p)))).sum +
        l.countP (fun a => q a && decide (key a ∉ P)) := by
  induction P with
  | nil => simp
  | cons p rest ih =>
    have hp : p ∉ rest := (List.nodup_cons.mp hP).1
    rw [ih (List.nodup_cons.mp hP).2]
    rw [List.map_cons, List.sum_cons]
    rw [countP_split (fun a => q a && decide (key a ∉ rest)) (fun a => decide (key a = p)) l]
    have e1 : l.countP (fun a => (q a && decide (key a ∉ rest)) && decide (key a = p)) =
        l.countP (fun a => q a && decide (key a = p)) := by
      apply List.countP_congr
      intro a _
      by_cases h : key a = p
      · simp [h, hp]
      · simp [h]
    have e2 : l.countP (fun a => (q a && decide (key a ∉ rest)) && !decide (key a = p)) =
        l.countP (fun a => q a && decide (key a ∉ p :: rest)) := by
      apply List.countP_congr
      intro a _
      by_cases h : key a = p
      · simp [h]
      · by_cases h1 : key a ∈ rest
        · simp [h, h1]
        · simp [h, h1]
    rw [e1, e2]
    omega

theorem sum_map_le_length {β : Type} (f : β → Nat) (P : List β) (h : ∀ p ∈ P, f p ≤ 1) :
    (P.map f).sum ≤ P.length := by
  induction P with
  | nil => simp
  | cons p rest ih =>
    rw [List.map_cons, List.sum_cons, List.length_cons]
    have h1 := h p (List.mem_cons_self _ _)
    have h2 := ih (fun q hq => h q (List.mem_cons_of_mem _ hq))
    omega

theorem sum_map_lt_length {β : Type} (f : β → Nat) (P : List β) (h : ∀ p ∈ P, f p ≤ 1)
    (p0 : β) (hp0 : p0 ∈ P) (h0 : f p0 = 0) : (P.map f).sum + 1 ≤ P.length := by
  induction P with
  | nil => simp at hp0
  | cons p rest ih =>
    rw [List.map_cons, List.sum_cons, List.length_cons]
    rcases List.mem_cons.mp hp0 with heq | hmem
    · have h2 := sum_map_le_length f rest (fun q hq => h q (List.mem_cons_of_mem _ hq))
      rw [← heq, h0]
      omega
    · have h1 := h p (List.mem_cons_self _ _)
      have h2 := ih (fun q hq => h q (List.mem_cons_of_mem _ hq)) hmem
      omega

theorem sum_map_eq_length {β : Type} (f : β → Nat) (P : List β) (h : ∀ p ∈ P, f p = 1) :
    (P.map f).sum = P.length := by
  induction P with
  | nil => simp
  | cons p rest ih =>
    rw [List.map_cons, List.sum_cons, List.length_cons, h p (List.mem_cons_self _ _),
      ih (fun q hq => h q (List.mem_cons_of_mem _ hq))]
    omega

theorem mem_iff_countP_pos {α : Type} [DecidableEq α] (l : List α) (x : α) :
    x ∈ l ↔ 0 < l.countP (fun a => decide (a = x)) := by
  rw [List.countP_pos_iff]
  simp

theorem countP_eq_le_one {α : Type} [DecidableEq α] (l : List α) (hl : l.Nodup) (x : α) :
    l.countP (fun a => decide (a = x)) ≤ 1 := by
  induction l with
  | nil => simp
  | cons a rest ih =>
    rw [List.countP_cons]
    have h1 := ih (List.nodup_cons.mp hl).2
    by_cases hx : a = x
    · have h0 : rest.countP (fun a => decide (a = x)) = 0 := by
        rw [List.countP_eq_zero]
        intro b hb
        simp only [decide_eq_true_eq]
        intro hbx
        rw [hbx, ← hx] at hb
        exact (List.nodup_cons.mp hl).1 hb
      simp [hx, h0]
    · simp [hx, h1]

theorem countP_set_add {α : Type} (p : α → Bool) (l : List α) (i : Nat) (a b : α)
    (h : l[i]? = some b) :
    (l.set i a).countP p + (if p b then 1 else 0) = l.countP p + (if p a then 1 else 0) := by
  induction l generalizing i with
  | nil => simp at h
  | cons c rest ih =>
    cases i with
    | zero =>
      simp only [List.getElem?_cons_zero, Option.some.injEq] at h
      subst h
      simp only [List.set_cons_zero, List.countP_cons]
      omega
    | succ i =>
      simp only [List.getElem?_cons_succ] at h
      simp only [List.set_cons_succ, List.countP_cons]
      have := ih i h
      omega

/-! ### Positions on the grid of tile centres -/

theorem calculateGridCenterForPlayerPos_onGrid (K : CloudConstants) (pos : Float3) :
    OnGrid K (calculateGridCenterForPlayerPos K pos) :=
  ⟨_, _, rfl⟩

theorem calculateGridPositions_eq (K : CloudConstants) (center : Float3) :
    calculateGridPositions K center = gridOffsets.map (offsetPosition K center) := by
  simp [calculateGridPositions, gridOffsets, offsetPosition, Float3.add]

theorem calculateGridPositions_length (K : CloudConstants) (center : Float3) :
    (calculateGridPositions K center).length = 9 := rfl

theorem calculateGridPositions_nodup (K : CloudConstants) (hK : K.Sound) (center : Float3) :
    (calculateGridPositions K center).Nodup := by
  have hx : K.CLOUD_X_EXTENT ≠ 0 := ne_of_gt (lt_of_lt_of_le hK.epsilon_pos hK.epsilon_le_x)
  have hy : K.CLOUD_Y_EXTENT ≠ 0 := ne_of_gt (lt_of_lt_of_le hK.epsilon_pos hK.epsilon_le_y)
  rw [calculateGridPositions_eq]
  apply List.Nodup.map
  · intro a b hab
    simp only [offsetPosition, Float3.mk.injEq, add_right_inj, mul_eq_mul_right_iff, hx, hy,
      or_false, Int.cast_inj, true_and] at hab
    exact Prod.ext hab.1 hab.2
  · decide

theorem calculateGridPositions_onGrid (K : CloudConstants) (center : Float3)
    (hc : OnGrid K center) : ∀ p ∈ calculateGridPositions K center, OnGrid K p := by
  obtain ⟨i, j, rfl⟩ := hc
  intro p hp
  rw [calculateGridPositions_eq] at hp
  obtain ⟨o, _, rfl⟩ := List.mem_map.mp hp
  refine ⟨i + o.1, j + o.2, ?_⟩
  simp only [offsetPosition, Float3.mk.injEq, true_and]
  constructor <;> push_cast <;> ring

/-- On the grid of tile centres the epsilon test is equality. -/
theorem positionMatches_onGrid (K : CloudConstants) (hK : K.Sound) (p r : Float3)
    (hp : OnGrid K p) (hr : OnGrid K r) : positionMatches K p r = true ↔ p = r := by
  obtain ⟨i, j, rfl⟩ := hp
  obtain ⟨i1, j1, rfl⟩ := hr
  have hx := hK.epsilon_le_x
  have hy := hK.epsilon_le_y
  have h0 := hK.epsilon_pos
  unfold positionMatches
  simp only [decide_eq_true_eq, Float3.sub, Float3.HAddAbs, sub_zero, abs_zero, add_zero]
  constructor
  · intro h
    have e1 : (i : ℚ) * K.CLOUD_X_EXTENT - i1 * K.CLOUD_X_EXTENT =
        ((i - i1 : ℤ) : ℚ) * K.CLOUD_X_EXTENT := by push_cast; ring
    have e2 : (j : ℚ) * K.CLOUD_Y_EXTENT - j1 * K.CLOUD_Y_EXTENT =
        ((j - j1 : ℤ) : ℚ) * K.CLOUD_Y_EXTENT := by push_cast; ring
    rw [e1, e2, abs_mul, abs_mul, abs_of_pos (lt_of_lt_of_le h0 hx),
      abs_of_pos (lt_of_lt_of_le h0 hy)] at h
    have a1 : (0 : ℚ) ≤ |((i - i1 : ℤ) : ℚ)| * K.CLOUD_X_EXTENT :=
      mul_nonneg (abs_nonneg _) (le_of_lt (lt_of_lt_of_le h0 hx))
    have a2 : (0 : ℚ) ≤ |((j - j1 : ℤ) : ℚ)| * K.CLOUD_Y_EXTENT :=
      mul_nonneg (abs_nonneg _) (le_of_lt (lt_of_lt_of_le h0 hy))
    have hi : i - i1 = 0 := by
      by_contra hne
      have h1 : (1 : ℚ) ≤ |((i - i1 : ℤ) : ℚ)| := by
        rw [← Int.cast_abs]
        exact_mod_cast Int.one_le_abs hne
      nlinarith
    have hj : j - j1 = 0 := by
      by_contra hne
      have h1 : (1 : ℚ) ≤ |((j - j1 : ℤ) : ℚ)| := by
        rw [← Int.cast_abs]
        exact_mod_cast Int.one_le_abs hne
      nlinarith
    have hi1 : i = i1 := by omega
    have hj1 : j = j1 := by omega
    rw [hi1, hj1]
  · intro h
    simp only [Float3.mk.injEq, true_and] at h
    rw [h.1, h.2]
    simpa using h0

/-! ### The first loop of the repositioning -/

theorem collectFarAway_eq (K : CloudConstants) (required : List Float3) (maxFarClouds : Nat)
    (i : Nat) (rest : ManagedClouds) (far : List (Option Nat)) (hfar : far.length ≤ i)
    (hmax : i + rest.length ≤ maxFarClouds) :
    collectFarAway K required maxFarClouds i rest far =
      (far ++ (displacedFrom K required i rest).map some, 0) := by
  induction rest generalizing i far with
  | nil => simp [collectFarAway, displacedFrom]
  | cons e rest ih =>
    rw [List.length_cons] at hmax
    unfold collectFarAway displacedFrom
    by_cases hd : isDisplaced K required e = true
    · have hm : (!required.any fun requiredPos =>
          positionMatches K e.2.m_position requiredPos) = true := hd
      simp only [hm, if_true, hd]
      rw [if_neg (by omega)]
      rw [ih (i + 1) (far ++ [some i]) (by simp; omega) (by omega)]
      simp
    · have hm : ¬((!required.any fun requiredPos =>
          positionMatches K e.2.m_position requiredPos) = true) := hd
      simp only [hm, if_false, hd]
      exact ih (i + 1) far (by omega) (by omega)

theorem mem_displacedFrom (K : CloudConstants) (required : List Float3) (i : Nat)
    (rest : ManagedClouds) (k : Nat) :
    k ∈ displacedFrom K required i rest ↔
      i ≤ k ∧ ∃ e, rest[k - i]? = some e ∧ isDisplaced K required e = true := by
  induction rest generalizing i with
  | nil => simp [displacedFrom]
  | cons e rest ih =>
    unfold displacedFrom
    by_cases hd : isDisplaced K required e = true
    · rw [if_pos hd, List.mem_cons, ih]
      constructor
      · rintro (rfl | ⟨h1, e1, h2, h3⟩)
        · exact ⟨le_refl _, e, by simp, hd⟩
        · refine ⟨by omega, e1, ?_, h3⟩
          have : k - i = (k - (i + 1)) + 1 := by omega
          rw [this, List.getElem?_cons_succ]
          exact h2
      · rintro ⟨h1, e1, h2, h3⟩
        by_cases hk : k = i
        · exact Or.inl hk
        · right
          refine ⟨by omega, e1, ?_, h3⟩
          have : k - i = (k - (i + 1)) + 1 := by omega
          rw [this, List.getElem?_cons_succ] at h2
          exact h2
    · rw [if_neg hd, ih]
      constructor
      · rintro ⟨h1, e1, h2, h3⟩
        refine ⟨by omega, e1, ?_, h3⟩
        have : k - i = (k - (i + 1)) + 1 := by omega
        rw [this, List.getElem?_cons_succ]
        exact h2
      · rintro ⟨h1, e1, h2, h3⟩
        by_cases hk : k = i
        · subst hk
          simp only [Nat.sub_self, List.getElem?_cons_zero, Option.some.injEq] at h2
          subst h2
          exact absurd h3 hd
        · refine ⟨by omega, e1, ?_, h3⟩
          have : k - i = (k - (i + 1)) + 1 := by omega
          rw [this, List.getElem?_cons_succ] at h2
          exact h2

theorem displacedFrom_nodup (K : CloudConstants) (required : List Float3) (i : Nat)
    (rest : ManagedClouds) : (displacedFrom K required i rest).Nodup := by
  induction rest generalizing i with
  | nil => simp [displacedFrom]
  | cons e rest ih =>
    unfold displacedFrom
    split_ifs with hd
    · rw [List.nodup_cons]
      refine ⟨?_, ih (i + 1)⟩
      intro hmem
      have := ((mem_displacedFrom K required (i + 1) rest i).mp hmem).1
      omega
    · exact ih (i + 1)

theorem displacedFrom_length (K : CloudConstants) (required : List Float3) (i : Nat)
    (rest : ManagedClouds) :
    (displacedFrom K required i rest).length = rest.countP (isDisplaced K required) := by
  induction rest generalizing i with
  | nil => simp [displacedFrom]
  | cons e rest ih =>
    unfold displacedFrom
    rw [List.countP_cons]
    split_ifs with hd
    · rw [List.length_cons, ih]
    · rw [ih]
      rfl

theorem countNotMoved_map_some (l : List Nat) : countNotMoved (l.map some) = l.length := by
  unfold countNotMoved
  induction l with
  | nil => rfl
  | cons a rest ih =>
    simp only [List.map_cons, List.filter_cons, Option.isSome_some, if_true, List.length_cons]
    rw [ih]

/-! ### The candidate scan -/

theorem findCandidate_sound (clouds : ManagedClouds) (groupType : CompoundId)
    (far : List (Option Nat)) (j0 j k : Nat) (t : CompoundCloudComponent)
    (h : findCandidate clouds groupType j0 far = some (j, k, t)) :
    ∃ i, j = j0 + i ∧ far[i]? = some (some k) ∧
      (∃ handle, clouds[k]? = some (handle, t)) ∧ t.getCompoundId1 = groupType := by
  induction far generalizing j0 with
  | nil => simp [findCandidate] at h
  | cons entry rest ih =>
    have hrest : findCandidate clouds groupType (j0 + 1) rest = some (j, k, t) →
        ∃ i, j = j0 + i ∧ (entry :: rest)[i]? = some (some k) ∧
          (∃ handle, clouds[k]? = some (handle, t)) ∧ t.getCompoundId1 = groupType := by
      intro h1
      obtain ⟨i, hi, h2, h3, h4⟩ := ih (j0 + 1) h1
      exact ⟨i + 1, by omega, by simpa using h2, h3, h4⟩
    unfold findCandidate at h
    cases entry with
    | none => exact hrest h
    | some k1 =>
      simp only at h
      cases hc : clouds[k1]? with
      | none =>
        rw [hc] at h
        exact hrest h
      | some e =>
        rw [hc] at h
        simp only at h
        split_ifs at h with hg
        · simp only [Option.some.injEq, Prod.mk.injEq] at h
          obtain ⟨rfl, rfl, rfl⟩ := h
          exact ⟨0, rfl, by simp, ⟨e.1, hc⟩, hg⟩
        · exact hrest h

theorem findCandidate_complete (clouds : ManagedClouds) (groupType : CompoundId)
    (far : List (Option Nat)) (j0 : Nat)
    (h : findCandidate clouds groupType j0 far = none) :
    ∀ k, some k ∈ far → ∀ e, clouds[k]? = some e → e.2.getCompoundId1 ≠ groupType := by
  induction far generalizing j0 with
  | nil => simp
  | cons entry rest ih =>
    intro k hk e he
    unfold findCandidate at h
    cases entry with
    | none =>
      simp only at h
      rcases List.mem_cons.mp hk with h1 | h1
      · simp at h1
      · exact ih (j0 + 1) h k h1 e he
    | some k1 =>
      simp only at h
      cases hc : clouds[k1]? with
      | none =>
        rw [hc] at h
        rcases List.mem_cons.mp hk with h1 | h1
        · simp only [Option.some.injEq] at h1
          rw [h1, hc] at he
          simp at he
        · exact ih (j0 + 1) h k h1 e he
      | some e1 =>
        rw [hc] at h
        simp only at h
        split_ifs at h with hg
        rcases List.mem_cons.mp hk with h1 | h1
        · simp only [Option.some.injEq] at h1
          rw [h1, hc] at he
          simp only [Option.some.injEq] at he
          rw [← he]
          exact hg
        · exact ih (j0 + 1) h k h1 e he

/-! ### Recycling keeps the bindings -/

theorem clearFirst_fields (K : CloudConstants) (t : CompoundCloudComponent) :
    (t.clearFirst K).m_position = t.m_position ∧
      (t.clearFirst K).m_compoundId1 = t.m_compoundId1 ∧
      (t.clearFirst K).m_compoundId2 = t.m_compoundId2 ∧
      (t.clearFirst K).m_compoundId3 = t.m_compoundId3 ∧
      (t.clearFirst K).m_compoundId4 = t.m_compoundId4 ∧
      (t.clearFirst K).m_density2 = t.m_density2 ∧ (t.clearFirst K).m_oldDens2 = t.m_oldDens2 ∧
      (t.clearFirst K).m_density3 = t.m_density3 ∧ (t.clearFirst K).m_oldDens3 = t.m_oldDens3 ∧
      (t.clearFirst K).m_density4 = t.m_density4 ∧ (t.clearFirst K).m_oldDens4 = t.m_oldDens4 := by
  unfold CompoundCloudComponent.clearFirst
  split_ifs <;> exact ⟨rfl, rfl, rfl, rfl, rfl, rfl, rfl, rfl, rfl, rfl, rfl⟩

theorem clearSecond_fields (K : CloudConstants) (t : CompoundCloudComponent) :
    (t.clearSecond K).m_position = t.m_position ∧
      (t.clearSecond K).m_compoundId1 = t.m_compoundId1 ∧
      (t.clearSecond K).m_compoundId2 = t.m_compoundId2 ∧
      (t.clearSecond K).m_compoundId3 = t.m_compoundId3 ∧
      (t.clearSecond K).m_compoundId4 = t.m_compoundId4 ∧
      (t.clearSecond K).m_density1 = t.m_density1 ∧ (t.clearSecond K).m_oldDens1 = t.m_oldDens1 ∧
      (t.clearSecond K).m_density3 = t.m_density3 ∧ (t.clearSecond K).m_oldDens3 = t.m_oldDens3 ∧
      (t.clearSecond K).m_density4 = t.m_density4 ∧
      (t.clearSecond K).m_oldDens4 = t.m_oldDens4 := by
  unfold CompoundCloudComponent.clearSecond
  split_ifs <;> exact ⟨rfl, rfl, rfl, rfl, rfl, rfl, rfl, rfl, rfl, rfl, rfl⟩

theorem clearThird_fields (K : CloudConstants) (t : CompoundCloudComponent) :
    (t.clearThird K).m_position = t.m_position ∧
      (t.clearThird K).m_compoundId1 = t.m_compoundId1 ∧
      (t.clearThird K).m_compoundId2 = t.m_compoundId2 ∧
      (t.clearThird K).m_compoundId3 = t.m_compoundId3 ∧
      (t.clearThird K).m_compoundId4 = t.m_compoundId4 ∧
      (t.clearThird K).m_density1 = t.m_density1 ∧ (t.clearThird K).m_oldDens1 = t.m_oldDens1 ∧
      (t.clearThird K).m_density2 = t.m_density2 ∧ (t.clearThird K).m_oldDens2 = t.m_oldDens2 ∧
      (t.clearThird K).m_density4 = t.m_density4 ∧ (t.clearThird K).m_oldDens4 = t.m_oldDens4 := by
  unfold CompoundCloudComponent.clearThird
  split_ifs <;> exact ⟨rfl, rfl, rfl, rfl, rfl, rfl, rfl, rfl, rfl, rfl, rfl⟩

theorem clearFourth_fields (K : CloudConstants) (t : CompoundCloudComponent) :
    (t.clearFourth K).m_position = t.m_position ∧
      (t.clearFourth K).m_compoundId1 = t.m_compoundId1 ∧
      (t.clearFourth K).m_compoundId2 = t.m_compoundId2 ∧
      (t.clearFourth K).m_compoundId3 = t.m_compoundId3 ∧
      (t.clearFourth K).m_compoundId4 = t.m_compoundId4 ∧
      (t.clearFourth K).m_density1 = t.m_density1 ∧ (t.clearFourth K).m_oldDens1 = t.m_oldDens1 ∧
      (t.clearFourth K).m_density2 = t.m_density2 ∧ (t.clearFourth K).m_oldDens2 = t.m_oldDens2 ∧
      (t.clearFourth K).m_density3 = t.m_density3 ∧
      (t.clearFourth K).m_oldDens3 = t.m_oldDens3 := by
  unfold CompoundCloudComponent.clearFourth
  split_ifs <;> exact ⟨rfl, rfl, rfl, rfl, rfl, rfl, rfl, rfl, rfl, rfl, rfl⟩

theorem clearContents_ids (K : CloudConstants) (t : CompoundCloudComponent) :
    (t.clearContents K).m_position = t.m_position ∧
      (t.clearContents K).m_compoundId1 = t.m_compoundId1 ∧
      (t.clearContents K).m_compoundId2 = t.m_compoundId2 ∧
      (t.clearContents K).m_compoundId3 = t.m_compoundId3 ∧
      (t.clearContents K).m_compoundId4 = t.m_compoundId4 := by
  unfold CompoundCloudComponent.clearContents
  obtain ⟨a0, a1, a2, a3, a4, _⟩ := clearFirst_fields K t
  obtain ⟨b0, b1, b2, b3, b4, _⟩ := clearSecond_fields K (t.clearFirst K)
  obtain ⟨c0, c1, c2, c3, c4, _⟩ := clearThird_fields K ((t.clearFirst K).clearSecond K)
  obtain ⟨d0, d1, d2, d3, d4, _⟩ :=
    clearFourth_fields K (((t.clearFirst K).clearSecond K).clearThird K)
  exact ⟨by rw [d0, c0, b0, a0], by rw [d1, c1, b1, a1], by rw [d2, c2, b2, a2],
    by rw [d3, c3, b3, a3], by rw [d4, c4, b4, a4]⟩

theorem recycleToPosition_position (K : CloudConstants) (t : CompoundCloudComponent)
    (p : Float3) : (t.recycleToPosition K p).m_position = p := by
  unfold CompoundCloudComponent.recycleToPosition
  rw [(clearContents_ids K _).1]

theorem recycleToPosition_id1 (K : CloudConstants) (t : CompoundCloudComponent)
    (p : Float3) : (t.recycleToPosition K p).getCompoundId1 = t.getCompoundId1 := by
  unfold CompoundCloudComponent.recycleToPosition CompoundCloudComponent.getCompoundId1
  rw [(clearContents_ids K _).2.1]

/-! ### The second loop of the repositioning -/

theorem tilesOf_pos_iff (clouds : ManagedClouds) (g : CompoundId) (p : Float3) :
    1 ≤ tilesOf clouds g p ↔
      ∃ e ∈ clouds, e.2.getCompoundId1 = g ∧ e.2.m_position = p := by
  unfold tilesOf
  rw [Nat.succ_le_iff, List.countP_pos_iff]
  simp [isTileOf]

theorem hasCloudAt_iff (K : CloudConstants) (clouds : ManagedClouds) (g : CompoundId)
    (p : Float3)
    (hexact : ∀ e ∈ clouds, (positionMatches K e.2.m_position p = true ↔ e.2.m_position = p)) :
    hasCloudAt K clouds g p = true ↔ 1 ≤ tilesOf clouds g p := by
  rw [tilesOf_pos_iff]
  unfold hasCloudAt
  simp only [List.any_eq_true, Bool.and_eq_true, decide_eq_true_eq]
  constructor
  · rintro ⟨e, he, h1, h2⟩
    exact ⟨e, he, h2.symm, (hexact e he).mp h1⟩
  · rintro ⟨e, he, h1, h2⟩
    exact ⟨e, he, (hexact e he).mpr h2, h1.symm⟩

/-- The tiles of a group: those at the required positions and the others. -/
theorem group_count (clouds : ManagedClouds) (g : CompoundId) (P : List Float3)
    (hP : P.Nodup) :
    clouds.countP (fun e => decide (e.2.getCompoundId1 = g)) =
      (P.map (fun p => tilesOf clouds g p)).sum +
        clouds.countP (fun e => decide (e.2.getCompoundId1 = g) &&
          decide (e.2.m_position ∉ P)) :=
  countP_by_key (fun e : ObjectID × CompoundCloudComponent => e.2.m_position)
    (fun e => decide (e.2.getCompoundId1 = g)) P hP clouds

theorem exists_displaced (K : CloudConstants) (G : List CompoundId) (P : List Float3)
    (D : Nat) (st : Repositioning) (hinv : FillInvariant K G P D st) (hP : P.Nodup)
    (g : CompoundId) (hg : g ∈ G) (p : Float3) (hp : p ∈ P)
    (hzero : tilesOf st.clouds g p = 0) :
    ∃ (k : Nat) (e : ObjectID × CompoundCloudComponent),
      st.clouds[k]? = some e ∧ e.2.getCompoundId1 = g ∧ e.2.m_position ∉ P := by
  have hcount := group_count st.clouds g P hP
  rw [hinv.nine g hg] at hcount
  have hsum := sum_map_lt_length (fun p => tilesOf st.clouds g p) P
    (fun q hq => hinv.atMostOne g hg q hq) p hp hzero
  have hpos : 0 < st.clouds.countP (fun e => decide (e.2.getCompoundId1 = g) &&
      decide (e.2.m_position ∉ P)) := by omega
  obtain ⟨e, he, hpe⟩ := List.countP_pos_iff.mp hpos
  simp only [Bool.and_eq_true, decide_eq_true_eq] at hpe
  obtain ⟨k, hk⟩ := List.getElem?_of_mem he
  exact ⟨k, e, hk, hpe.1, hpe.2⟩

/-- One recycling keeps the invariant, fills the position and takes no tile
away from a required position. -/
theorem recycle_step (K : CloudConstants) (G : List CompoundId) (P : List Float3) (D : Nat)
    (st : Repositioning) (hinv : FillInvariant K G P D st)
    (hPexact : ∀ p ∈ P, ∀ r ∈ P, (positionMatches K p r = true ↔ p = r))
    (g : CompoundId) (hg : g ∈ G) (p : Float3) (hp : p ∈ P)
    (hzero : tilesOf st.clouds g p = 0)
    (j k : Nat) (handle : ObjectID) (t : CompoundCloudComponent)
    (hj : st.tooFarAway[j]? = some (some k)) (hk : st.clouds[k]? = some (handle, t))
    (ht : t.getCompoundId1 = g) :
    FillInvariant K G P D
        { st with
          clouds := st.clouds.setTile k (t.recycleToPosition K p)
          tooFarAway := st.tooFarAway.set j none
          recycled := st.recycled ++ [(k, p)] } ∧
      st.clouds.setTile k (t.recycleToPosition K p) =
        st.clouds.set k (handle, t.recycleToPosition K p) ∧
      t.m_position ∉ P ∧
      ∀ g1, ∀ p1 ∈ P,
        tilesOf (st.clouds.setTile k (t.recycleToPosition K p)) g1 p1 =
          tilesOf st.clouds g1 p1 + (if g = g1 ∧ p = p1 then 1 else 0) := by
  have hset : st.clouds.setTile k (t.recycleToPosition K p) =
      st.clouds.set k (handle, t.recycleToPosition K p) := by
    unfold ManagedClouds.setTile
    rw [hk]
  have hmemfar : some k ∈ st.tooFarAway := List.getElem?_mem hj
  have htpos : t.m_position ∉ P := by
    obtain ⟨e, he, hepos⟩ := (hinv.farIff k).mp hmemfar
    rw [hk] at he
    simp only [Option.some.injEq] at he
    rw [← he] at hepos
    exact hepos
  have hnewpos := recycleToPosition_position K t p
  have hnewid := recycleToPosition_id1 K t p
  -- counting tiles of a group at a required position
  have hcnt : ∀ g1, ∀ p1 ∈ P,
      tilesOf (st.clouds.set k (handle, t.recycleToPosition K p)) g1 p1 =
        tilesOf st.clouds g1 p1 + (if g = g1 ∧ p = p1 then 1 else 0) := by
    intro g1 p1 hp1
    have h := countP_set_add (isTileOf g1 p1) st.clouds k (handle, t.recycleToPosition K p)
      (handle, t) hk
    have hold : isTileOf g1 p1 (handle, t) = false := by
      simp only [isTileOf, Bool.and_eq_false_imp, decide_eq_true_eq, decide_eq_false_iff_not]
      intro _ hpos
      rw [hpos] at htpos
      exact htpos hp1
    have hnew : isTileOf g1 p1 (handle, t.recycleToPosition K p) = decide (g = g1 ∧ p = p1) := by
      simp only [isTileOf, hnewpos, hnewid, ht, Bool.decide_and]
    rw [hold, hnew] at h
    simp only [Bool.false_eq_true, if_false, add_zero, decide_eq_true_eq] at h
    unfold tilesOf
    exact h
  rw [hset]
  refine ⟨?_, rfl, htpos, hcnt⟩
  constructor
  · intro e he
    rcases List.mem_or_eq_of_mem_set he with h | h
    · exact hinv.known e h
    · rw [h]
      simp only
      rw [hnewid, ht]
      exact hg
  · intro e he r hr
    rcases List.mem_or_eq_of_mem_set he with h | h
    · exact hinv.exact e h r hr
    · rw [h]
      simp only
      rw [hnewpos]
      exact hPexact p hp r hr
  · intro g1 hg1 p1 hp1
    simp only
    rw [hcnt g1 p1 hp1]
    by_cases hc : g = g1 ∧ p = p1
    · rw [if_pos hc, ← hc.1, ← hc.2, hzero]
    · rw [if_neg hc]
      exact hinv.atMostOne g1 hg1 p1 hp1
  · intro g1 hg1
    simp only
    have h := countP_set_add (fun e : ObjectID × CompoundCloudComponent =>
      decide (e.2.getCompoundId1 = g1)) st.clouds k (handle, t.recycleToPosition K p)
      (handle, t) hk
    simp only [hnewid] at h
    rw [← hinv.nine g1 hg1]
    omega
  · intro k1
    simp only
    have h := countP_set_add (fun a => decide (a = some k1)) st.tooFarAway j none (some k) hj
    have h1 := hinv.farOnce k1
    simp only [decide_eq_true_eq, reduceCtorEq, if_false, add_zero] at h
    omega
  · intro k1
    simp only
    by_cases hk1 : k1 = k
    · subst hk1
      constructor
      · intro hmem
        exfalso
        have h := countP_set_add (fun a => decide (a = some k1)) st.tooFarAway j none
          (some k1) hj
        have h1 := hinv.farOnce k1
        have h2 := (mem_iff_countP_pos (st.tooFarAway.set j none) (some k1)).mp hmem
        simp only [decide_True, if_true, decide_eq_true_eq, reduceCtorEq, if_false,
          add_zero] at h
        omega
      · rintro ⟨e, he, hepos⟩
        exfalso
        have hlt : k1 < st.clouds.length := by
          by_contra hge
          rw [List.getElem?_eq_none (by omega)] at hk
          simp at hk
        rw [List.getElem?_set_self hlt] at he
        simp only [Option.some.injEq] at he
        rw [← he] at hepos
        simp only at hepos
        rw [hnewpos] at hepos
        exact hepos hp
    · have hcount : (st.tooFarAway.set j none).countP (fun a => decide (a = some k1)) =
          st.tooFarAway.countP (fun a => decide (a = some k1)) := by
        have h := countP_set_add (fun a => decide (a = some k1)) st.tooFarAway j none
          (some k) hj
        have hne : ¬(k = k1) := fun h => hk1 h.symm
        simp only [decide_eq_true_eq, Option.some.injEq, hne, reduceCtorEq, if_false,
          add_zero] at h
        exact h
      rw [List.getElem?_set_ne (fun h => hk1 h.symm)]
      rw [← hinv.farIff k1, mem_iff_countP_pos, mem_iff_countP_pos, hcount]
  · exact hinv.noFatal
  · simp only [List.length_append, List.length_singleton]
    have h := countP_set_add (fun a : Option Nat => a.isSome) st.tooFarAway j none (some k) hj
    simp only [Option.isSome_some, if_true, Option.isSome_none, Bool.false_eq_true,
      if_false, add_zero] at h
    have hbal := hinv.balance
    unfold countNotMoved at hbal ⊢
    rw [← List.countP_eq_length_filter] at hbal ⊢
    omega

/-! ### Clearing a tile -/

theorem clearGrid_apply (K : CloudConstants) (g : Grid) (i j : Nat) :
    CompoundCloudComponent.clearGrid K g i j =
      if i < K.CLOUD_SIMULATION_WIDTH ∧ j < K.CLOUD_SIMULATION_HEIGHT then 0 else g i j :=
  clearRows_apply _ _ g i j

theorem clearFirst_zero (K : CloudConstants) (t : CompoundCloudComponent)
    (h : t.m_compoundId1 ≠ K.NULL_COMPOUND) (x y : Nat) (hx : x < K.CLOUD_SIMULATION_WIDTH)
    (hy : y < K.CLOUD_SIMULATION_HEIGHT) :
    (t.clearFirst K).m_density1 x y = 0 ∧ (t.clearFirst K).m_oldDens1 x y = 0 := by
  unfold CompoundCloudComponent.clearFirst
  rw [if_pos h]
  simp only [clearGrid_apply, hx, hy, and_self, if_true]

theorem clearSecond_zero (K : CloudConstants) (t : CompoundCloudComponent)
    (h : t.m_compoundId2 ≠ K.NULL_COMPOUND) (x y : Nat) (hx : x < K.CLOUD_SIMULATION_WIDTH)
    (hy : y < K.CLOUD_SIMULATION_HEIGHT) :
    (t.clearSecond K).m_density2 x y = 0 ∧ (t.clearSecond K).m_oldDens2 x y = 0 := by
  unfold CompoundCloudComponent.clearSecond
  rw [if_pos h]
  simp only [clearGrid_apply, hx, hy, and_self, if_true]

theorem clearThird_zero (K : CloudConstants) (t : CompoundCloudComponent)
    (h : t.m_compoundId3 ≠ K.NULL_COMPOUND) (x y : Nat) (hx : x < K.CLOUD_SIMULATION_WIDTH)
    (hy : y < K.CLOUD_SIMULATION_HEIGHT) :
    (t.clearThird K).m_density3 x y = 0 ∧ (t.clearThird K).m_oldDens3 x y = 0 := by
  unfold CompoundCloudComponent.clearThird
  rw [if_pos h]
  simp only [clearGrid_apply, hx, hy, and_self, if_true]

theorem clearFourth_zero (K : CloudConstants) (t : CompoundCloudComponent)
    (h : t.m_compoundId4 ≠ K.NULL_COMPOUND) (x y : Nat) (hx : x < K.CLOUD_SIMULATION_WIDTH)
    (hy : y < K.CLOUD_SIMULATION_HEIGHT) :
    (t.clearFourth K).m_density4 x y = 0 ∧ (t.clearFourth K).m_oldDens4 x y = 0 := by
  unfold CompoundCloudComponent.clearFourth
  rw [if_pos h]
  simp only [clearGrid_apply, hx, hy, and_self, if_true]

theorem clearContents_cleared (K : CloudConstants) (t : CompoundCloudComponent) :
    (t.clearContents K).Cleared K := by
  intro slot hne x y hx hy
  obtain ⟨_, i1, i2, i3, i4⟩ := clearContents_ids K t
  unfold CompoundCloudComponent.clearContents at hne ⊢
  obtain ⟨_, a1, a2, a3, a4, _⟩ := clearFirst_fields K t
  obtain ⟨_, b1, b2, b3, b4, bd1, bo1, _⟩ := clearSecond_fields K (t.clearFirst K)
  obtain ⟨_, c1, c2, c3, c4, cd1, co1, cd2, co2, _⟩ :=
    clearThird_fields K ((t.clearFirst K).clearSecond K)
  obtain ⟨_, d1, d2, d3, d4, dd1, do1, dd2, do2, dd3, do3⟩ :=
    clearFourth_fields K (((t.clearFirst K).clearSecond K).clearThird K)
  cases slot with
  | FIRST =>
    simp only [CompoundCloudComponent.compoundId, CompoundCloudComponent.density,
      CompoundCloudComponent.oldDens] at hne ⊢
    rw [d1, c1, b1, a1] at hne
    rw [dd1, do1, cd1, co1, bd1, bo1]
    exact clearFirst_zero K t hne x y hx hy
  | SECOND =>
    simp only [CompoundCloudComponent.compoundId, CompoundCloudComponent.density,
      CompoundCloudComponent.oldDens] at hne ⊢
    rw [d2, c2, b2] at hne
    rw [dd2, do2, cd2, co2]
    exact clearSecond_zero K _ hne x y hx hy
  | THIRD =>
    simp only [CompoundCloudComponent.compoundId, CompoundCloudComponent.density,
      CompoundCloudComponent.oldDens] at hne ⊢
    rw [d3, c3] at hne
    rw [dd3, do3]
    exact clearThird_zero K _ hne x y hx hy
  | FOURTH =>
    simp only [CompoundCloudComponent.compoundId, CompoundCloudComponent.density,
      CompoundCloudComponent.oldDens] at hne ⊢
    rw [d4] at hne
    exact clearFourth_zero K _ hne x y hx hy

theorem recycleToPosition_cleared (K : CloudConstants) (t : CompoundCloudComponent)
    (p : Float3) : (t.recycleToPosition K p).Cleared K :=
  clearContents_cleared K _

theorem recycledTargets_congr (clouds1 clouds2 : ManagedClouds)
    (recycled : List (Nat × Float3)) (g : CompoundId)
    (h : ∀ kp ∈ recycled, (clouds1[kp.1]?).map (fun e => e.2.getCompoundId1) =
      (clouds2[kp.1]?).map (fun e => e.2.getCompoundId1)) :
    recycledTargets clouds1 recycled g = recycledTargets clouds2 recycled g := by
  unfold recycledTargets
  congr 1
  apply List.filter_congr
  intro kp hkp
  have := h kp hkp
  cases h1 : clouds1[kp.1]? <;> cases h2 : clouds2[kp.1]? <;> simp_all

/-! ### The record of the recycling calls -/

/-- One recycling keeps the record of the calls right. -/
theorem trace_step (K : CloudConstants) (P : List Float3) (clouds0 : ManagedClouds)
    (st : Repositioning) (htr : TraceInvariant K P clouds0 st)
    (p : Float3) (hp : p ∈ P) (j k : Nat) (handle : ObjectID) (t : CompoundCloudComponent)
    (hk : st.clouds[k]? = some (handle, t)) (htpos : t.m_position ∉ P) :
    TraceInvariant K P clouds0
        { st with
          clouds := st.clouds.set k (handle, t.recycleToPosition K p)
          tooFarAway := st.tooFarAway.set j none
          recycled := st.recycled ++ [(k, p)] } ∧
      ∀ g1, recycledTargets (st.clouds.set k (handle, t.recycleToPosition K p))
          (st.recycled ++ [(k, p)]) g1 =
        recycledTargets st.clouds st.recycled g1 ++
          (if t.getCompoundId1 = g1 then [p] else []) := by
  have hlt : k < st.clouds.length := by
    by_contra hge
    rw [List.getElem?_eq_none (by omega)] at hk
    simp at hk
  have hfresh : ∀ p0, (k, p0) ∉ st.recycled := by
    intro p0 hmem
    obtain ⟨hp0, e0, _, _, h3⟩ := htr.done (k, p0) hmem
    simp only at h3 hp0
    rw [hk] at h3
    simp only [Option.some.injEq, Prod.mk.injEq] at h3
    rw [h3.2, recycleToPosition_position] at htpos
    exact htpos hp0
  have h0 : clouds0[k]? = some (handle, t) := by
    rw [← htr.untouched k hfresh]
    exact hk
  constructor
  · constructor
    · intro kp hkp
      simp only at hkp ⊢
      rcases List.mem_append.mp hkp with hold | hnew
      · obtain ⟨h1, e0, h2, h3, h4⟩ := htr.done kp hold
        refine ⟨h1, e0, h2, h3, ?_⟩
        have hne : k ≠ kp.1 := by
          intro heq
          apply hfresh kp.2
          rw [heq]
          exact hold
        rw [List.getElem?_set_ne hne]
        exact h4
      · simp only [List.mem_singleton] at hnew
        rw [hnew]
        exact ⟨hp, (handle, t), h0, htpos, by simp [List.getElem?_set_self hlt]⟩
    · intro k1 hk1
      simp only at hk1 ⊢
      have hne : k ≠ k1 := by
        intro heq
        apply hk1 p
        rw [← heq]
        simp
      rw [List.getElem?_set_ne hne]
      exact htr.untouched k1 (fun p1 hmem => hk1 p1 (List.mem_append_left _ hmem))
    · simp only [List.length_set]
      exact htr.sameLength
  · intro g1
    have hids : ∀ kp ∈ st.recycled,
        ((st.clouds.set k (handle, t.recycleToPosition K p))[kp.1]?).map
          (fun e => e.2.getCompoundId1) =
        (st.clouds[kp.1]?).map (fun e => e.2.getCompoundId1) := by
      intro kp hkp
      have hne : k ≠ kp.1 := by
        intro heq
        apply hfresh kp.2
        rw [heq]
        exact hkp
      rw [List.getElem?_set_ne hne]
    have hold := recycledTargets_congr _ _ st.recycled g1 hids
    unfold recycledTargets at hold ⊢
    rw [List.filter_append, List.map_append, hold]
    congr 1
    simp only [List.filter_cons, List.filter_nil, List.getElem?_set_self hlt,
      recycleToPosition_id1]
    by_cases hg : t.getCompoundId1 = g1
    · simp [hg]
    · simp [hg]

theorem fillGroup_full (K : CloudConstants) (G : List CompoundId) (P : List Float3)
    (D : Nat) (clouds0 : ManagedClouds) (hP : P.Nodup)
    (hPexact : ∀ p ∈ P, ∀ r ∈ P, (positionMatches K p r = true ↔ p = r))
    (g : CompoundId) (hg : g ∈ G) (ps : List Float3) (hps : ∀ p ∈ ps, p ∈ P)
    (hnd : ps.Nodup) (st : Repositioning) (hinv : FillInvariant K G P D st)
    (htr : TraceInvariant K P clouds0 st) :
    FillInvariant K G P D (fillGroup K g ps st) ∧
      TraceInvariant K P clouds0 (fillGroup K g ps st) ∧
      (∀ g1, ∀ p1 ∈ P, tilesOf (fillGroup K g ps st).clouds g1 p1 =
        tilesOf st.clouds g1 p1 +
          (if g = g1 ∧ p1 ∈ ps ∧ tilesOf st.clouds g p1 = 0 then 1 else 0)) ∧
      ∀ g1, recycledTargets (fillGroup K g ps st).clouds (fillGroup K g ps st).recycled g1 =
        recycledTargets st.clouds st.recycled g1 ++
          (if g = g1 then ps.filter (fun q => decide (tilesOf st.clouds g q = 0)) else []) := by
  induction ps generalizing st with
  | nil =>
    refine ⟨hinv, htr, ?_, ?_⟩
    · intro g1 p1 _
      simp [fillGroup]
    · intro g1
      simp [fillGroup]
  | cons p rest ih =>
    have hp : p ∈ P := hps p (List.mem_cons_self _ _)
    have hrest : ∀ q ∈ rest, q ∈ P := fun q hq => hps q (List.mem_cons_of_mem _ hq)
    have hpn : p ∉ rest := (List.nodup_cons.mp hnd).1
    have hrnd : rest.Nodup := (List.nodup_cons.mp hnd).2
    have hiff := hasCloudAt_iff K st.clouds g p (fun e he => hinv.exact e he p hp)
    unfold fillGroup
    by_cases hc : hasCloudAt K st.clouds g p = true
    · rw [if_pos hc]
      have hpos : tilesOf st.clouds g p ≠ 0 := by
        have := hiff.mp hc
        omega
      obtain ⟨h1, h2, h3, h4⟩ := ih hrest hrnd st hinv htr
      refine ⟨h1, h2, ?_, ?_⟩
      · intro g1 p1 hp1
        rw [h3 g1 p1 hp1]
        congr 1
        by_cases hpp : p1 = p
        · subst hpp
          simp [hpn, hpos]
        · simp [hpp]
      · intro g1
        have hf : (p :: rest).filter (fun q => decide (tilesOf st.clouds g q = 0)) =
            rest.filter (fun q => decide (tilesOf st.clouds g q = 0)) := by
          rw [List.filter_cons, if_neg (by simpa using hpos)]
        rw [h4 g1, hf]
    · rw [if_neg hc]
      have hzero : tilesOf st.clouds g p = 0 := by
        have := mt hiff.mpr hc
        omega
      obtain ⟨k, e, hk, heg, hepos⟩ := exists_displaced K G P D st hinv hP g hg p hp hzero
      cases hf : findCandidate st.clouds g 0 st.tooFarAway with
      | none =>
        exfalso
        exact findCandidate_complete st.clouds g st.tooFarAway 0 hf k
          ((hinv.farIff k).mpr ⟨e, hk, hepos⟩) e hk heg
      | some found =>
        obtain ⟨j, k1, t⟩ := found
        obtain ⟨i, hji, hfar, ⟨handle, hcl⟩, ht⟩ :=
          findCandidate_sound st.clouds g st.tooFarAway 0 j k1 t hf
        have hj : j = i := by omega
        subst hj
        obtain ⟨s1, hset, htpos, hcnt⟩ := recycle_step K G P D st hinv hPexact g hg p hp
          hzero j k1 handle t hfar hcl ht
        obtain ⟨r1, r2⟩ := trace_step K P clouds0 st htr p hp j k1 handle t hcl htpos
        rw [← hset] at r1 r2
        obtain ⟨h1, h2, h3, h4⟩ := ih hrest hrnd _ s1 r1
        simp only
        simp only at h3 h4
        have hsame : ∀ q ∈ rest, tilesOf (st.clouds.setTile k1 (t.recycleToPosition K p)) g q =
            tilesOf st.clouds g q := by
          intro q hq
          rw [hcnt g q (hrest q hq), if_neg, add_zero]
          rintro ⟨_, hpq⟩
          rw [hpq] at hpn
          exact hpn hq
        refine ⟨h1, h2, ?_, ?_⟩
        · intro g1 p1 hp1
          rw [h3 g1 p1 hp1, hcnt g1 p1 hp1, add_assoc]
          congr 1
          by_cases hpp : p1 = p
          · subst hpp
            by_cases hgg : g = g1
            · subst hgg
              simp [hpn, hzero]
            · simp [hgg]
          · have hpp1 : ¬(p = p1) := fun h => hpp h.symm
            by_cases hmem : p1 ∈ rest
            · simp [hpp, hpp1, hmem, hsame p1 hmem]
            · simp [hpp, hpp1, hmem]
        · intro g1
          rw [h4 g1, r2 g1, ht, List.append_assoc]
          congr 1
          by_cases hgg : g = g1
          · rw [if_pos hgg, if_pos hgg, if_pos hgg, List.filter_cons,
              if_pos (by simpa using hzero), List.singleton_append]
            congr 1
            apply List.filter_congr
            intro q hq
            rw [hsame q hq]
          · rw [if_neg hgg, if_neg hgg, if_neg hgg]
            rfl

theorem fillGroups_eq_foldl (K : CloudConstants) (cloudTypes : List Compound)
    (required : List Float3) (starts : List Nat) (st : Repositioning) :
    fillGroups K cloudTypes required starts st =
      (starts.filterMap (fun c => cloudTypes[c]?.map (fun t => t.id))).foldl
        (fun st1 g => fillGroup K g required st1) st := by
  induction starts generalizing st with
  | nil => rfl
  | cons c rest ih =>
    unfold fillGroups
    cases hc : cloudTypes[c]? with
    | none =>
      simp only [List.filterMap_cons, hc, Option.map_none']
      exact ih st
    | some gc =>
      simp only [List.filterMap_cons, hc, Option.map_some', List.foldl_cons]
      exact ih _

theorem fillAll_full (K : CloudConstants) (G : List CompoundId) (P : List Float3)
    (D : Nat) (clouds0 : ManagedClouds) (hP : P.Nodup)
    (hPexact : ∀ p ∈ P, ∀ r ∈ P, (positionMatches K p r = true ↔ p = r))
    (gids : List CompoundId) (hsub : ∀ g ∈ gids, g ∈ G) (hnd : gids.Nodup)
    (st : Repositioning) (hinv : FillInvariant K G P D st)
    (htr : TraceInvariant K P clouds0 st) :
    FillInvariant K G P D (gids.foldl (fun st1 g => fillGroup K g P st1) st) ∧
      TraceInvariant K P clouds0 (gids.foldl (fun st1 g => fillGroup K g P st1) st) ∧
      (∀ g1, ∀ p1 ∈ P,
        tilesOf (gids.foldl (fun st1 g => fillGroup K g P st1) st).clouds g1 p1 =
          tilesOf st.clouds g1 p1 +
            (if g1 ∈ gids ∧ tilesOf st.clouds g1 p1 = 0 then 1 else 0)) ∧
      ∀ g1, recycledTargets (gids.foldl (fun st1 g => fillGroup K g P st1) st).clouds
          (gids.foldl (fun st1 g => fillGroup K g P st1) st).recycled g1 =
        recycledTargets st.clouds st.recycled g1 ++
          (if g1 ∈ gids then P.filter (fun q => decide (tilesOf st.clouds g1 q = 0)) else []) := by
  induction gids generalizing st with
  | nil =>
    refine ⟨hinv, htr, ?_, ?_⟩
    · intro g1 p1 _
      simp
    · intro g1
      simp
  | cons g rest ih =>
    have hgn : g ∉ rest := (List.nodup_cons.mp hnd).1
    obtain ⟨f1, f2, f3, f4⟩ := fillGroup_full K G P D clouds0 hP hPexact g
      (hsub g (List.mem_cons_self _ _)) P (fun p hp => hp) hP st hinv htr
    obtain ⟨h1, h2, h3, h4⟩ := ih (fun g1 hg1 => hsub g1 (List.mem_cons_of_mem _ hg1))
      (List.nodup_cons.mp hnd).2 _ f1 f2
    rw [List.foldl_cons]
    refine ⟨h1, h2, ?_, ?_⟩
    · intro g1 p1 hp1
      rw [h3 g1 p1 hp1, f3 g1 p1 hp1, add_assoc]
      congr 1
      by_cases hgg : g = g1
      · subst hgg
        simp [hgn, hp1]
      · have hgg1 : ¬(g1 = g) := fun h => hgg h.symm
        have hsame : tilesOf (fillGroup K g P st).clouds g1 p1 = tilesOf st.clouds g1 p1 := by
          rw [f3 g1 p1 hp1, if_neg (fun h => hgg h.1), add_zero]
        simp [hgg, hgg1, hsame]
    · intro g1
      rw [h4 g1, f4 g1, List.append_assoc]
      congr 1
      by_cases hgg : g = g1
      · subst hgg
        simp [hgn]
      · have hgg1 : ¬(g1 = g) := fun h => hgg h.symm
        rw [if_neg hgg, List.nil_append]
        simp only [List.mem_cons, hgg1, false_or]
        split_ifs with hmem
        · apply List.filter_congr
          intro q hq
          rw [f3 g1 q hq, if_neg (fun h => hgg h.1), add_zero]
        · rfl

theorem mem_groupTypes (cloudTypes : List Compound) (g : CompoundId) :
    g ∈ groupTypes cloudTypes ↔
      ∃ c ∈ groupStarts cloudTypes.length, ∃ t, cloudTypes[c]? = some t ∧ t.id = g := by
  unfold groupTypes
  simp only [List.mem_filterMap, Option.map_eq_some']

theorem isDisplaced_iff (K : CloudConstants) (P : List Float3)
    (e : ObjectID × CompoundCloudComponent)
    (hexact : ∀ r ∈ P, (positionMatches K e.2.m_position r = true ↔ e.2.m_position = r)) :
    isDisplaced K P e = true ↔ e.2.m_position ∉ P := by
  unfold isDisplaced
  simp only [Bool.not_eq_true', List.any_eq_false]
  constructor
  · intro h hmem
    exact h _ hmem ((hexact _ hmem).mpr rfl)
  · intro h r hr hm
    rw [(hexact r hr).mp hm] at h
    exact h hr

/-- The state after the first loop satisfies the invariant of the second. -/
theorem initial_invariant (K : CloudConstants) (hK : K.Sound) (cloudTypes : List Compound)
    (center target : Float3) (hcenter : OnGrid K center) (htarget : OnGrid K target)
    (clouds : ManagedClouds) (hst : Stable K cloudTypes center clouds) :
    FillInvariant K (groupTypes cloudTypes) (calculateGridPositions K target)
      (clouds.countP (isDisplaced K (calculateGridPositions K target)))
      { clouds := clouds
        tooFarAway := (displacedFrom K (calculateGridPositions K target) 0 clouds).map some
        recycled := []
        fatal := 0 } := by
  have hexact : ∀ e ∈ clouds, ∀ r ∈ calculateGridPositions K target,
      (positionMatches K e.2.m_position r = true ↔ e.2.m_position = r) := by
    intro e he r hr
    exact positionMatches_onGrid K hK _ _
      (calculateGridPositions_onGrid K center hcenter _ (hst.known e he).2)
      (calculateGridPositions_onGrid K target htarget r hr)
  constructor
  · exact fun e he => (hst.known e he).1
  · exact hexact
  · intro g hg p hp
    simp only
    by_cases hpc : p ∈ calculateGridPositions K center
    · exact le_of_eq (hst.one g hg p hpc)
    · apply le_of_eq_of_le _ (Nat.zero_le 1)
      unfold tilesOf
      rw [List.countP_eq_zero]
      intro e he
      simp only [isTileOf, Bool.and_eq_true, decide_eq_true_eq, not_and]
      intro _ hpos
      rw [← hpos] at hpc
      exact hpc (hst.known e he).2
  · intro g hg
    simp only
    rw [group_count clouds g (calculateGridPositions K center)
      (calculateGridPositions_nodup K hK center)]
    rw [sum_map_eq_length _ _ (fun p hp => hst.one g hg p hp)]
    have hz : clouds.countP (fun e => decide (e.2.getCompoundId1 = g) &&
        decide (e.2.m_position ∉ calculateGridPositions K center)) = 0 := by
      rw [List.countP_eq_zero]
      intro e he
      simp only [Bool.and_eq_true, decide_eq_true_eq, not_and, not_not]
      exact fun _ => (hst.known e he).2
    rw [hz]
    rfl
  · intro k
    simp only
    exact countP_eq_le_one _
      ((displacedFrom_nodup K _ 0 clouds).map (Option.some_injective _)) (some k)
  · intro k
    simp only
    rw [List.mem_map_of_injective (Option.some_injective _), mem_displacedFrom]
    simp only [Nat.zero_le, Nat.sub_zero, true_and]
    constructor
    · rintro ⟨e, he, hd⟩
      exact ⟨e, he, (isDisplaced_iff K _ e (hexact e (List.getElem?_mem he))).mp hd⟩
    · rintro ⟨e, he, hd⟩
      exact ⟨e, he, (isDisplaced_iff K _ e (hexact e (List.getElem?_mem he))).mpr hd⟩
  · rfl
  · simp only [List.length_nil, zero_add]
    rw [countNotMoved_map_some, displacedFrom_length]

theorem initial_trace (K : CloudConstants) (P : List Float3) (clouds : ManagedClouds)
    (far : List (Option Nat)) :
    TraceInvariant K P clouds
      { clouds := clouds, tooFarAway := far, recycled := [], fatal := 0 } := by
  constructor
  · intro kp hkp
    simp at hkp
  · intro k _
    rfl
  · rfl

/-- In a Stable state a group has a tile at a position exactly when the
position is required. -/
theorem stable_tilesOf (K : CloudConstants) (cloudTypes : List Compound) (center : Float3)
    (clouds : ManagedClouds) (hst : Stable K cloudTypes center clouds) (g : CompoundId)
    (hg : g ∈ groupTypes cloudTypes) (p : Float3) :
    tilesOf clouds g p = if p ∈ calculateGridPositions K center then 1 else 0 := by
  split_ifs with hp
  · exact hst.one g hg p hp
  · unfold tilesOf
    rw [List.countP_eq_zero]
    intro e he
    simp only [isTileOf, Bool.and_eq_true, decide_eq_true_eq, not_and]
    intro _ hpos
    rw [← hpos] at hp
    exact hp (hst.known e he).2

/-! ### The spawn cycle on a Stable window -/

theorem stable_nine (K : CloudConstants) (hK : K.Sound) (cloudTypes : List Compound)
    (center : Float3) (clouds : ManagedClouds) (hst : Stable K cloudTypes center clouds)
    (g : CompoundId) (hg : g ∈ groupTypes cloudTypes) :
    clouds.countP (fun e => decide (e.2.getCompoundId1 = g)) = 9 := by
  rw [group_count clouds g (calculateGridPositions K center)
    (calculateGridPositions_nodup K hK center)]
  rw [sum_map_eq_length _ _ (fun p hp => hst.one g hg p hp)]
  have hz : clouds.countP (fun e => decide (e.2.getCompoundId1 = g) &&
      decide (e.2.m_position ∉ calculateGridPositions K center)) = 0 := by
    rw [List.countP_eq_zero]
    intro e he
    simp only [Bool.and_eq_true, decide_eq_true_eq, not_and, not_not]
    exact fun _ => (hst.known e he).2
  rw [hz]
  rfl

theorem length_filterMap_of_isSome {α β : Type} (f : α → Option β) (l : List α)
    (h : ∀ a ∈ l, (f a).isSome = true) : (l.filterMap f).length = l.length := by
  induction l with
  | nil => rfl
  | cons a rest ih =>
    have ha := h a (List.mem_cons_self _ _)
    obtain ⟨b, hb⟩ := Option.isSome_iff_exists.mp ha
    rw [List.filterMap_cons, hb]
    simp only [List.length_cons]
    rw [ih (fun c hc => h c (List.mem_cons_of_mem _ hc))]

theorem groupTypes_length (cloudTypes : List Compound) :
    (groupTypes cloudTypes).length = (cloudTypes.length + 3) / 4 := by
  unfold groupTypes
  rw [length_filterMap_of_isSome, groupStarts_length]
  intro c hc
  have hlt := groupStarts_lt _ c hc
  rw [List.getElem?_eq_getElem hlt]
  rfl

/-- In a Stable state with distinct group types the number of tiles is the
one the assertion of `doSpawnCycle` expects. -/
theorem stable_length (K : CloudConstants) (hK : K.Sound) (cloudTypes : List Compound)
    (center : Float3) (clouds : ManagedClouds) (hst : Stable K cloudTypes center clouds)
    (hnodup : (groupTypes cloudTypes).Nodup) :
    clouds.length = expectedCloudCount cloudTypes.length := by
  have hlen : clouds.length = clouds.countP (fun _ => true) := by
    rw [List.countP_eq_length_filter, List.filter_true]
  have hkey := countP_by_key (fun e : ObjectID × CompoundCloudComponent => e.2.getCompoundId1)
    (fun _ => true) (groupTypes cloudTypes) hnodup clouds
  simp only [Bool.true_and] at hkey
  have hsum : ((groupTypes cloudTypes).map (fun g =>
      clouds.countP (fun e => decide (e.2.getCompoundId1 = g)))).sum =
      (groupTypes cloudTypes).length * 9 := by
    have hmap : (groupTypes cloudTypes).map (fun g =>
        clouds.countP (fun e => decide (e.2.getCompoundId1 = g))) =
        (groupTypes cloudTypes).map (fun _ => 9) := by
      apply List.map_congr_left
      intro g hg
      exact stable_nine K hK cloudTypes center clouds hst g hg
    rw [hmap]
    simp
  have hz : clouds.countP (fun e => decide (e.2.getCompoundId1 ∉ groupTypes cloudTypes)) = 0 := by
    rw [List.countP_eq_zero]
    intro e he
    simp only [decide_eq_true_eq, not_not]
    exact (hst.known e he).1
  rw [hlen, hkey, hsum, hz, groupTypes_length, expectedCloudCount_eq]
  rfl

/-- The repositioning of a Stable window whose centre moved. -/
theorem applyNewCloudPositioning_stable (K : CloudConstants) (hK : K.Sound)
    (cloudTypes : List Compound) (center target : Float3) (hcenter : OnGrid K center)
    (htarget : OnGrid K target) (clouds : ManagedClouds)
    (hst : Stable K cloudTypes center clouds) (hnodup : (groupTypes cloudTypes).Nodup) :
    Stable K cloudTypes target
        (applyNewCloudPositioning K ⟨cloudTypes, target, clouds⟩).clouds ∧
      (applyNewCloudPositioning K ⟨cloudTypes, target, clouds⟩).fatal = 0 ∧
      (applyNewCloudPositioning K ⟨cloudTypes, target, clouds⟩).recycled.length =
        clouds.countP (isDisplaced K (calculateGridPositions K target)) ∧
      TraceInvariant K (calculateGridPositions K target) clouds
        (applyNewCloudPositioning K ⟨cloudTypes, target, clouds⟩) ∧
      ∀ g ∈ groupTypes cloudTypes,
        recycledTargets (applyNewCloudPositioning K ⟨cloudTypes, target, clouds⟩).clouds
          (applyNewCloudPositioning K ⟨cloudTypes, target, clouds⟩).recycled g =
        (calculateGridPositions K target).filter
          (fun p => decide (p ∉ calculateGridPositions K center)) := by
  have hP := calculateGridPositions_nodup K hK target
  have hPexact : ∀ p ∈ calculateGridPositions K target, ∀ r ∈ calculateGridPositions K target,
      (positionMatches K p r = true ↔ p = r) := fun p hp r hr =>
    positionMatches_onGrid K hK p r (calculateGridPositions_onGrid K target htarget p hp)
      (calculateGridPositions_onGrid K target htarget r hr)
  have hinv0 := initial_invariant K hK cloudTypes center target hcenter htarget clouds hst
  have htr0 := initial_trace K (calculateGridPositions K target) clouds
    ((displacedFrom K (calculateGridPositions K target) 0 clouds).map some)
  obtain ⟨h1, h2, h3, h4⟩ := fillAll_full K (groupTypes cloudTypes)
    (calculateGridPositions K target) _ clouds hP hPexact (groupTypes cloudTypes)
    (fun g hg => hg) hnodup _ hinv0 htr0
  have hcollect := collectFarAway_eq K (calculateGridPositions K target) clouds.length 0
    clouds [] (Nat.le_refl _) (by omega)
  have hfinal : fillGroups K cloudTypes (calculateGridPositions K target)
      (groupStarts cloudTypes.length)
      { clouds := clouds
        tooFarAway := (collectFarAway K (calculateGridPositions K target) clouds.length 0
          clouds []).1
        recycled := []
        fatal := (collectFarAway K (calculateGridPositions K target) clouds.length 0
          clouds []).2 } =
      (groupTypes cloudTypes).foldl
        (fun st1 g => fillGroup K g (calculateGridPositions K target) st1)
        { clouds := clouds
          tooFarAway := (displacedFrom K (calculateGridPositions K target) 0 clouds).map some
          recycled := []
          fatal := 0 } := by
    rw [fillGroups_eq_foldl, hcollect]
    rfl
  generalize hres : (groupTypes cloudTypes).foldl
      (fun st1 g => fillGroup K g (calculateGridPositions K target) st1)
      { clouds := clouds
        tooFarAway := (displacedFrom K (calculateGridPositions K target) 0 clouds).map some
        recycled := []
        fatal := 0 } = res at h1 h2 h3 h4 hfinal
  -- every group has one tile at every required position
  have hone : ∀ g ∈ groupTypes cloudTypes, ∀ p ∈ calculateGridPositions K target,
      tilesOf res.clouds g p = 1 := by
    intro g hg p hp
    rw [h3 g p hp]
    simp only
    have hle := hinv0.atMostOne g hg p hp
    simp only at hle
    by_cases hz : tilesOf clouds g p = 0
    · simp [hz, hg]
    · simp [hz]
      omega
  -- no tile is left at a position that is not required
  have hall : ∀ e ∈ res.clouds, e.2.m_position ∈ calculateGridPositions K target := by
    intro e he
    by_contra hpos
    have hg := h1.known e he
    have hcount := group_count res.clouds e.2.getCompoundId1 (calculateGridPositions K target) hP
    rw [h1.nine _ hg, sum_map_eq_length _ _ (fun p hp => hone _ hg p hp)] at hcount
    have hpos1 : 0 < List.countP (fun e1 : ObjectID × CompoundCloudComponent =>
        decide (e1.2.getCompoundId1 = e.2.getCompoundId1) &&
          decide (e1.2.m_position ∉ calculateGridPositions K target)) res.clouds := by
      rw [List.countP_pos_iff]
      exact ⟨e, he, by simp [hpos]⟩
    omega
  -- so nothing is left in the list of far away tiles
  have hnone : countNotMoved res.tooFarAway = 0 := by
    unfold countNotMoved
    rw [List.length_eq_zero, List.filter_eq_nil_iff]
    intro entry hentry
    cases entry with
    | none => simp
    | some k =>
      exfalso
      obtain ⟨e, he, hpos⟩ := (h1.farIff k).mp hentry
      exact hpos (hall e (List.getElem?_mem he))
  unfold applyNewCloudPositioning
  simp only
  rw [hfinal]
  refine ⟨⟨fun e he => ⟨h1.known e he, hall e he⟩, hone⟩, ?_, ?_,
    ⟨h2.done, h2.untouched, h2.sameLength⟩, ?_⟩
  · rw [h1.noFatal, hnone]
  · have hbal := h1.balance
    rw [hnone] at hbal
    exact hbal
  · intro g hg
    rw [h4 g]
    simp only [recycledTargets, List.filter_nil, List.map_nil, List.nil_append, if_pos hg]
    apply List.filter_congr
    intro p _
    rw [stable_tilesOf K cloudTypes center clouds hst g hg p]
    by_cases hp : p ∈ calculateGridPositions K center
    · simp [hp]
    · simp [hp]

theorem all_not_displaced (K : CloudConstants) (P : List Float3) (clouds : ManagedClouds)
    (h : ∀ e ∈ clouds, isDisplaced K P e = false) : clouds.countP (isDisplaced K P) = 0 := by
  rw [List.countP_eq_zero]
  intro e he
  rw [h e he]
  simp

/-- The spawn cycle on a Stable window: what it returns, the state it leaves
and the record of the recycling calls. -/
theorem spawnCycle_of_stable (K : CloudConstants) (hK : K.Sound) (world : CellStageWorld)
    (s : CompoundCloudSystem) (playerPos : Float3)
    (hcenter : ∃ q, s.m_cloudGridCenter = calculateGridCenterForPlayerPos K q)
    (hdistinct : (groupTypes s.m_cloudTypes).Nodup)
    (hstable : Stable K s.m_cloudTypes s.m_cloudGridCenter s.m_managedClouds) :
    ∃ r, doSpawnCycle K world s playerPos = .ok r ∧
      r.system.m_cloudTypes = s.m_cloudTypes ∧
      r.system.m_cloudGridCenter = calculateGridCenterForPlayerPos K playerPos ∧
      Stable K s.m_cloudTypes (calculateGridCenterForPlayerPos K playerPos)
        r.system.m_managedClouds ∧
      r.recycled.length = s.m_managedClouds.countP
        (isDisplaced K (calculateGridPositions K (calculateGridCenterForPlayerPos K playerPos))) ∧
      r.fatal = 0 ∧
      TraceInvariant K (calculateGridPositions K (calculateGridCenterForPlayerPos K playerPos))
        s.m_managedClouds
        { clouds := r.system.m_managedClouds, tooFarAway := [], recycled := r.recycled,
          fatal := r.fatal } ∧
      ∀ g ∈ groupTypes s.m_cloudTypes,
        recycledTargets r.system.m_managedClouds r.recycled g =
          (calculateGridPositions K (calculateGridCenterForPlayerPos K playerPos)).filter
            (fun p => decide (p ∉ calculateGridPositions K s.m_cloudGridCenter)) := by
  obtain ⟨q, hq⟩ := hcenter
  have hgrid : OnGrid K s.m_cloudGridCenter := by
    rw [hq]
    exact calculateGridCenterForPlayerPos_onGrid K q
  have htarget := calculateGridCenterForPlayerPos_onGrid K playerPos
  have hlen := stable_length K hK _ _ _ hstable hdistinct
  -- the state after the (possibly empty) initial spawn: the same tiles, Stable
  have hspawn : ∃ w c, OnGrid K c ∧ Stable K s.m_cloudTypes c s.m_managedClouds ∧
      (c = s.m_cloudGridCenter ∨ groupTypes s.m_cloudTypes = []) ∧
      initialSpawn K world s = .ok (w, { s with m_cloudGridCenter := c }) := by
    by_cases hempty : s.m_managedClouds.isEmpty = true
    · have hnil : s.m_managedClouds = [] := List.isEmpty_iff.mp hempty
      have hG : groupTypes s.m_cloudTypes = [] := by
        by_contra hne
        obtain ⟨g, hg⟩ := List.exists_mem_of_ne_nil _ hne
        have := hstable.one g hg s.m_cloudGridCenter (by simp [calculateGridPositions])
        rw [hnil] at this
        simp [tilesOf] at this
      have hstarts : groupStarts s.m_cloudTypes.length = [] := by
        have h := groupTypes_length s.m_cloudTypes
        rw [hG, List.length_nil] at h
        apply List.eq_nil_of_length_eq_zero
        rw [groupStarts_length]
        exact h.symm
      refine ⟨world, ⟨0, 0, 0⟩, ⟨0, 0, by simp⟩, ?_, Or.inr hG, ?_⟩
      · constructor
        · intro e he
          rw [hnil] at he
          simp at he
        · intro g hg
          rw [hG] at hg
          simp at hg
      · unfold initialSpawn
        rw [if_pos hempty, hstarts]
        simp only [spawnAll]
    · refine ⟨world, s.m_cloudGridCenter, hgrid, hstable, Or.inl rfl, ?_⟩
      unfold initialSpawn
      rw [if_neg hempty]
  obtain ⟨w, c, hc, hst, hcs, hsp⟩ := hspawn
  have hfilter : ∀ g ∈ groupTypes s.m_cloudTypes, c = s.m_cloudGridCenter := by
    intro g hg
    rcases hcs with h | h
    · exact h
    · rw [h] at hg
      simp at hg
  unfold doSpawnCycle
  rw [hsp]
  simp only
  unfold updateWindow
  simp only
  rw [if_neg (by simp only [ne_eq, not_not]; exact hlen)]
  by_cases hmove : c ≠ calculateGridCenterForPlayerPos K playerPos
  · rw [if_pos hmove]
    obtain ⟨a1, a2, a3, a4, a5⟩ := applyNewCloudPositioning_stable K hK s.m_cloudTypes c
      (calculateGridCenterForPlayerPos K playerPos) hc htarget s.m_managedClouds hst hdistinct
    refine ⟨_, rfl, rfl, rfl, a1, a3, a2, ⟨a4.done, a4.untouched, a4.sameLength⟩, ?_⟩
    intro g hg
    rw [← hfilter g hg]
    exact a5 g hg
  · rw [if_neg hmove]
    have heq : c = calculateGridCenterForPlayerPos K playerPos := not_not.mp hmove
    refine ⟨_, rfl, rfl, heq, ?_, ?_, rfl, ?_, ?_⟩
    · rw [← heq]
      exact hst
    · rw [← heq]
      simp only [List.length_nil]
      symm
      apply all_not_displaced
      intro e he
      have hexact : ∀ r ∈ calculateGridPositions K c,
          (positionMatches K e.2.m_position r = true ↔ e.2.m_position = r) := fun r hr =>
        positionMatches_onGrid K hK _ _
          (calculateGridPositions_onGrid K c hc _ (hst.known e he).2)
          (calculateGridPositions_onGrid K c hc r hr)
      have := isDisplaced_iff K (calculateGridPositions K c) e hexact
      cases hd : isDisplaced K (calculateGridPositions K c) e with
      | false => rfl
      | true => exact absurd (hst.known e he).2 (this.mp hd)
    · exact initial_trace K _ s.m_managedClouds []
    · intro g hg
      rw [← heq, ← hfilter g hg]
      simp only [recycledTargets, List.filter_nil, List.map_nil]
      symm
      rw [List.filter_eq_nil_iff]
      intro p hp
      simp [hp]

/-- C1: from every Stable state of the window (whose centre is one the code
computes, with distinct group types), for every observer position, the spawn
cycle ends in the Stable state for the target centre: every group has exactly
one tile at every required position of the target centre and there is no
other tile; the number of `recycleToPosition` calls is the number of displaced
tiles, and no `LOG_FATAL` branch (far-away list overflow, unfilled position,
tile not moved) is reached. -/
theorem window_update_stable (K : CloudConstants) (hK : K.Sound) (world : CellStageWorld)
    (s : CompoundCloudSystem) (playerPos : Float3)
    (hcenter : ∃ q, s.m_cloudGridCenter = calculateGridCenterForPlayerPos K q)
    (hdistinct : (groupTypes s.m_cloudTypes).Nodup)
    (hstable : Stable K s.m_cloudTypes s.m_cloudGridCenter s.m_managedClouds) :
    ∃ r, doSpawnCycle K world s playerPos = .ok r ∧
      r.system.m_cloudTypes = s.m_cloudTypes ∧
      r.system.m_cloudGridCenter = calculateGridCenterForPlayerPos K playerPos ∧
      Stable K s.m_cloudTypes (calculateGridCenterForPlayerPos K playerPos)
        r.system.m_managedClouds ∧
      r.recycled.length = s.m_managedClouds.countP
        (isDisplaced K (calculateGridPositions K (calculateGridCenterForPlayerPos K playerPos))) ∧
      r.fatal = 0 := by
  obtain ⟨r, h1, h2, h3, h4, h5, h6, _⟩ :=
    spawnCycle_of_stable K hK world s playerPos hcenter hdistinct hstable
  exact ⟨r, h1, h2, h3, h4, h5, h6⟩

theorem toyConstants_sound : toyConstants.Sound := by
  constructor <;> norm_num [toyConstants]

theorem toy_groupTypes : groupTypes [⟨1⟩, ⟨2⟩] = [1] := by
  decide

theorem toy_positions :
    calculateGridPositions toyConstants ⟨0, 0, 0⟩ =
      [⟨0, 0, 0⟩, ⟨-8, 0, -8⟩, ⟨0, 0, -8⟩, ⟨8, 0, -8⟩, ⟨-8, 0, 0⟩, ⟨8, 0, 0⟩, ⟨-8, 0, 8⟩,
        ⟨0, 0, 8⟩, ⟨8, 0, 8⟩] := by
  simp [calculateGridPositions, toyConstants, Float3.add]

theorem toyWindow_stable :
    Stable toyConstants toyWindow.m_cloudTypes toyWindow.m_cloudGridCenter
      toyWindow.m_managedClouds := by
  have hG : groupTypes toyWindow.m_cloudTypes = [1] := toy_groupTypes
  have hP : calculateGridPositions toyConstants toyWindow.m_cloudGridCenter = _ := toy_positions
  constructor
  · intro e he
    rw [hG, hP]
    simp only [toyWindow, List.mem_cons, List.mem_singleton, List.not_mem_nil, or_false] at he
    rcases he with rfl | rfl | rfl | rfl | rfl | rfl | rfl | rfl | rfl <;>
      simp [toyTileAt, toyTile, CompoundCloudComponent.getCompoundId1]
  · intro g hg p hp
    rw [hG] at hg
    rw [hP] at hp
    simp only [List.mem_singleton] at hg
    subst hg
    simp only [List.mem_cons, List.mem_singleton, List.not_mem_nil, or_false] at hp
    rcases hp with rfl | rfl | rfl | rfl | rfl | rfl | rfl | rfl | rfl <;>
      norm_num [tilesOf, isTileOf, toyWindow, toyTileAt, toyTile, List.countP_cons,
        CompoundCloudComponent.getCompoundId1]

/-- Witness of C1: the toy window, the observer one tile to the right. -/
theorem window_update_stable_witness :
    ∃ r, doSpawnCycle toyConstants toyWorld toyWindow ⟨8, 0, 0⟩ = .ok r ∧
      r.system.m_cloudTypes = toyWindow.m_cloudTypes ∧
      r.system.m_cloudGridCenter = calculateGridCenterForPlayerPos toyConstants ⟨8, 0, 0⟩ ∧
      Stable toyConstants toyWindow.m_cloudTypes
        (calculateGridCenterForPlayerPos toyConstants ⟨8, 0, 0⟩) r.system.m_managedClouds ∧
      r.recycled.length = toyWindow.m_managedClouds.countP
        (isDisplaced toyConstants (calculateGridPositions toyConstants
          (calculateGridCenterForPlayerPos toyConstants ⟨8, 0, 0⟩))) ∧
      r.fatal = 0 :=
  window_update_stable toyConstants toyConstants_sound toyWorld toyWindow ⟨8, 0, 0⟩
    ⟨⟨0, 0, 0⟩, (calculateGridCenterForPlayerPos_origin toyConstants).symm⟩
    (by rw [show toyWindow.m_cloudTypes = [⟨1⟩, ⟨2⟩] from rfl, toy_groupTypes]; simp)
    toyWindow_stable

/-! ### Rounding and single steps of the window -/

theorem cppRound_add_one (x : ℚ) (hx : x ≠ -1 / 2) : cppRound (x + 1) = cppRound x + 1 := by
  unfold cppRound
  by_cases h0 : 0 ≤ x
  · have h1 : 0 ≤ x + 1 := by linarith
    rw [if_pos h0, if_pos h1]
    have : x + 1 + 1 / 2 = x + 1 / 2 + 1 := by ring
    rw [this, Int.floor_add_one]
  · rw [if_neg h0]
    have hneg : x < 0 := not_le.mp h0
    by_cases h1 : 0 ≤ x + 1
    · rw [if_pos h1]
      rcases lt_or_gt_of_ne hx with hlt | hgt
      · have e1 : ⌊x + 1 + 1 / 2⌋ = 0 := by
          rw [Int.floor_eq_iff]
          constructor <;> push_cast <;> linarith
        have e2 : ⌊-x + 1 / 2⌋ = 1 := by
          rw [Int.floor_eq_iff]
          constructor <;> push_cast <;> linarith
        rw [e1, e2]
        rfl
      · have e1 : ⌊x + 1 + 1 / 2⌋ = 1 := by
          rw [Int.floor_eq_iff]
          constructor <;> push_cast <;> linarith
        have e2 : ⌊-x + 1 / 2⌋ = 0 := by
          rw [Int.floor_eq_iff]
          constructor <;> push_cast <;> linarith
        rw [e1, e2]
        rfl
    · rw [if_neg h1]
      have : -(x + 1) + 1 / 2 = -x + 1 / 2 - 1 := by ring
      rw [this, Int.floor_sub_one]
      ring

theorem cppRound_sub_one (x : ℚ) (hx : x ≠ 1 / 2) : cppRound (x - 1) = cppRound x - 1 := by
  have h := cppRound_add_one (x - 1) (by
    intro h
    apply hx
    linarith)
  rw [sub_add_cancel] at h
  omega

theorem calculateGridCenterForPlayerPos_step (K : CloudConstants) (hK : K.Sound)
    (q d : Float3) (hd : OneTileStep K q d) :
    calculateGridCenterForPlayerPos K (q.add d) = (calculateGridCenterForPlayerPos K q).add d := by
  have hx : K.CLOUD_X_EXTENT ≠ 0 := ne_of_gt (lt_of_lt_of_le hK.epsilon_pos hK.epsilon_le_x)
  have hy : K.CLOUD_Y_EXTENT ≠ 0 := ne_of_gt (lt_of_lt_of_le hK.epsilon_pos hK.epsilon_le_y)
  unfold calculateGridCenterForPlayerPos Float3.add
  rcases hd with ⟨rfl, h⟩ | ⟨rfl, h⟩ | ⟨rfl, h⟩ | ⟨rfl, h⟩
  · have e : (q.X + K.CLOUD_X_EXTENT) / K.CLOUD_X_EXTENT = q.X / K.CLOUD_X_EXTENT + 1 := by
      field_simp
    simp only [e, cppRound_add_one _ h, add_zero, Float3.mk.injEq, and_true, true_and]
    push_cast
    ring
  · have e : (q.X + -K.CLOUD_X_EXTENT) / K.CLOUD_X_EXTENT = q.X / K.CLOUD_X_EXTENT - 1 := by
      field_simp
      ring
    simp only [e, cppRound_sub_one _ h, add_zero, Float3.mk.injEq, and_true, true_and]
    push_cast
    ring
  · have e : (q.Z + K.CLOUD_Y_EXTENT) / K.CLOUD_Y_EXTENT = q.Z / K.CLOUD_Y_EXTENT + 1 := by
      field_simp
    simp only [e, cppRound_add_one _ h, add_zero, Float3.mk.injEq, and_true, true_and]
    push_cast
    ring
  · have e : (q.Z + -K.CLOUD_Y_EXTENT) / K.CLOUD_Y_EXTENT = q.Z / K.CLOUD_Y_EXTENT - 1 := by
      field_simp
      ring
    simp only [e, cppRound_sub_one _ h, add_zero, Float3.mk.injEq, and_true, true_and]
    push_cast
    ring

theorem offsetPosition_injective (K : CloudConstants) (hK : K.Sound) (center : Float3) :
    Function.Injective (offsetPosition K center) := by
  have hx : K.CLOUD_X_EXTENT ≠ 0 := ne_of_gt (lt_of_lt_of_le hK.epsilon_pos hK.epsilon_le_x)
  have hy : K.CLOUD_Y_EXTENT ≠ 0 := ne_of_gt (lt_of_lt_of_le hK.epsilon_pos hK.epsilon_le_y)
  intro a b hab
  simp only [offsetPosition, Float3.mk.injEq, add_right_inj, mul_eq_mul_right_iff, hx, hy,
    or_false, Int.cast_inj, true_and] at hab
  exact Prod.ext hab.1 hab.2

/-- The positions that become required when the centre moves by `delta` tile
steps. -/
theorem newlyRequired_shift (K : CloudConstants) (hK : K.Sound) (center : Float3)
    (delta : ℤ × ℤ) :
    newlyRequired K center (offsetPosition K center delta) =
      ((gridOffsets.map (fun o => (o.1 + delta.1, o.2 + delta.2))).filter
        (fun o => decide (o ∉ gridOffsets))).map (offsetPosition K center) := by
  have hshift : calculateGridPositions K (offsetPosition K center delta) =
      (gridOffsets.map (fun o => (o.1 + delta.1, o.2 + delta.2))).map
        (offsetPosition K center) := by
    rw [calculateGridPositions_eq, List.map_map]
    apply List.map_congr_left
    intro o _
    simp only [offsetPosition, Function.comp, Float3.mk.injEq, true_and]
    constructor <;> push_cast <;> ring
  unfold newlyRequired
  rw [hshift, calculateGridPositions_eq, List.filter_map]
  congr 1
  apply List.filter_congr
  intro o _
  simp only [Function.comp, List.mem_map_of_injective (offsetPosition_injective K hK center)]

theorem newlyRequired_step (K : CloudConstants) (hK : K.Sound) (q d : Float3) (center : Float3)
    (hd : OneTileStep K q d) : (newlyRequired K center (center.add d)).length = 3 := by
  have h1 : center.add ⟨K.CLOUD_X_EXTENT, 0, 0⟩ = offsetPosition K center (1, 0) := by
    simp [Float3.add, offsetPosition]
  have h2 : center.add ⟨-K.CLOUD_X_EXTENT, 0, 0⟩ = offsetPosition K center (-1, 0) := by
    simp [Float3.add, offsetPosition]
  have h3 : center.add ⟨0, 0, K.CLOUD_Y_EXTENT⟩ = offsetPosition K center (0, 1) := by
    simp [Float3.add, offsetPosition]
  have h4 : center.add ⟨0, 0, -K.CLOUD_Y_EXTENT⟩ = offsetPosition K center (0, -1) := by
    simp [Float3.add, offsetPosition]
  rcases hd with ⟨rfl, _⟩ | ⟨rfl, _⟩ | ⟨rfl, _⟩ | ⟨rfl, _⟩
  · rw [h1, newlyRequired_shift K hK, List.length_map]
    decide
  · rw [h2, newlyRequired_shift K hK, List.length_map]
    decide
  · rw [h3, newlyRequired_shift K hK, List.length_map]
    decide
  · rw [h4, newlyRequired_shift K hK, List.length_map]
    decide

/-- C2 (as amended): from a Stable state, when the observer moves by exactly
one tile extent along one axis (and not across the half-way point, see
`OneTileStep`), the spawn cycle moves the grid centre by that extent on that
axis only; for every group exactly three tiles are recycled, one to each of the
three newly required positions; every recycled tile is the old tile after
`recycleToPosition` (its densities are discarded: all cells of its bound slots
are zero); the number of tiles is unchanged. -/
theorem window_shift_one_tile (K : CloudConstants) (hK : K.Sound) (world : CellStageWorld)
    (s : CompoundCloudSystem) (q d : Float3)
    (hq : s.m_cloudGridCenter = calculateGridCenterForPlayerPos K q)
    (hdistinct : (groupTypes s.m_cloudTypes).Nodup)
    (hstable : Stable K s.m_cloudTypes s.m_cloudGridCenter s.m_managedClouds)
    (hd : OneTileStep K q d) :
    ∃ r, doSpawnCycle K world s (q.add d) = .ok r ∧
      r.system.m_cloudGridCenter = s.m_cloudGridCenter.add d ∧
      r.system.m_managedClouds.length = s.m_managedClouds.length ∧
      (∀ g ∈ groupTypes s.m_cloudTypes,
        recycledTargets r.system.m_managedClouds r.recycled g =
            newlyRequired K s.m_cloudGridCenter (s.m_cloudGridCenter.add d) ∧
          (recycledTargets r.system.m_managedClouds r.recycled g).length = 3) ∧
      ∀ kp ∈ r.recycled, ∃ e0, s.m_managedClouds[kp.1]? = some e0 ∧
        r.system.m_managedClouds[kp.1]? = some (e0.1, e0.2.recycleToPosition K kp.2) ∧
        (e0.2.recycleToPosition K kp.2).Cleared K := by
  obtain ⟨r, h1, _, h3, _, _, _, h7, h8⟩ :=
    spawnCycle_of_stable K hK world s (q.add d) ⟨q, hq⟩ hdistinct hstable
  have hstep := calculateGridCenterForPlayerPos_step K hK q d hd
  rw [hstep, ← hq] at h3 h8
  refine ⟨r, h1, h3, h7.sameLength, ?_, ?_⟩
  · intro g hg
    have h := h8 g hg
    have hlen := newlyRequired_step K hK q d s.m_cloudGridCenter hd
    unfold newlyRequired at hlen ⊢
    rw [h]
    exact ⟨rfl, hlen⟩
  · intro kp hkp
    obtain ⟨_, e0, a1, _, a3⟩ := h7.done kp hkp
    exact ⟨e0, a1, a3, recycleToPosition_cleared K e0.2 kp.2⟩

theorem toy_oneTileStep : OneTileStep toyConstants ⟨0, 0, 0⟩ ⟨8, 0, 0⟩ := by
  left
  constructor
  · rfl
  · norm_num [toyConstants]

/-- Witness of C2: the toy window, the observer moves from the origin one
tile to the right. -/
theorem window_shift_one_tile_witness :
    ∃ r, doSpawnCycle toyConstants toyWorld toyWindow
        ((⟨0, 0, 0⟩ : Float3).add ⟨8, 0, 0⟩) = .ok r ∧
      r.system.m_cloudGridCenter = toyWindow.m_cloudGridCenter.add ⟨8, 0, 0⟩ ∧
      r.system.m_managedClouds.length = toyWindow.m_managedClouds.length ∧
      (∀ g ∈ groupTypes toyWindow.m_cloudTypes,
        recycledTargets r.system.m_managedClouds r.recycled g =
            newlyRequired toyConstants toyWindow.m_cloudGridCenter
              (toyWindow.m_cloudGridCenter.add ⟨8, 0, 0⟩) ∧
          (recycledTargets r.system.m_managedClouds r.recycled g).length = 3) ∧
      ∀ kp ∈ r.recycled, ∃ e0, toyWindow.m_managedClouds[kp.1]? = some e0 ∧
        r.system.m_managedClouds[kp.1]? =
          some (e0.1, e0.2.recycleToPosition toyConstants kp.2) ∧
        (e0.2.recycleToPosition toyConstants kp.2).Cleared toyConstants :=
  window_shift_one_tile toyConstants toyConstants_sound toyWorld toyWindow ⟨0, 0, 0⟩ ⟨8, 0, 0⟩
    (calculateGridCenterForPlayerPos_origin toyConstants).symm
    (by rw [show toyWindow.m_cloudTypes = [⟨1⟩, ⟨2⟩] from rfl, toy_groupTypes]; simp)
    toyWindow_stable toy_oneTileStep

/-- Counterexample to C2 as stated. In the toy window (one group) the observer
moves from the origin one tile extent to the right: three tiles of the group
are recycled, not one. And an observer who moves one tile extent from
`X = -4` (half-way, rounded to the centre `-8`) to `X = 4` (rounded to `8`)
moves the centre by two tile extents. -/
theorem window_shift_recycles_three :
    (∃ r, doSpawnCycle toyConstants toyWorld toyWindow ⟨8, 0, 0⟩ = .ok r ∧
      (recycledTargets r.system.m_managedClouds r.recycled 1).length = 3) ∧
    calculateGridCenterForPlayerPos toyConstants ⟨-4, 0, 0⟩ = ⟨-8, 0, 0⟩ ∧
    calculateGridCenterForPlayerPos toyConstants ((⟨-4, 0, 0⟩ : Float3).add ⟨8, 0, 0⟩) =
      ⟨8, 0, 0⟩ := by
  refine ⟨?_, ?_, ?_⟩
  · obtain ⟨r, h1, _, _, _, _, _, _, h8⟩ :=
      spawnCycle_of_stable toyConstants toyConstants_sound toyWorld toyWindow ⟨8, 0, 0⟩
        ⟨⟨0, 0, 0⟩, (calculateGridCenterForPlayerPos_origin toyConstants).symm⟩
        (by rw [show toyWindow.m_cloudTypes = [⟨1⟩, ⟨2⟩] from rfl, toy_groupTypes]; simp)
        toyWindow_stable
    refine ⟨r, h1, ?_⟩
    have hg : (1 : CompoundId) ∈ groupTypes toyWindow.m_cloudTypes := by
      rw [show toyWindow.m_cloudTypes = [⟨1⟩, ⟨2⟩] from rfl, toy_groupTypes]
      simp
    rw [h8 1 hg]
    have hstep := calculateGridCenterForPlayerPos_step toyConstants toyConstants_sound
      ⟨0, 0, 0⟩ ⟨8, 0, 0⟩ toy_oneTileStep
    have hadd : (⟨0, 0, 0⟩ : Float3).add ⟨8, 0, 0⟩ = ⟨8, 0, 0⟩ := by
      simp [Float3.add]
    rw [hadd, calculateGridCenterForPlayerPos_origin] at hstep
    rw [hstep]
    have hlen := newlyRequired_step toyConstants toyConstants_sound ⟨0, 0, 0⟩ ⟨8, 0, 0⟩
      toyWindow.m_cloudGridCenter toy_oneTileStep
    unfold newlyRequired at hlen
    exact hlen
  · norm_num [calculateGridCenterForPlayerPos, toyConstants, cppRound]
  · norm_num [calculateGridCenterForPlayerPos, toyConstants, cppRound, Float3.add]

/-! ### Withdrawing everything -/

/-- C19: `recycleToPosition` puts the tile at the new position, leaves 0 in
every cell of the current and of the previous grid of every bound slot, and
keeps the ids of all four slots, so the tile stays in its group. -/
theorem recycleToPosition_spec (K : CloudConstants) (t : CompoundCloudComponent)
    (newPosition : Float3) :
    (t.recycleToPosition K newPosition).m_position = newPosition ∧
    (∀ slot, (t.recycleToPosition K newPosition).compoundId slot ≠ K.NULL_COMPOUND →
      ∀ x y, x < K.CLOUD_SIMULATION_WIDTH → y < K.CLOUD_SIMULATION_HEIGHT →
        (t.recycleToPosition K newPosition).density slot x y = 0 ∧
        (t.recycleToPosition K newPosition).oldDens slot x y = 0) ∧
    (∀ slot, (t.recycleToPosition K newPosition).compoundId slot = t.compoundId slot) ∧
    (t.recycleToPosition K newPosition).getCompoundId1 = t.getCompoundId1 := by
  refine ⟨recycleToPosition_position K t newPosition, recycleToPosition_cleared K t newPosition,
    ?_, recycleToPosition_id1 K t newPosition⟩
  intro slot
  obtain ⟨_, h1, h2, h3, h4⟩ :=
    clearContents_ids K { t with m_position := newPosition }
  unfold CompoundCloudComponent.recycleToPosition
  cases slot
  · exact h1
  · exact h2
  · exact h3
  · exact h4

/-! ### The centre of the window -/

theorem cppRound_near (q : ℚ) : |(cppRound q : ℚ) - q| ≤ 1 / 2 := by
  unfold cppRound
  rw [abs_le]
  split_ifs with h
  · have h1 := Int.floor_le (q + 1 / 2)
    have h2 := Int.lt_floor_add_one (q + 1 / 2)
    constructor <;> linarith
  · have h1 := Int.floor_le (-q + 1 / 2)
    have h2 := Int.lt_floor_add_one (-q + 1 / 2)
    push_cast
    constructor <;> linarith

theorem cppRound_intCast (k : ℤ) : cppRound (k : ℚ) = k := by
  unfold cppRound
  split_ifs with h
  · rw [Int.floor_int_add]
    norm_num
  · have : (-(k : ℚ) + 1 / 2) = ((-k : ℤ) : ℚ) + 1 / 2 := by push_cast; ring
    rw [this, Int.floor_int_add]
    norm_num

theorem round_multiple_near (e x : ℚ) (he : 0 < e) :
    |(cppRound (x / e) : ℚ) * e - x| ≤ e / 2 := by
  have h := cppRound_near (x / e)
  have hx : (cppRound (x / e) : ℚ) * e - x = ((cppRound (x / e) : ℚ) - x / e) * e := by
    field_simp
  rw [hx, abs_mul, abs_of_pos he]
  calc |(cppRound (x / e) : ℚ) - x / e| * e ≤ 1 / 2 * e :=
        mul_le_mul_of_nonneg_right h he.le
    _ = e / 2 := by ring

theorem round_multiple_nearest (e x : ℚ) (he : 0 < e) (m : ℤ) :
    |(cppRound (x / e) : ℚ) * e - x| ≤ |(m : ℚ) * e - x| := by
  have h := round_multiple_near e x he
  by_cases hm : m = cppRound (x / e)
  · rw [hm]
  · have hd : (1 : ℚ) ≤ |(m : ℚ) - (cppRound (x / e) : ℚ)| := by
      have : (1 : ℤ) ≤ |m - cppRound (x / e)| := Int.one_le_abs (sub_ne_zero.mpr hm)
      exact_mod_cast this
    have h3 : e ≤ |(m : ℚ) * e - (cppRound (x / e) : ℚ) * e| := by
      rw [← sub_mul, abs_mul, abs_of_pos he]
      calc e = 1 * e := (one_mul e).symm
        _ ≤ _ := mul_le_mul_of_nonneg_right hd he.le
    have h4 : |(m : ℚ) * e - (cppRound (x / e) : ℚ) * e| ≤
        |(m : ℚ) * e - x| + |(cppRound (x / e) : ℚ) * e - x| := by
      have := abs_sub_le ((m : ℚ) * e) x ((cppRound (x / e) : ℚ) * e)
      rw [abs_sub_comm x] at this
      exact this
    linarith

theorem round_multiple_fixed (e : ℚ) (he : 0 < e) (k : ℤ) :
    cppRound ((k : ℚ) * e / e) = k := by
  rw [mul_div_assoc, div_self he.ne.symm, mul_one, cppRound_intCast]

/-- C20: with positive extents, the centre `calculateGridCenterForPlayerPos`
gives is, on each horizontal axis, an integer multiple of the extent; it is
at most half an extent away from the coordinate of the observer and no other
integer multiple is nearer; its `Y` is 0; and the function gives the same
point when applied to its own result. -/
theorem calculateGridCenterForPlayerPos_nearest (K : CloudConstants) (pos : Float3)
    (hx : 0 < K.CLOUD_X_EXTENT) (hy : 0 < K.CLOUD_Y_EXTENT) :
    (∃ i j : ℤ, (calculateGridCenterForPlayerPos K pos).X = (i : ℚ) * K.CLOUD_X_EXTENT ∧
      (calculateGridCenterForPlayerPos K pos).Z = (j : ℚ) * K.CLOUD_Y_EXTENT) ∧
    |(calculateGridCenterForPlayerPos K pos).X - pos.X| ≤ K.CLOUD_X_EXTENT / 2 ∧
    |(calculateGridCenterForPlayerPos K pos).Z - pos.Z| ≤ K.CLOUD_Y_EXTENT / 2 ∧
    (∀ m : ℤ, |(calculateGridCenterForPlayerPos K pos).X - pos.X| ≤
      |(m : ℚ) * K.CLOUD_X_EXTENT - pos.X|) ∧
    (∀ m : ℤ, |(calculateGridCenterForPlayerPos K pos).Z - pos.Z| ≤
      |(m : ℚ) * K.CLOUD_Y_EXTENT - pos.Z|) ∧
    (calculateGridCenterForPlayerPos K pos).Y = 0 ∧
    calculateGridCenterForPlayerPos K (calculateGridCenterForPlayerPos K pos) =
      calculateGridCenterForPlayerPos K pos := by
  refine ⟨⟨_, _, rfl, rfl⟩, round_multiple_near _ _ hx, round_multiple_near _ _ hy,
    round_multiple_nearest _ _ hx, round_multiple_nearest _ _ hy, rfl, ?_⟩
  simp only [calculateGridCenterForPlayerPos]
  rw [round_multiple_fixed _ hx, round_multiple_fixed _ hy]

theorem calculateGridCenterForPlayerPos_nearest_witness :
    |(calculateGridCenterForPlayerPos toyConstants ⟨13, 5, -4⟩).X - 13| ≤ 8 / 2 ∧
    calculateGridCenterForPlayerPos toyConstants ⟨13, 5, -4⟩ = ⟨16, 0, -8⟩ := by
  have h := calculateGridCenterForPlayerPos_nearest toyConstants ⟨13, 5, -4⟩
    (by norm_num [toyConstants]) (by norm_num [toyConstants])
  refine ⟨h.2.1, ?_⟩
  norm_num [calculateGridCenterForPlayerPos, cppRound, toyConstants]

/-! ### The conversion to local coordinates -/

theorem toSizeT_of_nonneg {z : ℤ} (h0 : 0 ≤ z) (h1 : z < 2 ^ 63) : toSizeT z = z.toNat := by
  unfold toSizeT
  rw [Int.emod_eq_of_lt h0 (by linarith)]

theorem toSizeT_of_neg {z : ℤ} (h0 : z < 0) (h1 : -(2 ^ 63) ≤ z) :
    ((2 : ℤ) ^ 63) ≤ (toSizeT z : ℤ) := by
  unfold toSizeT
  have h2 : z % 2 ^ 64 = z + 2 ^ 64 := by
    rw [← Int.add_emod_self]
    exact Int.emod_eq_of_lt (by linarith) (by linarith)
  rw [h2, Int.toNat_of_nonneg (by linarith)]
  linarith

theorem toSizeT_inside (n : Nat) (z : ℤ) (hn : (n : ℤ) ≤ 2 ^ 63) (hz : FitsWord z) :
    toSizeT z < n ↔ 0 ≤ z ∧ z < n := by
  by_cases h0 : 0 ≤ z
  · rw [toSizeT_of_nonneg h0 hz.2]
    constructor
    · intro h
      refine ⟨h0, ?_⟩
      have := Int.toNat_of_nonneg h0
      omega
    · rintro ⟨_, h⟩
      omega
  · have hneg := toSizeT_of_neg (not_le.mp h0) hz.1
    constructor
    · intro h
      omega
    · rintro ⟨h, _⟩
      exact absurd h h0

theorem convertWorldToCloudLocal_eq (K : CloudConstants) (cloudPosition worldPosition : Float3) :
    convertWorldToCloudLocal K cloudPosition worldPosition =
      if toSizeT (localCellFormula K cloudPosition worldPosition).1 ≥ K.CLOUD_SIMULATION_WIDTH ∨
          toSizeT (localCellFormula K cloudPosition worldPosition).2 ≥
            K.CLOUD_SIMULATION_HEIGHT then
        .error .invalidArgument
      else .ok (toSizeT (localCellFormula K cloudPosition worldPosition).1,
        toSizeT (localCellFormula K cloudPosition worldPosition).2) := rfl

/-- C16: when the grid dimensions and the two floor values of the formula fit
a signed 64-bit word, `convertWorldToCloudLocal` fails, with the out-of-range
error, exactly when the value along X is outside `[0, W)` or the value along
Z is outside `[0, H)`, a negative value included; otherwise it returns the
two floor values. -/
theorem convertWorldToCloudLocal_spec (K : CloudConstants) (cloudPosition worldPosition : Float3)
    (hW : (K.CLOUD_SIMULATION_WIDTH : ℤ) ≤ 2 ^ 63)
    (hH : (K.CLOUD_SIMULATION_HEIGHT : ℤ) ≤ 2 ^ 63)
    (hx : FitsWord (localCellFormula K cloudPosition worldPosition).1)
    (hz : FitsWord (localCellFormula K cloudPosition worldPosition).2) :
    (convertWorldToCloudLocal K cloudPosition worldPosition = .error .invalidArgument ↔
      ¬ (0 ≤ (localCellFormula K cloudPosition worldPosition).1 ∧
          (localCellFormula K cloudPosition worldPosition).1 < K.CLOUD_SIMULATION_WIDTH) ∨
      ¬ (0 ≤ (localCellFormula K cloudPosition worldPosition).2 ∧
          (localCellFormula K cloudPosition worldPosition).2 < K.CLOUD_SIMULATION_HEIGHT)) ∧
    (convertWorldToCloudLocal K cloudPosition worldPosition ≠ .error .invalidArgument →
      ∃ x y : Nat, convertWorldToCloudLocal K cloudPosition worldPosition = .ok (x, y) ∧
        (x : ℤ) = (localCellFormula K cloudPosition worldPosition).1 ∧
        (y : ℤ) = (localCellFormula K cloudPosition worldPosition).2) := by
  have ex := toSizeT_inside K.CLOUD_SIMULATION_WIDTH _ hW hx
  have ez := toSizeT_inside K.CLOUD_SIMULATION_HEIGHT _ hH hz
  rw [convertWorldToCloudLocal_eq]
  by_cases hin : toSizeT (localCellFormula K cloudPosition worldPosition).1 ≥
      K.CLOUD_SIMULATION_WIDTH ∨
      toSizeT (localCellFormula K cloudPosition worldPosition).2 ≥ K.CLOUD_SIMULATION_HEIGHT
  · rw [if_pos hin]
    refine ⟨⟨fun _ => ?_, fun _ => rfl⟩, fun h => absurd rfl h⟩
    rcases hin with h | h
    · exact Or.inl (fun h1 => absurd (ex.mpr h1) (not_lt.mpr h))
    · exact Or.inr (fun h1 => absurd (ez.mpr h1) (not_lt.mpr h))
  · rw [if_neg hin]
    rw [not_or, not_le, not_le] at hin
    have hx1 := ex.mp hin.1
    have hz1 := ez.mp hin.2
    refine ⟨⟨fun h => by simp at h, fun h => ?_⟩, fun _ => ⟨_, _, rfl, ?_, ?_⟩⟩
    · rcases h with h | h
      · exact absurd hx1 h
      · exact absurd hz1 h
    · rw [toSizeT_of_nonneg hx1.1 hx.2, Int.toNat_of_nonneg hx1.1]
    · rw [toSizeT_of_nonneg hz1.1 hz.2, Int.toNat_of_nonneg hz1.1]

theorem toy_localCellFormula :
    localCellFormula toyConstants ⟨0, 0, 0⟩ ⟨-5, 0, 1⟩ = (-1, 2) ∧
    localCellFormula toyConstants ⟨0, 0, 0⟩ ⟨3, 0, -4⟩ = (3, 0) := by
  norm_num [localCellFormula, toyConstants]

theorem convertWorldToCloudLocal_spec_witness :
    convertWorldToCloudLocal toyConstants ⟨0, 0, 0⟩ ⟨-5, 0, 1⟩ = .error .invalidArgument ∧
    ∃ x y : Nat, convertWorldToCloudLocal toyConstants ⟨0, 0, 0⟩ ⟨3, 0, -4⟩ = .ok (x, y) ∧
      (x : ℤ) = 3 ∧ (y : ℤ) = 0 := by
  have hW : ((toyConstants.CLOUD_SIMULATION_WIDTH : ℕ) : ℤ) ≤ 2 ^ 63 := by
    norm_num [toyConstants]
  have hH : ((toyConstants.CLOUD_SIMULATION_HEIGHT : ℕ) : ℤ) ≤ 2 ^ 63 := by
    norm_num [toyConstants]
  have h1 := convertWorldToCloudLocal_spec toyConstants ⟨0, 0, 0⟩ ⟨-5, 0, 1⟩ hW hH
    (by rw [toy_localCellFormula.1]; norm_num [FitsWord])
    (by rw [toy_localCellFormula.1]; norm_num [FitsWord])
  have h2 := convertWorldToCloudLocal_spec toyConstants ⟨0, 0, 0⟩ ⟨3, 0, -4⟩ hW hH
    (by rw [toy_localCellFormula.2]; norm_num [FitsWord])
    (by rw [toy_localCellFormula.2]; norm_num [FitsWord])
  rw [toy_localCellFormula.1] at h1
  rw [toy_localCellFormula.2] at h2
  refine ⟨h1.1.mpr (Or.inl (by norm_num)), h2.2 ?_⟩
  intro h
  have := h2.1.mp h
  norm_num [toyConstants] at this

/-! ### The routing operations -/

theorem addCloudScan_skip (K : CloudConstants) (compound : CompoundId) (density : ℚ)
    (worldPosition : Float3) (all pre rest : ManagedClouds) (i : Nat)
    (hpre : ∀ e ∈ pre, routeMatches K compound worldPosition e = false) :
    addCloudScan K compound density worldPosition all i (pre ++ rest) =
      addCloudScan K compound density worldPosition all (i + pre.length) rest := by
  induction pre generalizing i with
  | nil => rfl
  | cons cloud pre ih =>
    have hc := hpre cloud (List.mem_cons_self _ _)
    have ih1 := ih (i + 1) (fun e he => hpre e (List.mem_cons_of_mem _ he))
    simp only [routeMatches, Bool.and_eq_false_iff] at hc
    have hidx : i + (pre.length + 1) = i + 1 + pre.length := by omega
    simp only [List.cons_append, addCloudScan, List.length_cons, List.append_eq]
    rw [ih1, hidx]
    rcases hc with hc | hc
    · simp [hc]
    · simp [hc]

theorem takeCompoundScan_skip (K : CloudConstants) (compound : CompoundId)
    (worldPosition : Float3) (rate : ℚ) (all pre rest : ManagedClouds) (i : Nat)
    (hpre : ∀ e ∈ pre, routeMatches K compound worldPosition e = false) :
    takeCompoundScan K compound worldPosition rate all i (pre ++ rest) =
      takeCompoundScan K compound worldPosition rate all (i + pre.length) rest := by
  induction pre generalizing i with
  | nil => rfl
  | cons cloud pre ih =>
    have hc := hpre cloud (List.mem_cons_self _ _)
    have ih1 := ih (i + 1) (fun e he => hpre e (List.mem_cons_of_mem _ he))
    simp only [routeMatches, Bool.and_eq_false_iff] at hc
    have hidx : i + (pre.length + 1) = i + 1 + pre.length := by omega
    simp only [List.cons_append, takeCompoundScan, List.length_cons, List.append_eq]
    rw [ih1, hidx]
    rcases hc with hc | hc
    · simp [hc]
    · simp [hc]

theorem amountAvailableScan_skip (K : CloudConstants) (compound : CompoundId)
    (worldPosition : Float3) (rate : ℚ) (pre rest : ManagedClouds)
    (hpre : ∀ e ∈ pre, routeMatches K compound worldPosition e = false) :
    amountAvailableScan K compound worldPosition rate (pre ++ rest) =
      amountAvailableScan K compound worldPosition rate rest := by
  induction pre with
  | nil => rfl
  | cons cloud pre ih =>
    have hc := hpre cloud (List.mem_cons_self _ _)
    have ih1 := ih (fun e he => hpre e (List.mem_cons_of_mem _ he))
    simp only [routeMatches, Bool.and_eq_false_iff] at hc
    simp only [List.cons_append, amountAvailableScan, List.append_eq]
    rw [ih1]
    rcases hc with hc | hc
    · simp [hc]
    · simp [hc]

theorem firstMatch_split (K : CloudConstants) (compound : CompoundId) (worldPosition : Float3)
    (clouds : ManagedClouds) (i : Nat) (e : ObjectID × CompoundCloudComponent)
    (h : FirstMatch K compound worldPosition clouds i e) :
    clouds = clouds.take i ++ e :: clouds.drop (i + 1) ∧ (clouds.take i).length = i ∧
      ∀ e1 ∈ clouds.take i, routeMatches K compound worldPosition e1 = false := by
  obtain ⟨hi, _, hbefore⟩ := h
  have hlt : i < clouds.length := by
    by_contra hge
    rw [List.getElem?_eq_none (not_lt.mp hge)] at hi
    exact absurd hi (by simp)
  have hget : clouds[i] = e := by
    rw [List.getElem?_eq_getElem hlt] at hi
    exact Option.some.inj hi
  refine ⟨?_, by simp [Nat.le_of_lt hlt], ?_⟩
  · rw [← hget, List.getElem_cons_drop _ _ hlt, List.take_append_drop]
  · intro e1 he1
    obtain ⟨j, hj, rfl⟩ := List.getElem_of_mem he1
    rw [List.length_take] at hj
    have hji : j < i := lt_of_lt_of_le hj (min_le_left _ _)
    refine hbefore j _ hji ?_
    rw [List.getElem_take, List.getElem?_eq_getElem]

theorem convertWorldToCloudLocal_error (K : CloudConstants) (cloudPosition worldPosition : Float3)
    (err : CloudError) (h : convertWorldToCloudLocal K cloudPosition worldPosition = .error err) :
    err = .invalidArgument := by
  unfold convertWorldToCloudLocal at h
  dsimp only at h
  split_ifs at h
  exact (Except.error.inj h).symm

theorem addCloud_of_slot (t : CompoundCloudComponent) (compound : CompoundId) (dens : ℚ)
    (x y : Nat) (slot : SLOT) (h : t.getSlotForCompound compound = .ok slot) :
    ∃ t1, t.addCloud compound dens x y = .ok t1 ∧
      t1.density slot x y = t.density slot x y + dens ∧
      t1.m_position = t.m_position ∧
      t1.getSlotForCompound compound = .ok slot ∧
      t1.handlesCompound compound = t.handlesCompound compound := by
  unfold CompoundCloudComponent.addCloud
  rw [h]
  cases slot <;>
    exact ⟨_, rfl, by simp [CompoundCloudComponent.density, Grid.set], rfl, h, rfl⟩

theorem setTile_of_getElem (m : ManagedClouds) (i : Nat) (e : ObjectID × CompoundCloudComponent)
    (t : CompoundCloudComponent) (h : m[i]? = some e) : m.setTile i t = m.set i (e.1, t) := by
  unfold ManagedClouds.setTile
  rw [h]

theorem addCloudScan_first (K : CloudConstants) (compound : CompoundId) (density : ℚ)
    (worldPosition : Float3) (clouds : ManagedClouds) (i : Nat)
    (e : ObjectID × CompoundCloudComponent)
    (h : FirstMatch K compound worldPosition clouds i e) :
    (∀ err, convertWorldToCloudLocal K e.2.m_position worldPosition = .error err →
      addCloudScan K compound density worldPosition clouds 0 clouds = .ok (false, clouds)) ∧
    (∀ x y, convertWorldToCloudLocal K e.2.m_position worldPosition = .ok (x, y) →
      ∃ t, e.2.addCloud compound density x y = .ok t ∧
        addCloudScan K compound density worldPosition clouds 0 clouds =
          .ok (true, clouds.set i (e.1, t))) := by
  obtain ⟨hsplit, hlen, hpre⟩ := firstMatch_split K compound worldPosition clouds i e h
  obtain ⟨hi, hm, _⟩ := h
  have hscan := addCloudScan_skip K compound density worldPosition clouds (clouds.take i)
    (e :: clouds.drop (i + 1)) 0 hpre
  rw [← hsplit, hlen, Nat.zero_add] at hscan
  simp only [routeMatches, Bool.and_eq_true] at hm
  rw [hscan]
  simp only [addCloudScan, hm.1, hm.2, if_true, Bool.not_true, Bool.false_eq_true, if_false]
  constructor
  · intro err herr
    have := convertWorldToCloudLocal_error K _ _ err herr
    subst this
    rw [herr]
  · intro x y hxy
    obtain ⟨slot, hslot⟩ := getSlotForCompound_of_handles e.2 compound hm.2
    obtain ⟨t, ht, _⟩ := addCloud_of_slot e.2 compound density x y slot hslot
    refine ⟨t, ht, ?_⟩
    rw [hxy]
    simp only [ht, setTile_of_getElem clouds i e t hi]

theorem takeCompoundScan_first (K : CloudConstants) (compound : CompoundId)
    (worldPosition : Float3) (rate : ℚ) (clouds : ManagedClouds) (i : Nat)
    (e : ObjectID × CompoundCloudComponent)
    (h : FirstMatch K compound worldPosition clouds i e) :
    (∀ err, convertWorldToCloudLocal K e.2.m_position worldPosition = .error err →
      takeCompoundScan K compound worldPosition rate clouds 0 clouds = .ok (0, clouds)) ∧
    (∀ x y, convertWorldToCloudLocal K e.2.m_position worldPosition = .ok (x, y) →
      ∃ a t, e.2.takeCompound compound x y rate = .ok (a, t) ∧
        takeCompoundScan K compound worldPosition rate clouds 0 clouds =
          .ok ((a : ℚ), clouds.set i (e.1, t))) := by
  obtain ⟨hsplit, hlen, hpre⟩ := firstMatch_split K compound worldPosition clouds i e h
  obtain ⟨hi, hm, _⟩ := h
  have hscan := takeCompoundScan_skip K compound worldPosition rate clouds (clouds.take i)
    (e :: clouds.drop (i + 1)) 0 hpre
  rw [← hsplit, hlen, Nat.zero_add] at hscan
  simp only [routeMatches, Bool.and_eq_true] at hm
  rw [hscan]
  simp only [takeCompoundScan, hm.1, hm.2, if_true, Bool.not_true, Bool.false_eq_true, if_false]
  constructor
  · intro err herr
    have := convertWorldToCloudLocal_error K _ _ err herr
    subst this
    rw [herr]
  · intro x y hxy
    obtain ⟨slot, hslot⟩ := getSlotForCompound_of_handles e.2 compound hm.2
    obtain ⟨t, ht, _⟩ := takeCompound_of_slot e.2 compound x y rate slot hslot
    refine ⟨_, t, ht, ?_⟩
    rw [hxy]
    simp only [ht, setTile_of_getElem clouds i e t hi]

theorem addCloudScan_none (K : CloudConstants) (compound : CompoundId) (density : ℚ)
    (worldPosition : Float3) (clouds : ManagedClouds)
    (h : ∀ e ∈ clouds, routeMatches K compound worldPosition e = false) :
    addCloudScan K compound density worldPosition clouds 0 clouds = .ok (false, clouds) := by
  have hscan := addCloudScan_skip K compound density worldPosition clouds clouds [] 0 h
  rw [List.append_nil] at hscan
  rw [hscan]
  rfl

theorem takeCompoundScan_none (K : CloudConstants) (compound : CompoundId)
    (worldPosition : Float3) (rate : ℚ) (clouds : ManagedClouds)
    (h : ∀ e ∈ clouds, routeMatches K compound worldPosition e = false) :
    takeCompoundScan K compound worldPosition rate clouds 0 clouds = .ok (0, clouds) := by
  have hscan := takeCompoundScan_skip K compound worldPosition rate clouds clouds [] 0 h
  rw [List.append_nil] at hscan
  rw [hscan]
  rfl

theorem amountAvailableScan_none (K : CloudConstants) (compound : CompoundId)
    (worldPosition : Float3) (rate : ℚ) (clouds : ManagedClouds)
    (h : ∀ e ∈ clouds, routeMatches K compound worldPosition e = false) :
    amountAvailableScan K compound worldPosition rate clouds = .ok 0 := by
  have hscan := amountAvailableScan_skip K compound worldPosition rate clouds [] h
  rw [List.append_nil] at hscan
  rw [hscan]
  rfl

/-- C14: the system-level `addCloud` and `takeCompound` use the first tile, in
scan order, whose rectangle contains the position and which handles the
compound. When its coordinate conversion succeeds, the tile-level operation
is applied to that tile, the result is `true` or the amount, and the tile
list differs from the old one at that place only. When its conversion fails
the result is `false` or `0` and the system is as before. When no tile passes
the test the result is `false` or `0` and the system is as before. -/
theorem router_first_match (K : CloudConstants) (s : CompoundCloudSystem)
    (compound : CompoundId) (density rate : ℚ) (worldPosition : Float3) :
    ((∀ e ∈ s.m_managedClouds, routeMatches K compound worldPosition e = false) →
      s.addCloud K compound density worldPosition = .ok (false, s) ∧
      s.takeCompound K compound worldPosition rate = .ok (0, s)) ∧
    (∀ i e, FirstMatch K compound worldPosition s.m_managedClouds i e →
      (∀ err, convertWorldToCloudLocal K e.2.m_position worldPosition = .error err →
        s.addCloud K compound density worldPosition = .ok (false, s) ∧
        s.takeCompound K compound worldPosition rate = .ok (0, s)) ∧
      (∀ x y, convertWorldToCloudLocal K e.2.m_position worldPosition = .ok (x, y) →
        (∃ t, e.2.addCloud compound density x y = .ok t ∧
          s.addCloud K compound density worldPosition =
            .ok (true, { s with m_managedClouds := s.m_managedClouds.set i (e.1, t) })) ∧
        (∃ a t, e.2.takeCompound compound x y rate = .ok (a, t) ∧
          s.takeCompound K compound worldPosition rate =
            .ok ((a : ℚ), { s with m_managedClouds := s.m_managedClouds.set i (e.1, t) })))) := by
  refine ⟨fun hnone => ?_, fun i e hfirst => ⟨fun err herr => ?_, fun x y hxy => ⟨?_, ?_⟩⟩⟩
  · unfold CompoundCloudSystem.addCloud CompoundCloudSystem.takeCompound
    rw [addCloudScan_none K compound density worldPosition _ hnone,
      takeCompoundScan_none K compound worldPosition rate _ hnone]
    exact ⟨rfl, rfl⟩
  · unfold CompoundCloudSystem.addCloud CompoundCloudSystem.takeCompound
    rw [(addCloudScan_first K compound density worldPosition _ i e hfirst).1 err herr,
      (takeCompoundScan_first K compound worldPosition rate _ i e hfirst).1 err herr]
    exact ⟨rfl, rfl⟩
  · obtain ⟨t, ht, hs⟩ :=
      (addCloudScan_first K compound density worldPosition _ i e hfirst).2 x y hxy
    refine ⟨t, ht, ?_⟩
    unfold CompoundCloudSystem.addCloud
    rw [hs]
  · obtain ⟨a, t, ht, hs⟩ :=
      (takeCompoundScan_first K compound worldPosition rate _ i e hfirst).2 x y hxy
    refine ⟨a, t, ht, ?_⟩
    unfold CompoundCloudSystem.takeCompound
    rw [hs]

/-! ### Positions outside every tile -/

theorem routeMatches_of_outside (K : CloudConstants) (compound : CompoundId)
    (worldPosition : Float3) (e : ObjectID × CompoundCloudComponent)
    (h : cloudContainsPosition K e.2.m_position worldPosition = false) :
    routeMatches K compound worldPosition e = false := by
  simp [routeMatches, h]

theorem getAllAvailableAtScan_outside (K : CloudConstants) (worldPosition : Float3)
    (clouds : ManagedClouds) (result : List (CompoundId × ℚ))
    (h : ∀ e ∈ clouds, cloudContainsPosition K e.2.m_position worldPosition = false) :
    getAllAvailableAtScan K worldPosition clouds result = result := by
  induction clouds with
  | nil => rfl
  | cons cloud rest ih =>
    have hc := h cloud (List.mem_cons_self _ _)
    simp only [getAllAvailableAtScan, hc, Bool.false_eq_true, if_false]
    exact ih (fun e he => h e (List.mem_cons_of_mem _ he))

/-- C15: for a position that no tile's rectangle contains, `amountAvailable`
and `takeCompound` give 0 for every compound and rate, `getAllAvailableAt`
gives the empty list, and the system after `takeCompound` is the system
before (the two queries return no new state at all). -/
theorem router_outside_all_tiles (K : CloudConstants) (s : CompoundCloudSystem)
    (worldPosition : Float3)
    (hout : ∀ e ∈ s.m_managedClouds,
      cloudContainsPosition K e.2.m_position worldPosition = false)
    (compound : CompoundId) (rate : ℚ) :
    s.amountAvailable K compound worldPosition rate = .ok 0 ∧
    s.takeCompound K compound worldPosition rate = .ok (0, s) ∧
    s.getAllAvailableAt K worldPosition = [] := by
  have hnone : ∀ e ∈ s.m_managedClouds, routeMatches K compound worldPosition e = false :=
    fun e he => routeMatches_of_outside K compound worldPosition e (hout e he)
  refine ⟨amountAvailableScan_none K compound worldPosition rate _ hnone, ?_,
    getAllAvailableAtScan_outside K worldPosition _ [] hout⟩
  unfold CompoundCloudSystem.takeCompound
  rw [takeCompoundScan_none K compound worldPosition rate _ hnone]

theorem router_outside_all_tiles_witness :
    toyWindow.amountAvailable toyConstants 1 ⟨12, 0, 3⟩ (1 / 2) = .ok 0 ∧
    toyWindow.takeCompound toyConstants 1 ⟨12, 0, 3⟩ (1 / 2) = .ok (0, toyWindow) ∧
    toyWindow.getAllAvailableAt toyConstants ⟨12, 0, 3⟩ = [] := by
  apply router_outside_all_tiles
  intro e he
  simp only [toyWindow, toyTileAt, toyTile, List.mem_cons, List.mem_singleton,
    List.not_mem_nil, or_false] at he
  rcases he with rfl | rfl | rfl | rfl | rfl | rfl | rfl | rfl | rfl <;>
    norm_num [cloudContainsPosition, toyConstants]

/-! ### Everything available at a position -/

theorem compoundAt_eq (K : CloudConstants) (id : CompoundId) (g : Grid) (x y : Nat)
    (result : List (CompoundId × ℚ)) :
    CompoundCloudComponent.compoundAt K id g x y result =
      result ++ (if id ≠ K.NULL_COMPOUND ∧ g x y > 0 then [(id, g x y)] else []) := by
  unfold CompoundCloudComponent.compoundAt
  by_cases h1 : id ≠ K.NULL_COMPOUND
  · by_cases h2 : g x y > 0
    · simp [h1, h2]
    · simp [h1, h2]
  · simp [h1]

theorem filter_map_cons {α β : Type} (p : α → Bool) (f : α → β) (a : α) (l : List α) :
    ((a :: l).filter p).map f = (if p a = true then [f a] else []) ++ (l.filter p).map f := by
  by_cases h : p a = true
  · simp [List.filter_cons, h]
  · simp [List.filter_cons, h]

theorem getCompoundsAt_eq (K : CloudConstants) (t : CompoundCloudComponent) (x y : Nat)
    (result : List (CompoundId × ℚ)) :
    t.getCompoundsAt K x y result = result ++ snapshotAt K t x y := by
  unfold CompoundCloudComponent.getCompoundsAt snapshotAt
  simp only [compoundAt_eq, List.append_assoc, filter_map_cons, List.filter_nil, List.map_nil,
    List.append_nil, CompoundCloudComponent.compoundId, CompoundCloudComponent.density,
    Bool.and_eq_true, decide_eq_true_eq]

theorem getAllAvailableAtScan_eq (K : CloudConstants) (worldPosition : Float3)
    (clouds : ManagedClouds) (result : List (CompoundId × ℚ)) :
    getAllAvailableAtScan K worldPosition clouds result =
      result ++ clouds.flatMap (tileContribution K worldPosition) := by
  induction clouds generalizing result with
  | nil => simp [getAllAvailableAtScan]
  | cons cloud rest ih =>
    simp only [getAllAvailableAtScan, List.flatMap_cons, tileContribution]
    by_cases hc : cloudContainsPosition K cloud.2.m_position worldPosition = true
    · simp only [hc, if_true]
      cases hconv : convertWorldToCloudLocal K cloud.2.m_position worldPosition with
      | error err => simp only [ih, List.nil_append]
      | ok xy =>
        obtain ⟨x, y⟩ := xy
        simp only [ih, getCompoundsAt_eq, List.append_assoc]
    · simp only [hc, if_false, ih, List.nil_append]
      simp

/-- C18: `getAllAvailableAt` gives the concatenation, over the tiles in scan
order, of what each tile contributes: nothing when its rectangle does not
contain the position or the conversion fails, and otherwise what
`getCompoundsAt` appends at the converted cell (whatever compounds the tile
holds), which is the pair `(id, density)` of every bound slot whose density
there is more than 0, in slot order. The function returns no new state. -/
theorem getAllAvailableAt_spec (K : CloudConstants) (s : CompoundCloudSystem)
    (worldPosition : Float3) :
    s.getAllAvailableAt K worldPosition =
      s.m_managedClouds.flatMap (tileContribution K worldPosition) ∧
    ∀ (t : CompoundCloudComponent) (x y : Nat) (result : List (CompoundId × ℚ)),
      t.getCompoundsAt K x y result = result ++ snapshotAt K t x y := by
  refine ⟨?_, getCompoundsAt_eq K⟩
  unfold CompoundCloudSystem.getAllAvailableAt
  rw [getAllAvailableAtScan_eq, List.nil_append]

/-! ### Deposit, then ask what is available -/

theorem amountAvailable_of_slot (t : CompoundCloudComponent) (compound : CompoundId)
    (x y : Nat) (rate : ℚ) (slot : SLOT) (h : t.getSlotForCompound compound = .ok slot) :
    t.amountAvailable compound x y rate = .ok (cppTrunc (t.density slot x y * rate)) := by
  unfold CompoundCloudComponent.amountAvailable
  rw [h]
  cases slot <;> rfl

theorem toy_convert :
    convertWorldToCloudLocal toyConstants ⟨0, 0, 0⟩ ⟨1, 0, -3⟩ = .ok (2, 0) := by
  have h := convertWorldToCloudLocal_eq toyConstants ⟨0, 0, 0⟩ ⟨1, 0, -3⟩
  have hf : localCellFormula toyConstants ⟨0, 0, 0⟩ ⟨1, 0, -3⟩ = (2, 0) := by
    norm_num [localCellFormula, toyConstants]
  rw [hf] at h
  rw [h]
  rfl

theorem axis_contains_iff (E W c x : ℚ) (hE : 0 < E) (hW : 2 * W = E) (o : ℤ) :
    (c + (o : ℚ) * E - W ≤ x ∧ x < c + (o : ℚ) * E + W) ↔ ⌊(x - c) / E + 1 / 2⌋ = o := by
  have key : ((x - c) / E + 1 / 2) * E = (x - c) + W := by
    rw [add_mul, div_mul_cancel₀ _ hE.ne.symm]
    linarith
  rw [Int.floor_eq_iff]
  constructor
  · rintro ⟨h1, h2⟩
    constructor
    · by_contra hlt
      have := mul_lt_mul_of_pos_right (not_le.mp hlt) hE
      rw [key] at this
      linarith
    · by_contra hge
      have := mul_le_mul_of_nonneg_right (not_lt.mp hge) hE.le
      rw [key, add_mul] at this
      linarith
  · rintro ⟨h1, h2⟩
    have a1 := mul_le_mul_of_nonneg_right h1 hE.le
    have a2 := mul_lt_mul_of_pos_right h2 hE
    rw [key] at a1 a2
    rw [add_mul] at a2
    constructor <;> linarith

theorem axis_floor_range (E c x : ℚ) (hE : 0 < E) (h1 : c - 3 / 2 * E ≤ x)
    (h2 : x < c + 3 / 2 * E) :
    ⌊(x - c) / E + 1 / 2⌋ = -1 ∨ ⌊(x - c) / E + 1 / 2⌋ = 0 ∨ ⌊(x - c) / E + 1 / 2⌋ = 1 := by
  have hlo : (-3 / 2 : ℚ) ≤ (x - c) / E := by
    rw [le_div_iff₀ hE]
    linarith
  have hhi : (x - c) / E < 3 / 2 := by
    rw [div_lt_iff₀ hE]
    linarith
  have l1 : (-1 : ℤ) ≤ ⌊(x - c) / E + 1 / 2⌋ := by
    rw [Int.le_floor]
    push_cast
    linarith
  have l2 : ⌊(x - c) / E + 1 / 2⌋ < 2 := by
    rw [Int.floor_lt]
    push_cast
    linarith
  omega

theorem contains_offset_iff (K : CloudConstants) (hK : K.HalfExtents) (center p : Float3)
    (o : ℤ × ℤ) :
    cloudContainsPosition K (offsetPosition K center o) p = true ↔
      o = (⌊(p.X - center.X) / K.CLOUD_X_EXTENT + 1 / 2⌋,
        ⌊(p.Z - center.Z) / K.CLOUD_Y_EXTENT + 1 / 2⌋) := by
  have hx := axis_contains_iff K.CLOUD_X_EXTENT K.CLOUD_WIDTH center.X p.X hK.x_pos hK.width o.1
  have hz := axis_contains_iff K.CLOUD_Y_EXTENT K.CLOUD_HEIGHT center.Z p.Z hK.y_pos hK.height o.2
  rw [Prod.ext_iff]
  simp only [eq_comm (a := o.1), eq_comm (a := o.2), ← hx, ← hz]
  unfold cloudContainsPosition offsetPosition
  simp only [ge_iff_le, ite_eq_right_iff, Bool.false_eq_true, imp_false, not_or, not_lt, not_le]
  tauto

theorem window_one_position (K : CloudConstants) (hK : K.HalfExtents) (center p : Float3)
    (hp : InWindow K center p) :
    (calculateGridPositions K center).countP (fun q => cloudContainsPosition K q p) = 1 := by
  rw [calculateGridPositions_eq, List.countP_map]
  have hcongr : gridOffsets.countP ((fun q => cloudContainsPosition K q p) ∘
      offsetPosition K center) =
      gridOffsets.countP (fun o => decide (o =
        (⌊(p.X - center.X) / K.CLOUD_X_EXTENT + 1 / 2⌋,
          ⌊(p.Z - center.Z) / K.CLOUD_Y_EXTENT + 1 / 2⌋))) := by
    apply List.countP_congr
    intro o _
    simp only [Function.comp, decide_eq_true_eq]
    exact contains_offset_iff K hK center p o
  rw [hcongr]
  obtain ⟨h1, h2, h3, h4⟩ := hp
  have ha := axis_floor_range K.CLOUD_X_EXTENT center.X p.X hK.x_pos h1 h2
  have hb := axis_floor_range K.CLOUD_Y_EXTENT center.Z p.Z hK.y_pos h3 h4
  generalize ⌊(p.X - center.X) / K.CLOUD_X_EXTENT + 1 / 2⌋ = a at ha
  generalize ⌊(p.Z - center.Z) / K.CLOUD_Y_EXTENT + 1 / 2⌋ = b at hb
  rcases ha with rfl | rfl | rfl <;> rcases hb with rfl | rfl | rfl <;> decide

theorem positions_nodup_of_halfExtents (K : CloudConstants) (hK : K.HalfExtents)
    (center : Float3) : (calculateGridPositions K center).Nodup := by
  have hx : K.CLOUD_X_EXTENT ≠ 0 := hK.x_pos.ne.symm
  have hy : K.CLOUD_Y_EXTENT ≠ 0 := hK.y_pos.ne.symm
  rw [calculateGridPositions_eq]
  apply List.Nodup.map
  · intro a b hab
    simp only [offsetPosition, Float3.mk.injEq, add_right_inj, mul_eq_mul_right_iff, hx, hy,
      or_false, Int.cast_inj, true_and] at hab
    exact Prod.ext hab.1 hab.2
  · decide

theorem sum_map_indicator {β : Type} (c : β → Bool) (P : List β) :
    (P.map (fun q => if c q = true then 1 else 0)).sum = P.countP c := by
  induction P with
  | nil => rfl
  | cons q rest ih =>
    rw [List.map_cons, List.sum_cons, ih, List.countP_cons]
    omega

theorem countP_one_unique {α : Type} (q : α → Bool) (l : List α) (h : l.countP q = 1)
    (i j : Nat) (a b : α) (hi : l[i]? = some a) (hj : l[j]? = some b) (ha : q a = true)
    (hb : q b = true) : i = j := by
  induction l generalizing i j with
  | nil => simp at hi
  | cons x rest ih =>
    rw [List.countP_cons] at h
    have hzero : ∀ (k : Nat) (c : α), rest[k]? = some c → q c = true → 0 < rest.countP q := by
      intro k c hk hc
      exact List.countP_pos_iff.mpr ⟨c, List.getElem?_mem hk, hc⟩
    cases i with
    | zero =>
      cases j with
      | zero => rfl
      | succ j =>
        simp only [List.getElem?_cons_zero, Option.some.injEq] at hi
        simp only [List.getElem?_cons_succ] at hj
        have := hzero j b hj hb
        rw [hi, ha, if_pos rfl] at h
        omega
    | succ i =>
      simp only [List.getElem?_cons_succ] at hi
      have hpos := hzero i a hi ha
      cases j with
      | zero =>
        simp only [List.getElem?_cons_zero, Option.some.injEq] at hj
        rw [hj, hb, if_pos rfl] at h
        omega
      | succ j =>
        simp only [List.getElem?_cons_succ] at hj
        by_cases hx : q x = true
        · rw [if_pos hx] at h
          omega
        · rw [if_neg hx, Nat.add_zero] at h
          rw [ih h i j hi hj]

/-- In a Stable window, a point of the window is in exactly one tile of every
group. -/
theorem stable_group_contains (K : CloudConstants) (hK : K.HalfExtents)
    (cloudTypes : List Compound) (center : Float3) (clouds : ManagedClouds)
    (hst : Stable K cloudTypes center clouds) (g : CompoundId) (hg : g ∈ groupTypes cloudTypes)
    (p : Float3) (hp : InWindow K center p) :
    clouds.countP (fun e => cloudContainsPosition K e.2.m_position p &&
      decide (e.2.getCompoundId1 = g)) = 1 := by
  have hkey := countP_by_key (fun e : ObjectID × CompoundCloudComponent => e.2.m_position)
    (fun e => cloudContainsPosition K e.2.m_position p && decide (e.2.getCompoundId1 = g))
    (calculateGridPositions K center) (positions_nodup_of_halfExtents K hK center) clouds
  have hz : clouds.countP (fun e => (cloudContainsPosition K e.2.m_position p &&
      decide (e.2.getCompoundId1 = g)) &&
      decide (e.2.m_position ∉ calculateGridPositions K center)) = 0 := by
    rw [List.countP_eq_zero]
    intro e he
    simp only [Bool.and_eq_true, decide_eq_true_eq, not_and, not_not]
    exact fun _ => (hst.known e he).2
  have hterm : ∀ q ∈ calculateGridPositions K center,
      clouds.countP (fun e => (cloudContainsPosition K e.2.m_position p &&
        decide (e.2.getCompoundId1 = g)) && decide (e.2.m_position = q)) =
      if cloudContainsPosition K q p = true then 1 else 0 := by
    intro q hq
    split_ifs with hc
    · rw [← hst.one g hg q hq]
      unfold tilesOf
      apply List.countP_congr
      intro e _
      simp only [isTileOf, Bool.and_eq_true, decide_eq_true_eq]
      constructor
      · rintro ⟨⟨_, h2⟩, h3⟩
        exact ⟨h2, h3⟩
      · rintro ⟨h2, h3⟩
        exact ⟨⟨by rw [h3]; exact hc, h2⟩, h3⟩
    · rw [List.countP_eq_zero]
      intro e _
      simp only [Bool.and_eq_true, decide_eq_true_eq, not_and]
      rintro ⟨h1, _⟩ h3
      rw [h3] at h1
      exact hc h1
  rw [hkey, hz, Nat.add_zero, List.map_congr_left hterm, sum_map_indicator]
  exact window_one_position K hK center p hp

theorem types_index_unique (cloudTypes : List Compound)
    (hd : (cloudTypes.map (fun c => c.id)).Nodup) (i j : Nat) (a b : Compound)
    (hi : cloudTypes[i]? = some a) (hj : cloudTypes[j]? = some b) (hab : a.id = b.id) :
    i = j := by
  have hil : i < (cloudTypes.map (fun c => c.id)).length := by
    rw [List.length_map]
    by_contra hge
    rw [List.getElem?_eq_none (not_lt.mp hge)] at hi
    exact absurd hi (by simp)
  have hjl : j < (cloudTypes.map (fun c => c.id)).length := by
    rw [List.length_map]
    by_contra hge
    rw [List.getElem?_eq_none (not_lt.mp hge)] at hj
    exact absurd hj (by simp)
  have e1 : (cloudTypes.map (fun c => c.id))[i] = a.id := by
    have : (cloudTypes.map (fun c => c.id))[i]? = some a.id := by
      rw [List.getElem?_map, hi]
      rfl
    rw [List.getElem?_eq_getElem hil] at this
    exact Option.some.inj this
  have e2 : (cloudTypes.map (fun c => c.id))[j] = b.id := by
    have : (cloudTypes.map (fun c => c.id))[j]? = some b.id := by
      rw [List.getElem?_map, hj]
      rfl
    rw [List.getElem?_eq_getElem hjl] at this
    exact Option.some.inj this
  exact (List.Nodup.getElem_inj_iff hd).mp (by rw [e1, e2, hab])

theorem groupStarts_nodup (n : Nat) : (groupStarts n).Nodup := by
  unfold groupStarts CLOUDS_IN_ONE
  apply List.Nodup.map
  · intro a b hab
    simp only at hab
    omega
  · exact List.nodup_range _

theorem groupTypes_nodup (cloudTypes : List Compound)
    (hd : (cloudTypes.map (fun c => c.id)).Nodup) : (groupTypes cloudTypes).Nodup := by
  unfold groupTypes
  apply List.Nodup.filterMap _ (groupStarts_nodup _)
  intro c d g hc hd1
  simp only [Option.mem_def, Option.map_eq_some'] at hc hd1
  obtain ⟨a, ha, hag⟩ := hc
  obtain ⟨b, hb, hbg⟩ := hd1
  exact types_index_unique cloudTypes hd c d a b ha hb (by rw [hag, hbg])

/-- In a Stable window, a point of the window is in as many tiles as there are
groups. -/
theorem stable_contains_count (K : CloudConstants) (hK : K.HalfExtents)
    (cloudTypes : List Compound) (center : Float3) (clouds : ManagedClouds)
    (hst : Stable K cloudTypes center clouds)
    (hd : (cloudTypes.map (fun c => c.id)).Nodup) (p : Float3) (hp : InWindow K center p) :
    clouds.countP (fun e => cloudContainsPosition K e.2.m_position p) =
      (cloudTypes.length + 3) / 4 := by
  have hkey := countP_by_key (fun e : ObjectID × CompoundCloudComponent => e.2.getCompoundId1)
    (fun e => cloudContainsPosition K e.2.m_position p) (groupTypes cloudTypes)
    (groupTypes_nodup cloudTypes hd) clouds
  have hz : clouds.countP (fun e => cloudContainsPosition K e.2.m_position p &&
      decide (e.2.getCompoundId1 ∉ groupTypes cloudTypes)) = 0 := by
    rw [List.countP_eq_zero]
    intro e he
    simp only [Bool.and_eq_true, decide_eq_true_eq, not_and, not_not]
    exact fun _ => (hst.known e he).1
  rw [hkey, hz, Nat.add_zero,
    sum_map_eq_length _ _ (fun g hg => stable_group_contains K hK cloudTypes center clouds hst
      g hg p hp), groupTypes_length]

theorem slotId_bound (K : CloudConstants) (cloudTypes : List Compound) (n : Nat)
    (h : slotId K cloudTypes n ≠ K.NULL_COMPOUND) :
    ∃ ty, cloudTypes[n]? = some ty ∧ ty.id = slotId K cloudTypes n := by
  unfold slotId at h ⊢
  cases hn : cloudTypes[n]? with
  | none => rw [hn] at h; exact absurd rfl h
  | some ty => exact ⟨ty, rfl, rfl⟩

theorem registered_bound (K : CloudConstants) (cloudTypes : List Compound)
    (t : CompoundCloudComponent) (c : Nat)
    (h1 : t.m_compoundId1 = slotId K cloudTypes c)
    (h2 : t.m_compoundId2 = slotId K cloudTypes (c + 1))
    (h3 : t.m_compoundId3 = slotId K cloudTypes (c + 2))
    (h4 : t.m_compoundId4 = slotId K cloudTypes (c + 3))
    (id : CompoundId) (hb : t.BoundTo K id) :
    ∃ k ty, k < 4 ∧ cloudTypes[c + k]? = some ty ∧ ty.id = id := by
  obtain ⟨slot, hne, hid⟩ := hb
  cases slot
  · simp only [CompoundCloudComponent.compoundId] at hne hid
    rw [h1] at hne hid
    obtain ⟨ty, e1, e2⟩ := slotId_bound K cloudTypes c hne
    exact ⟨0, ty, by omega, e1, by rw [e2, hid]⟩
  · simp only [CompoundCloudComponent.compoundId] at hne hid
    rw [h2] at hne hid
    obtain ⟨ty, e1, e2⟩ := slotId_bound K cloudTypes (c + 1) hne
    exact ⟨1, ty, by omega, e1, by rw [e2, hid]⟩
  · simp only [CompoundCloudComponent.compoundId] at hne hid
    rw [h3] at hne hid
    obtain ⟨ty, e1, e2⟩ := slotId_bound K cloudTypes (c + 2) hne
    exact ⟨2, ty, by omega, e1, by rw [e2, hid]⟩
  · simp only [CompoundCloudComponent.compoundId] at hne hid
    rw [h4] at hne hid
    obtain ⟨ty, e1, e2⟩ := slotId_bound K cloudTypes (c + 3) hne
    exact ⟨3, ty, by omega, e1, by rw [e2, hid]⟩

theorem groupStarts_multiple (n c : Nat) (h : c ∈ groupStarts n) : ∃ g, c = g * 4 := by
  unfold groupStarts CLOUDS_IN_ONE at h
  simp only [List.mem_map, List.mem_range] at h
  obtain ⟨g, _, hg⟩ := h
  exact ⟨g, hg.symm⟩

/-- Two registered tiles that share a bound id belong to the same group. -/
theorem registered_shared_id (K : CloudConstants) (cloudTypes : List Compound)
    (hd : (cloudTypes.map (fun c => c.id)).Nodup) (t1 t2 : CompoundCloudComponent)
    (hr1 : RegisteredTile K cloudTypes t1) (hr2 : RegisteredTile K cloudTypes t2)
    (id : CompoundId) (hb1 : t1.BoundTo K id) (hb2 : t2.BoundTo K id) :
    t1.getCompoundId1 = t2.getCompoundId1 := by
  obtain ⟨c1, hc1, a1, a2, a3, a4⟩ := hr1
  obtain ⟨c2, hc2, b1, b2, b3, b4⟩ := hr2
  obtain ⟨k1, ty1, hk1, e1, i1⟩ := registered_bound K cloudTypes t1 c1 a1 a2 a3 a4 id hb1
  obtain ⟨k2, ty2, hk2, e2, i2⟩ := registered_bound K cloudTypes t2 c2 b1 b2 b3 b4 id hb2
  have hidx := types_index_unique cloudTypes hd _ _ ty1 ty2 e1 e2 (by rw [i1, i2])
  obtain ⟨g1, hg1⟩ := groupStarts_multiple _ c1 hc1
  obtain ⟨g2, hg2⟩ := groupStarts_multiple _ c2 hc2
  have hcc : c1 = c2 := by omega
  unfold CompoundCloudComponent.getCompoundId1
  rw [a1, b1, hcc]

/-- C17: in a Stable window whose tiles are bound as the registry binds them,
with containment half-extents of half the tile extent and distinct registered
ids, a point inside the 3 x 3 window is contained in exactly one tile of each
group, hence in exactly `ceil(N/4)` tiles, and two different tiles that
contain it have no bound compound in common. -/
theorem window_point_coverage (K : CloudConstants) (hK : K.HalfExtents)
    (cloudTypes : List Compound) (center : Float3) (clouds : ManagedClouds)
    (hstable : Stable K cloudTypes center clouds)
    (hbound : ∀ e ∈ clouds, RegisteredTile K cloudTypes e.2)
    (hdistinct : (cloudTypes.map (fun c => c.id)).Nodup)
    (p : Float3) (hp : InWindow K center p) :
    (∀ g ∈ groupTypes cloudTypes,
      clouds.countP (fun e => cloudContainsPosition K e.2.m_position p &&
        decide (e.2.getCompoundId1 = g)) = 1) ∧
    clouds.countP (fun e => cloudContainsPosition K e.2.m_position p) =
      ⌈(cloudTypes.length : ℚ) / 4⌉₊ ∧
    (∀ (i j : Nat) (e1 e2 : ObjectID × CompoundCloudComponent), i ≠ j →
      clouds[i]? = some e1 → clouds[j]? = some e2 →
      cloudContainsPosition K e1.2.m_position p = true →
      cloudContainsPosition K e2.2.m_position p = true →
      ∀ id, ¬ (e1.2.BoundTo K id ∧ e2.2.BoundTo K id)) := by
  refine ⟨fun g hg => stable_group_contains K hK cloudTypes center clouds hstable g hg p hp,
    ?_, ?_⟩
  · rw [ceil_div_four]
    exact stable_contains_count K hK cloudTypes center clouds hstable hdistinct p hp
  · rintro i j e1 e2 hij h1 h2 hc1 hc2 id ⟨hb1, hb2⟩
    have hm1 := List.getElem?_mem h1
    have hm2 := List.getElem?_mem h2
    have hsame := registered_shared_id K cloudTypes hdistinct e1.2 e2.2 (hbound e1 hm1)
      (hbound e2 hm2) id hb1 hb2
    have hone := stable_group_contains K hK cloudTypes center clouds hstable
      e2.2.getCompoundId1 (hstable.known e2 hm2).1 p hp
    exact hij (countP_one_unique _ clouds hone i j e1 e2 h1 h2
      (by simp [hc1, hsame]) (by simp [hc2]))

theorem toyConstants_halfExtents : toyConstants.HalfExtents := by
  constructor <;> norm_num [toyConstants]

theorem toyWindow_registered :
    ∀ e ∈ toyWindow.m_managedClouds, RegisteredTile toyConstants toyWindow.m_cloudTypes e.2 := by
  intro e he
  simp only [toyWindow, List.mem_cons, List.mem_singleton, List.not_mem_nil, or_false] at he
  rcases he with rfl | rfl | rfl | rfl | rfl | rfl | rfl | rfl | rfl <;>
    exact ⟨0, by decide, rfl, rfl, rfl, rfl⟩

theorem window_point_coverage_witness :
    toyWindow.m_managedClouds.countP
      (fun e => cloudContainsPosition toyConstants e.2.m_position ⟨5, 0, -11⟩) =
        ⌈(([⟨1⟩, ⟨2⟩] : List Compound).length : ℚ) / 4⌉₊ :=
  (window_point_coverage toyConstants toyConstants_halfExtents toyWindow.m_cloudTypes
    toyWindow.m_cloudGridCenter toyWindow.m_managedClouds toyWindow_stable toyWindow_registered
    (by decide) ⟨5, 0, -11⟩ (by norm_num [InWindow, toyWindow, toyConstants])).2.1

/-! ### Tiles stay bound as the registry binds them -/

theorem freshTile_registered (K : CloudConstants) (cloudTypes : List Compound) (c : Nat)
    (hc : c ∈ groupStarts cloudTypes.length) (pos : Float3) :
    RegisteredTile K cloudTypes (freshTile K cloudTypes c pos) :=
  ⟨c, hc, rfl, rfl, rfl, rfl⟩

theorem recycleToPosition_registered (K : CloudConstants) (cloudTypes : List Compound)
    (t : CompoundCloudComponent) (p : Float3) (h : RegisteredTile K cloudTypes t) :
    RegisteredTile K cloudTypes (t.recycleToPosition K p) := by
  obtain ⟨c, hc, h1, h2, h3, h4⟩ := h
  obtain ⟨_, i1, i2, i3, i4⟩ := clearContents_ids K { t with m_position := p }
  unfold CompoundCloudComponent.recycleToPosition
  exact ⟨c, hc, by rw [i1]; exact h1, by rw [i2]; exact h2, by rw [i3]; exact h3,
    by rw [i4]; exact h4⟩

/-- The tiles of the initial spawn are bound as the registry binds them. -/
theorem spawnAll_registered (K : CloudConstants) (cloudTypes : List Compound)
    (required : List Float3) (world : CellStageWorld)
    (hinj : Function.Injective world.entities) :
    ∃ st1, spawnAll K cloudTypes required (groupStarts cloudTypes.length) (world, []) = .ok st1 ∧
      ∀ e ∈ st1.2, RegisteredTile K cloudTypes e.2 := by
  obtain ⟨st1, h1, hm1⟩ := spawnAll_fresh K cloudTypes required (groupStarts cloudTypes.length)
    (fun c hc => groupStarts_lt _ c hc) (world, []) hinj (by intro e he; simp at he)
  refine ⟨st1, h1, fun e he => ?_⟩
  have hmem : e.2 ∈ st1.2.map Prod.snd := List.mem_map_of_mem _ he
  rw [hm1] at hmem
  simp only [List.map_nil, List.nil_append, List.mem_flatMap, List.mem_map] at hmem
  obtain ⟨c, hc, pos, _, hpos⟩ := hmem
  rw [← hpos]
  exact freshTile_registered K cloudTypes c hc pos

/-- The spawn cycle on a Stable window keeps the tiles bound as the registry
binds them. -/
theorem spawnCycle_registered (K : CloudConstants) (hK : K.Sound) (world : CellStageWorld)
    (s : CompoundCloudSystem) (playerPos : Float3)
    (hcenter : ∃ q, s.m_cloudGridCenter = calculateGridCenterForPlayerPos K q)
    (hdistinct : (groupTypes s.m_cloudTypes).Nodup)
    (hstable : Stable K s.m_cloudTypes s.m_cloudGridCenter s.m_managedClouds)
    (hbound : ∀ e ∈ s.m_managedClouds, RegisteredTile K s.m_cloudTypes e.2) :
    ∃ r, doSpawnCycle K world s playerPos = .ok r ∧
      ∀ e ∈ r.system.m_managedClouds, RegisteredTile K s.m_cloudTypes e.2 := by
  obtain ⟨r, hr, _, _, _, _, _, htrace, _⟩ :=
    spawnCycle_of_stable K hK world s playerPos hcenter hdistinct hstable
  refine ⟨r, hr, fun e he => ?_⟩
  obtain ⟨k, hk⟩ := List.mem_iff_getElem?.mp he
  by_cases hrec : ∃ p, (k, p) ∈ r.recycled
  · obtain ⟨p, hp⟩ := hrec
    obtain ⟨_, e0, h0, _, h1⟩ := htrace.done (k, p) hp
    simp only at h0 h1
    rw [hk] at h1
    rw [Option.some.inj h1]
    exact recycleToPosition_registered K _ e0.2 p (hbound e0 (List.getElem?_mem h0))
  · have hun := htrace.untouched k (fun p hp => hrec ⟨p, hp⟩)
    simp only at hun
    rw [hk] at hun
    exact hbound e (List.getElem?_mem hun.symm)

/-! ### The routing operations on the toy system -/

theorem toy_firstMatch :
    FirstMatch toyConstants 1 ⟨1, 0, -3⟩ toySystem.m_managedClouds 0 (100, toyTile) := by
  refine ⟨rfl, ?_, fun j e1 hj => absurd hj (Nat.not_lt_zero j)⟩
  norm_num [routeMatches, cloudContainsPosition, toyConstants, toyTile,
    CompoundCloudComponent.handlesCompound]

theorem router_first_match_witness :
    (∃ t, toyTile.addCloud 1 5 2 0 = .ok t ∧
      toySystem.addCloud toyConstants 1 5 ⟨1, 0, -3⟩ =
        .ok (true, { toySystem with m_managedClouds := [(100, t)] })) ∧
    (∃ a t, toyTile.takeCompound 1 2 0 (1 / 2) = .ok (a, t) ∧
      toySystem.takeCompound toyConstants 1 ⟨1, 0, -3⟩ (1 / 2) =
        .ok ((a : ℚ), { toySystem with m_managedClouds := [(100, t)] })) :=
  ((router_first_match toyConstants toySystem 1 5 (1 / 2) ⟨1, 0, -3⟩).2 0 (100, toyTile)
    toy_firstMatch).2 2 0 toy_convert

theorem getAllAvailableAt_spec_witness :
    toySystem.getAllAvailableAt toyConstants ⟨1, 0, -3⟩ = [(1, 3)] := by
  rw [(getAllAvailableAt_spec toyConstants toySystem ⟨1, 0, -3⟩).1]
  have hc : cloudContainsPosition toyConstants toyTile.m_position ⟨1, 0, -3⟩ = true := by
    norm_num [cloudContainsPosition, toyConstants, toyTile]
  have hconv : convertWorldToCloudLocal toyConstants toyTile.m_position ⟨1, 0, -3⟩ =
      .ok (2, 0) := toy_convert
  simp only [toySystem, List.flatMap_cons, List.flatMap_nil, List.append_nil, tileContribution,
    hc, hconv, if_true]
  norm_num [snapshotAt, CompoundCloudComponent.compoundId, CompoundCloudComponent.density,
    toyTile, toyConstants, Grid.zero]

/-! ### The probe and the withdrawal give the same amount -/

/-- C22: for a compound the tile handles, `amountAvailable` returns the
amount that `takeCompound` returns from the same tile with the same cell and
rate; `amountAvailable` is a function of the tile that returns no new tile,
so the tile is as before. -/
theorem amountAvailable_eq_takeCompound (t : CompoundCloudComponent) (compound : CompoundId)
    (x y : Nat) (rate : ℚ) (h : t.handlesCompound compound = true) :
    ∃ a t1, t.takeCompound compound x y rate = .ok (a, t1) ∧
      t.amountAvailable compound x y rate = .ok a := by
  obtain ⟨slot, hslot⟩ := getSlotForCompound_of_handles t compound h
  obtain ⟨t1, h1, _⟩ := takeCompound_of_slot t compound x y rate slot hslot
  refine ⟨_, t1, h1, ?_⟩
  rw [amountAvailable_of_slot t compound x y rate slot hslot]
  rfl

theorem amountAvailable_eq_takeCompound_witness :
    ∃ a t1, toyTile.takeCompound 1 2 0 (1 / 2) = .ok (a, t1) ∧
      toyTile.amountAvailable 1 2 0 (1 / 2) = .ok a :=
  amountAvailable_eq_takeCompound toyTile 1 2 0 (1 / 2) (by decide)

/-! ### The frame of the tile-level deposit -/

theorem addCloud_frame (t : CompoundCloudComponent) (compound : CompoundId) (dens : ℚ)
    (x y : Nat) (slot : SLOT) (h : t.getSlotForCompound compound = .ok slot) :
    ∃ t1, t.addCloud compound dens x y = .ok t1 ∧
      t1.density slot x y = t.density slot x y + dens ∧
      (∀ (s : SLOT) (i j : Nat), ¬ (s = slot ∧ i = x ∧ j = y) →
        t1.density s i j = t.density s i j) ∧
      (∀ s : SLOT, t1.oldDens s = t.oldDens s) ∧
      t1.m_position = t.m_position ∧
      (∀ s : SLOT, t1.compoundId s = t.compoundId s) ∧
      t1.m_initialized = t.m_initialized := by
  unfold CompoundCloudComponent.addCloud
  rw [h]
  cases slot <;>
    refine ⟨_, rfl, by simp [CompoundCloudComponent.density, Grid.set], ?_,
      fun s => by cases s <;> rfl, rfl, fun s => by cases s <;> rfl, rfl⟩ <;>
    intro s i j hne <;> cases s <;>
    simp only [CompoundCloudComponent.density, Grid.set, true_and, reduceCtorEq, false_and,
      not_false_eq_true] at hne ⊢ <;>
    first
      | rfl
      | (rw [if_neg hne])

/-- C23: for a compound the tile handles, the tile-level `addCloud` returns,
adds the amount to the cell `(x, y)` of the current grid of the first slot
that carries the compound, and leaves every other cell of that grid, the
current grids of the other slots, all previous grids, the position, the ids
of the four slots and the initialized flag as they were. -/
theorem addCloud_changes_one_cell (t : CompoundCloudComponent) (compound : CompoundId)
    (dens : ℚ) (x y : Nat) (h : t.handlesCompound compound = true) :
    ∃ slot t1, t.getSlotForCompound compound = .ok slot ∧
      t.addCloud compound dens x y = .ok t1 ∧
      t1.density slot x y = t.density slot x y + dens ∧
      (∀ (s : SLOT) (i j : Nat), ¬ (s = slot ∧ i = x ∧ j = y) →
        t1.density s i j = t.density s i j) ∧
      (∀ s : SLOT, t1.oldDens s = t.oldDens s) ∧
      t1.m_position = t.m_position ∧
      (∀ s : SLOT, t1.compoundId s = t.compoundId s) ∧
      t1.m_initialized = t.m_initialized := by
  obtain ⟨slot, hslot⟩ := getSlotForCompound_of_handles t compound h
  obtain ⟨t1, h1⟩ := addCloud_frame t compound dens x y slot hslot
  exact ⟨slot, t1, hslot, h1⟩

theorem addCloud_changes_one_cell_witness :
    ∃ slot t1, toyTile.getSlotForCompound 2 = .ok slot ∧
      toyTile.addCloud 2 5 1 3 = .ok t1 ∧
      t1.density slot 1 3 = toyTile.density slot 1 3 + 5 ∧
      (∀ (s : SLOT) (i j : Nat), ¬ (s = slot ∧ i = 1 ∧ j = 3) →
        t1.density s i j = toyTile.density s i j) ∧
      (∀ s : SLOT, t1.oldDens s = toyTile.oldDens s) ∧
      t1.m_position = toyTile.m_position ∧
      (∀ s : SLOT, t1.compoundId s = toyTile.compoundId s) ∧
      t1.m_initialized = toyTile.m_initialized :=
  addCloud_changes_one_cell toyTile 2 5 1 3 (by decide)

/-! ### The slot lookup fails exactly on compounds the tile does not handle -/

theorem target_cell_valid (n x : Nat) (dt v : ℚ) (hn : 2 ≤ n) :
    0 ≤ cppTrunc (advectTarget n x dt v) ∧
    cppTrunc (advectTarget n x dt v) + 1 ≤ (n : ℤ) - 1 ∧
    0 ≤ advectTarget n x dt v - (cppTrunc (advectTarget n x dt v) : ℚ) ∧
    advectTarget n x dt v - (cppTrunc (advectTarget n x dt v) : ℚ) ≤ 1 ∧
    0 ≤ 1 - (advectTarget n x dt v - (cppTrunc (advectTarget n x dt v) : ℚ)) ∧
    1 - (advectTarget n x dt v - (cppTrunc (advectTarget n x dt v) : ℚ)) ≤ 1 := by
  obtain ⟨h1, h2⟩ := advectTarget_bounds n x dt v hn
  obtain ⟨t0, t1, t2, t3, _⟩ := cppTrunc_target n (advectTarget n x dt v) h1 h2
  have hnat := Int.toNat_of_nonneg t0
  refine ⟨t0, by omega, by linarith, by linarith, by linarith, by linarith⟩

/-- C25: for a grid of at least 2 x 2 cells, every source cell, every `dt`
and every velocity, the cells `x0 < x1` and `y0 < y1` that `advect` adds to
satisfy `0 <= x0`, `x1 <= W - 1`, `0 <= y0`, `y1 <= H - 1`, and the four
weights `s1 = dx - x0`, `s0 = 1 - s1`, `t1 = dy - y0`, `t0 = 1 - t1` are in
`[0, 1]`. -/
theorem advect_cells_valid (K : CloudConstants) (x y : Nat) (dt vx vy : ℚ)
    (hW : 2 ≤ K.CLOUD_SIMULATION_WIDTH) (hH : 2 ≤ K.CLOUD_SIMULATION_HEIGHT) :
    (0 ≤ cppTrunc (advectTarget K.CLOUD_SIMULATION_WIDTH x dt vx) ∧
      cppTrunc (advectTarget K.CLOUD_SIMULATION_WIDTH x dt vx) <
        cppTrunc (advectTarget K.CLOUD_SIMULATION_WIDTH x dt vx) + 1 ∧
      cppTrunc (advectTarget K.CLOUD_SIMULATION_WIDTH x dt vx) + 1 ≤
        (K.CLOUD_SIMULATION_WIDTH : ℤ) - 1) ∧
    (0 ≤ cppTrunc (advectTarget K.CLOUD_SIMULATION_HEIGHT y dt vy) ∧
      cppTrunc (advectTarget K.CLOUD_SIMULATION_HEIGHT y dt vy) <
        cppTrunc (advectTarget K.CLOUD_SIMULATION_HEIGHT y dt vy) + 1 ∧
      cppTrunc (advectTarget K.CLOUD_SIMULATION_HEIGHT y dt vy) + 1 ≤
        (K.CLOUD_SIMULATION_HEIGHT : ℤ) - 1) ∧
    (0 ≤ advectTarget K.CLOUD_SIMULATION_WIDTH x dt vx -
        (cppTrunc (advectTarget K.CLOUD_SIMULATION_WIDTH x dt vx) : ℚ) ∧
      advectTarget K.CLOUD_SIMULATION_WIDTH x dt vx -
        (cppTrunc (advectTarget K.CLOUD_SIMULATION_WIDTH x dt vx) : ℚ) ≤ 1) ∧
    (0 ≤ 1 - (advectTarget K.CLOUD_SIMULATION_WIDTH x dt vx -
        (cppTrunc (advectTarget K.CLOUD_SIMULATION_WIDTH x dt vx) : ℚ)) ∧
      1 - (advectTarget K.CLOUD_SIMULATION_WIDTH x dt vx -
        (cppTrunc (advectTarget K.CLOUD_SIMULATION_WIDTH x dt vx) : ℚ)) ≤ 1) ∧
    (0 ≤ advectTarget K.CLOUD_SIMULATION_HEIGHT y dt vy -
        (cppTrunc (advectTarget K.CLOUD_SIMULATION_HEIGHT y dt vy) : ℚ) ∧
      advectTarget K.CLOUD_SIMULATION_HEIGHT y dt vy -
        (cppTrunc (advectTarget K.CLOUD_SIMULATION_HEIGHT y dt vy) : ℚ) ≤ 1) ∧
    (0 ≤ 1 - (advectTarget K.CLOUD_SIMULATION_HEIGHT y dt vy -
        (cppTrunc (advectTarget K.CLOUD_SIMULATION_HEIGHT y dt vy) : ℚ)) ∧
      1 - (advectTarget K.CLOUD_SIMULATION_HEIGHT y dt vy -
        (cppTrunc (advectTarget K.CLOUD_SIMULATION_HEIGHT y dt vy) : ℚ)) ≤ 1) := by
  obtain ⟨a1, a2, a3, a4, a5, a6⟩ := target_cell_valid K.CLOUD_SIMULATION_WIDTH x dt vx hW
  obtain ⟨b1, b2, b3, b4, b5, b6⟩ := target_cell_valid K.CLOUD_SIMULATION_HEIGHT y dt vy hH
  exact ⟨⟨a1, by omega, a2⟩, ⟨b1, by omega, b2⟩, ⟨a3, a4⟩, ⟨a5, a6⟩, ⟨b3, b4⟩, ⟨b5, b6⟩⟩

theorem advect_cells_valid_witness :
    (0 ≤ cppTrunc (advectTarget toyConstants.CLOUD_SIMULATION_WIDTH 1 1 (-1000)) ∧
      cppTrunc (advectTarget toyConstants.CLOUD_SIMULATION_WIDTH 1 1 (-1000)) <
        cppTrunc (advectTarget toyConstants.CLOUD_SIMULATION_WIDTH 1 1 (-1000)) + 1 ∧
      cppTrunc (advectTarget toyConstants.CLOUD_SIMULATION_WIDTH 1 1 (-1000)) + 1 ≤
        (toyConstants.CLOUD_SIMULATION_WIDTH : ℤ) - 1) ∧
    cppTrunc (advectTarget toyConstants.CLOUD_SIMULATION_WIDTH 1 1 (-1000)) = 0 := by
  refine ⟨(advect_cells_valid toyConstants 1 2 1 (-1000) 1000000 (by decide) (by decide)).1, ?_⟩
  norm_num [advectTarget, cppClamp, cppTrunc, toyConstants]

/-! ### A contained position converts -/

theorem toSizeT_le_toNat (z : ℤ) (h0 : 0 ≤ z) : toSizeT z ≤ z.toNat := by
  unfold toSizeT
  apply Int.toNat_le_toNat
  rcases lt_or_le z (2 ^ 64) with h | h
  · rw [Int.emod_eq_of_lt h0 h]
  · have := Int.emod_lt_of_pos z (show (0 : ℤ) < 2 ^ 64 by norm_num)
    linarith

theorem axis_converts (RES WIDTH c p : ℚ) (n : Nat) (hres : 0 < RES)
    (hn : (n : ℚ) * RES = 2 * WIDTH) (h1 : c - WIDTH ≤ p) (h2 : p < c + WIDTH) :
    toSizeT ⌊(p - (c - WIDTH)) / RES⌋ < n := by
  have h0 : (0 : ℚ) ≤ (p - (c - WIDTH)) / RES := div_nonneg (by linarith) hres.le
  have hlt : (p - (c - WIDTH)) / RES < (n : ℚ) := by
    rw [div_lt_iff₀ hres]
    linarith
  have hf0 : 0 ≤ ⌊(p - (c - WIDTH)) / RES⌋ := Int.floor_nonneg.mpr h0
  have hfn : ⌊(p - (c - WIDTH)) / RES⌋ < (n : ℤ) := by
    rw [Int.floor_lt]
    exact_mod_cast hlt
  have := toSizeT_le_toNat _ hf0
  have := Int.toNat_of_nonneg hf0
  omega

/-- C26: with a positive cell resolution and grid dimensions that cover the
rectangle of the containment test (`W * res = 2 * CLOUD_WIDTH`,
`H * res = 2 * CLOUD_HEIGHT`), a position that `cloudContainsPosition`
accepts is converted by `convertWorldToCloudLocal` without the error, to a
cell `(x, y)` with `x < W` and `y < H`. -/
theorem contained_position_converts (K : CloudConstants) (cloudPosition worldPosition : Float3)
    (hres : 0 < K.CLOUD_RESOLUTION)
    (hW : (K.CLOUD_SIMULATION_WIDTH : ℚ) * K.CLOUD_RESOLUTION = 2 * K.CLOUD_WIDTH)
    (hH : (K.CLOUD_SIMULATION_HEIGHT : ℚ) * K.CLOUD_RESOLUTION = 2 * K.CLOUD_HEIGHT)
    (hc : cloudContainsPosition K cloudPosition worldPosition = true) :
    ∃ x y, convertWorldToCloudLocal K cloudPosition worldPosition = .ok (x, y) ∧
      x < K.CLOUD_SIMULATION_WIDTH ∧ y < K.CLOUD_SIMULATION_HEIGHT := by
  unfold cloudContainsPosition at hc
  simp only [ge_iff_le, ite_eq_right_iff, Bool.false_eq_true, imp_false, not_or, not_lt,
    not_le] at hc
  obtain ⟨x1, x2, z1, z2⟩ := hc
  have hx := axis_converts K.CLOUD_RESOLUTION K.CLOUD_WIDTH cloudPosition.X worldPosition.X
    K.CLOUD_SIMULATION_WIDTH hres hW x1 x2
  have hz := axis_converts K.CLOUD_RESOLUTION K.CLOUD_HEIGHT cloudPosition.Z worldPosition.Z
    K.CLOUD_SIMULATION_HEIGHT hres hH z1 z2
  rw [convertWorldToCloudLocal_eq]
  refine ⟨_, _, if_neg ?_, hx, hz⟩
  simp only [localCellFormula, ge_iff_le, not_or, not_le]
  exact ⟨hx, hz⟩

theorem contained_position_converts_witness :
    ∃ x y, convertWorldToCloudLocal toyConstants ⟨0, 0, 0⟩ ⟨-4, 0, 7 / 2⟩ = .ok (x, y) ∧
      x < toyConstants.CLOUD_SIMULATION_WIDTH ∧ y < toyConstants.CLOUD_SIMULATION_HEIGHT :=
  contained_position_converts toyConstants ⟨0, 0, 0⟩ ⟨-4, 0, 7 / 2⟩
    (by norm_num [toyConstants]) (by norm_num [toyConstants]) (by norm_num [toyConstants])
    (by norm_num [cloudContainsPosition, toyConstants])

/-! ### Diffusion keeps the densities within their bounds -/

theorem forRange_congr {σ : Type} (lo n : Nat) (body1 body2 : Nat → σ → σ)
    (h : ∀ i s, lo ≤ i → i < lo + n → body1 i s = body2 i s) (s : σ) :
    forRange lo n body1 s = forRange lo n body2 s := by
  induction n with
  | zero => rfl
  | succ n ih =>
    rw [forRange_succ, forRange_succ, ih (fun i s h1 h2 => h i s h1 (by omega)),
      h (lo + n) _ (by omega) (by omega)]

theorem diffuse_congr (K : CloudConstants) (diffRate : ℚ) (oldDens d1 d2 : Grid) (dt : ℚ)
    (h : ∀ x y, 1 ≤ x → x + 1 < K.CLOUD_SIMULATION_WIDTH → 1 ≤ y →
      y + 1 < K.CLOUD_SIMULATION_HEIGHT → d1 x y = d2 x y) :
    diffuse K diffRate oldDens d1 dt = diffuse K diffRate oldDens d2 dt := by
  unfold diffuse
  apply forRange_congr
  intro x g hx1 hx2
  apply forRange_congr
  intro y g1 hy1 hy2
  unfold diffuseCell
  rw [h x y hx1 (by omega) hy1 (by omega)]

theorem zeroGrid_congr (K : CloudConstants) (d1 d2 : Grid)
    (h : ∀ x y, ¬ (x < K.CLOUD_SIMULATION_WIDTH ∧ y < K.CLOUD_SIMULATION_HEIGHT) →
      d1 x y = d2 x y) :
    zeroGrid K d1 = zeroGrid K d2 := by
  funext x y
  rw [zeroGrid_apply, zeroGrid_apply]
  split_ifs with hin
  · rfl
  · exact h x y hin

theorem processChannel_congr (K : CloudConstants) (oldDens d1 d2 : Grid) (elapsed : ℚ)
    (fluidSystem : FluidSystem) (pos : Float2)
    (h : ∀ x y, ¬ IsBorderCell K.CLOUD_SIMULATION_WIDTH K.CLOUD_SIMULATION_HEIGHT x y →
      d1 x y = d2 x y) :
    processChannel K ⟨oldDens, d1⟩ elapsed fluidSystem pos =
      processChannel K ⟨oldDens, d2⟩ elapsed fluidSystem pos := by
  have hd : diffuse K (7 / 1000) oldDens d1 elapsed = diffuse K (7 / 1000) oldDens d2 elapsed := by
    apply diffuse_congr
    intro x y hx1 hx2 hy1 hy2
    apply h
    rintro ⟨_, _, hb⟩
    omega
  have hz : zeroGrid K d1 = zeroGrid K d2 := by
    apply zeroGrid_congr
    intro x y hin
    apply h
    rintro ⟨hx, hy, _⟩
    exact hin ⟨hx, hy⟩
  simp only [processChannel, Channel.diffuse, Channel.advect, advect, hd, hz]

theorem processFirst_fields (K : CloudConstants) (t : CompoundCloudComponent) (elapsed : ℚ)
    (fluidSystem : FluidSystem) (pos : Float2) :
    (processFirst K t elapsed fluidSystem pos).m_position = t.m_position ∧
      (processFirst K t elapsed fluidSystem pos).m_compoundId1 = t.m_compoundId1 ∧
      (processFirst K t elapsed fluidSystem pos).m_compoundId2 = t.m_compoundId2 ∧
      (processFirst K t elapsed fluidSystem pos).m_compoundId3 = t.m_compoundId3 ∧
      (processFirst K t elapsed fluidSystem pos).m_compoundId4 = t.m_compoundId4 ∧
      (processFirst K t elapsed fluidSystem pos).m_density2 = t.m_density2 ∧
      (processFirst K t elapsed fluidSystem pos).m_oldDens2 = t.m_oldDens2 ∧
      (processFirst K t elapsed fluidSystem pos).m_density3 = t.m_density3 ∧
      (processFirst K t elapsed fluidSystem pos).m_oldDens3 = t.m_oldDens3 ∧
      (processFirst K t elapsed fluidSystem pos).m_density4 = t.m_density4 ∧
      (processFirst K t elapsed fluidSystem pos).m_oldDens4 = t.m_oldDens4 ∧
      (processFirst K t elapsed fluidSystem pos).m_oldDens1 =
        (if t.m_compoundId1 ≠ K.NULL_COMPOUND then
          (processChannel K ⟨t.m_oldDens1, t.m_density1⟩ elapsed fluidSystem pos).oldDens
        else t.m_oldDens1) ∧
      (processFirst K t elapsed fluidSystem pos).m_density1 =
        (if t.m_compoundId1 ≠ K.NULL_COMPOUND then
          (processChannel K ⟨t.m_oldDens1, t.m_density1⟩ elapsed fluidSystem pos).density
        else t.m_density1) := by
  unfold processFirst
  split_ifs <;> exact ⟨rfl, rfl, rfl, rfl, rfl, rfl, rfl, rfl, rfl, rfl, rfl, rfl, rfl⟩

theorem processSecond_fields (K : CloudConstants) (t : CompoundCloudComponent) (elapsed : ℚ)
    (fluidSystem : FluidSystem) (pos : Float2) :
    (processSecond K t elapsed fluidSystem pos).m_position = t.m_position ∧
      (processSecond K t elapsed fluidSystem pos).m_compoundId1 = t.m_compoundId1 ∧
      (processSecond K t elapsed fluidSystem pos).m_compoundId2 = t.m_compoundId2 ∧
      (processSecond K t elapsed fluidSystem pos).m_compoundId3 = t.m_compoundId3 ∧
      (processSecond K t elapsed fluidSystem pos).m_compoundId4 = t.m_compoundId4 ∧
      (processSecond K t elapsed fluidSystem pos).m_density1 = t.m_density1 ∧
      (processSecond K t elapsed fluidSystem pos).m_oldDens1 = t.m_oldDens1 ∧
      (processSecond K t elapsed fluidSystem pos).m_density3 = t.m_density3 ∧
      (processSecond K t elapsed fluidSystem pos).m_oldDens3 = t.m_oldDens3 ∧
      (processSecond K t elapsed fluidSystem pos).m_density4 = t.m_density4 ∧
      (processSecond K t elapsed fluidSystem pos).m_oldDens4 = t.m_oldDens4 ∧
      (processSecond K t elapsed fluidSystem pos).m_oldDens2 =
        (if t.m_compoundId2 ≠ K.NULL_COMPOUND then
          (processChannel K ⟨t.m_oldDens2, t.m_density2⟩ elapsed fluidSystem pos).oldDens
        else t.m_oldDens2) ∧
      (processSecond K t elapsed fluidSystem pos).m_density2 =
        (if t.m_compoundId2 ≠ K.NULL_COMPOUND then
          (processChannel K ⟨t.m_oldDens2, t.m_density2⟩ elapsed fluidSystem pos).density
        else t.m_density2) := by
  unfold processSecond
  split_ifs <;> exact ⟨rfl, rfl, rfl, rfl, rfl, rfl, rfl, rfl, rfl, rfl, rfl, rfl, rfl⟩

theorem processThird_fields (K : CloudConstants) (t : CompoundCloudComponent) (elapsed : ℚ)
    (fluidSystem : FluidSystem) (pos : Float2) :
    (processThird K t elapsed fluidSystem pos).m_position = t.m_position ∧
      (processThird K t elapsed fluidSystem pos).m_compoundId1 = t.m_compoundId1 ∧
      (processThird K t elapsed fluidSystem pos).m_compoundId2 = t.m_compoundId2 ∧
      (processThird K t elapsed fluidSystem pos).m_compoundId3 = t.m_compoundId3 ∧
      (processThird K t elapsed fluidSystem pos).m_compoundId4 = t.m_compoundId4 ∧
      (processThird K t elapsed fluidSystem pos).m_density1 = t.m_density1 ∧
      (processThird K t elapsed fluidSystem pos).m_oldDens1 = t.m_oldDens1 ∧
      (processThird K t elapsed fluidSystem pos).m_density2 = t.m_density2 ∧
      (processThird K t elapsed fluidSystem pos).m_oldDens2 = t.m_oldDens2 ∧
      (processThird K t elapsed fluidSystem pos).m_density4 = t.m_density4 ∧
      (processThird K t elapsed fluidSystem pos).m_oldDens4 = t.m_oldDens4 ∧
      (processThird K t elapsed fluidSystem pos).m_oldDens3 =
        (if t.m_compoundId3 ≠ K.NULL_COMPOUND then
          (processChannel K ⟨t.m_oldDens3, t.m_density3⟩ elapsed fluidSystem pos).oldDens
        else t.m_oldDens3) ∧
      (processThird K t elapsed fluidSystem pos).m_density3 =
        (if t.m_compoundId3 ≠ K.NULL_COMPOUND then
          (processChannel K ⟨t.m_oldDens3, t.m_density3⟩ elapsed fluidSystem pos).density
        else t.m_density3) := by
  unfold processThird
  split_ifs <;> exact ⟨rfl, rfl, rfl, rfl, rfl, rfl, rfl, rfl, rfl, rfl, rfl, rfl, rfl⟩

theorem processFourth_fields (K : CloudConstants) (t : CompoundCloudComponent) (elapsed : ℚ)
    (fluidSystem : FluidSystem) (pos : Float2) :
    (processFourth K t elapsed fluidSystem pos).m_position = t.m_position ∧
      (processFourth K t elapsed fluidSystem pos).m_compoundId1 = t.m_compoundId1 ∧
      (processFourth K t elapsed fluidSystem pos).m_compoundId2 = t.m_compoundId2 ∧
      (processFourth K t elapsed fluidSystem pos).m_compoundId3 = t.m_compoundId3 ∧
      (processFourth K t elapsed fluidSystem pos).m_compoundId4 = t.m_compoundId4 ∧
      (processFourth K t elapsed fluidSystem pos).m_density1 = t.m_density1 ∧
      (processFourth K t elapsed fluidSystem pos).m_oldDens1 = t.m_oldDens1 ∧
      (processFourth K t elapsed fluidSystem pos).m_density2 = t.m_density2 ∧
      (processFourth K t elapsed fluidSystem pos).m_oldDens2 = t.m_oldDens2 ∧
      (processFourth K t elapsed fluidSystem pos).m_density3 = t.m_density3 ∧
      (processFourth K t elapsed fluidSystem pos).m_oldDens3 = t.m_oldDens3 ∧
      (processFourth K t elapsed fluidSystem pos).m_oldDens4 =
        (if t.m_compoundId4 ≠ K.NULL_COMPOUND then
          (processChannel K ⟨t.m_oldDens4, t.m_density4⟩ elapsed fluidSystem pos).oldDens
        else t.m_oldDens4) ∧
      (processFourth K t elapsed fluidSystem pos).m_density4 =
        (if t.m_compoundId4 ≠ K.NULL_COMPOUND then
          (processChannel K ⟨t.m_oldDens4, t.m_density4⟩ elapsed fluidSystem pos).density
        else t.m_density4) := by
  unfold processFourth
  split_ifs <;> exact ⟨rfl, rfl, rfl, rfl, rfl, rfl, rfl, rfl, rfl, rfl, rfl, rfl, rfl⟩

theorem processCloud_slot (K : CloudConstants) (t : CompoundCloudComponent) (elapsed : ℚ)
    (fluidSystem : FluidSystem) (s : SLOT) :
    (processCloud K t elapsed fluidSystem).oldDens s =
      (if t.compoundId s ≠ K.NULL_COMPOUND then
        (processChannel K ⟨t.oldDens s, t.density s⟩ (elapsed * 100) fluidSystem
          ⟨t.m_position.X, t.m_position.Z⟩).oldDens
      else t.oldDens s) ∧
    (processCloud K t elapsed fluidSystem).density s =
      (if t.compoundId s ≠ K.NULL_COMPOUND then
        (processChannel K ⟨t.oldDens s, t.density s⟩ (elapsed * 100) fluidSystem
          ⟨t.m_position.X, t.m_position.Z⟩).density
      else t.density s) := by
  unfold processCloud
  generalize elapsed * 100 = e
  generalize (⟨t.m_position.X, t.m_position.Z⟩ : Float2) = pos
  obtain ⟨_, a1, a2, a3, a4, ad2, ao2, ad3, ao3, ad4, ao4, ao1, ad1⟩ :=
    processFirst_fields K t e fluidSystem pos
  obtain ⟨_, b1, b2, b3, b4, bd1, bo1, bd3, bo3, bd4, bo4, bo2, bd2⟩ :=
    processSecond_fields K (processFirst K t e fluidSystem pos) e fluidSystem pos
  obtain ⟨_, c1, c2, c3, c4, cd1, co1, cd2, co2, cd4, co4, co3, cd3⟩ :=
    processThird_fields K (processSecond K (processFirst K t e fluidSystem pos) e fluidSystem pos)
      e fluidSystem pos
  obtain ⟨_, d1, d2, d3, d4, dd1, do1, dd2, do2, dd3, do3, do4, dd4⟩ :=
    processFourth_fields K
      (processThird K (processSecond K (processFirst K t e fluidSystem pos) e fluidSystem pos)
        e fluidSystem pos) e fluidSystem pos
  cases s
  · simp only [CompoundCloudComponent.oldDens, CompoundCloudComponent.density,
      CompoundCloudComponent.compoundId]
    exact ⟨by rw [do1, co1, bo1, ao1], by rw [dd1, cd1, bd1, ad1]⟩
  · simp only [CompoundCloudComponent.oldDens, CompoundCloudComponent.density,
      CompoundCloudComponent.compoundId]
    exact ⟨by rw [do2, co2, bo2, a2, ao2, ad2], by rw [dd2, cd2, bd2, a2, ao2, ad2]⟩
  · simp only [CompoundCloudComponent.oldDens, CompoundCloudComponent.density,
      CompoundCloudComponent.compoundId]
    exact ⟨by rw [do3, co3, b3, bo3, bd3, a3, ao3, ad3],
      by rw [dd3, cd3, b3, bo3, bd3, a3, ao3, ad3]⟩
  · simp only [CompoundCloudComponent.oldDens, CompoundCloudComponent.density,
      CompoundCloudComponent.compoundId]
    exact ⟨by rw [do4, c4, co4, cd4, b4, bo4, bd4, a4, ao4, ad4],
      by rw [dd4, c4, co4, cd4, b4, bo4, bd4, a4, ao4, ad4]⟩

/-- C24: if two tiles agree everywhere except on border-ring cells of their
current grids, then after one `processCloud` step with the same elapsed time
and velocity field the previous grid of every slot and the current grid of
every bound slot are the same in both: what the border ring of a current grid
holds never reaches the result. -/
theorem border_mass_not_picked_up (K : CloudConstants) (t1 t2 : CompoundCloudComponent)
    (elapsed : ℚ) (fluidSystem : FluidSystem) (h : AgreeOffBorder K t1 t2) :
    ∀ s : SLOT,
      (processCloud K t1 elapsed fluidSystem).oldDens s =
        (processCloud K t2 elapsed fluidSystem).oldDens s ∧
      (t1.compoundId s ≠ K.NULL_COMPOUND →
        (processCloud K t1 elapsed fluidSystem).density s =
          (processCloud K t2 elapsed fluidSystem).density s) := by
  intro s
  obtain ⟨o1, c1⟩ := processCloud_slot K t1 elapsed fluidSystem s
  obtain ⟨o2, c2⟩ := processCloud_slot K t2 elapsed fluidSystem s
  have hch := processChannel_congr K (t1.oldDens s) (t1.density s) (t2.density s)
    (elapsed * 100) fluidSystem ⟨t1.m_position.X, t1.m_position.Z⟩ (h.current s)
  rw [o1, c1, o2, c2, ← h.ids s, ← h.previous s, ← h.position, hch]
  refine ⟨?_, fun hb => ?_⟩
  · split_ifs
    · rfl
    · rfl
  · rw [if_pos hb, if_pos hb]

theorem toy_agreeOffBorder : AgreeOffBorder toyConstants toyTile toyBorderTile := by
  refine ⟨rfl, fun s => by cases s <;> rfl, fun s => by cases s <;> rfl, ?_⟩
  intro s x y hnb
  cases s
  · simp only [CompoundCloudComponent.density, toyTile, toyBorderTile]
    split_ifs with hc
    · exfalso
      apply hnb
      rcases hc with ⟨rfl, rfl⟩ | ⟨rfl, rfl⟩ <;> simp [IsBorderCell, toyConstants]
    · rfl
  · rfl
  · rfl
  · rfl

theorem border_mass_not_picked_up_witness :
    (processCloud toyConstants toyTile (1 / 100) windToTheLeft).density .FIRST =
      (processCloud toyConstants toyBorderTile (1 / 100) windToTheLeft).density .FIRST :=
  (border_mass_not_picked_up toyConstants toyTile toyBorderTile (1 / 100) windToTheLeft
    toy_agreeOffBorder .FIRST).2 (by decide)

/-! ### Tiles at required positions stay as they are -/

theorem setTile_getElem_ne (m : ManagedClouds) (k k1 : Nat) (t : CompoundCloudComponent)
    (h : k ≠ k1) : (m.setTile k t)[k1]? = m[k1]? := by
  unfold ManagedClouds.setTile
  cases hk : m[k]? with
  | none => rfl
  | some e => simp only [List.getElem?_set_ne h]

theorem frame_fillGroup (K : CloudConstants) (P : List Float3) (clouds0 : ManagedClouds)
    (g : CompoundId) (ps : List Float3) (st : Repositioning)
    (hinv : FrameInvariant K P clouds0 st) :
    FrameInvariant K P clouds0 (fillGroup K g ps st) := by
  induction ps generalizing st with
  | nil => exact hinv
  | cons p rest ih =>
    unfold fillGroup
    split_ifs with hhas
    · exact ih st hinv
    · cases hfind : findCandidate st.clouds g 0 st.tooFarAway with
      | none => exact ⟨hinv.far, hinv.kept⟩
      | some r =>
        obtain ⟨j, k, cloud⟩ := r
        obtain ⟨i, _, hfar, _, _⟩ := findCandidate_sound st.clouds g st.tooFarAway 0 j k cloud hfind
        obtain ⟨e0, he0, hd0⟩ := hinv.far k (List.getElem?_mem hfar)
        apply ih
        constructor
        · intro k1 hk1
          rcases List.mem_or_eq_of_mem_set hk1 with hmem | heq
          · exact hinv.far k1 hmem
          · exact absurd heq (by simp)
        · intro k1 e he hde
          have hne : k ≠ k1 := by
            rintro rfl
            rw [he0] at he
            rw [Option.some.inj he, hde] at hd0
            exact absurd hd0 (by simp)
          show (st.clouds.setTile k (cloud.recycleToPosition K p))[k1]? = some e
          rw [setTile_getElem_ne _ _ _ _ hne]
          exact hinv.kept k1 e he hde

theorem frame_fillGroups (K : CloudConstants) (cloudTypes : List Compound) (P : List Float3)
    (clouds0 : ManagedClouds) (starts : List Nat) (st : Repositioning)
    (hinv : FrameInvariant K P clouds0 st) :
    FrameInvariant K P clouds0 (fillGroups K cloudTypes P starts st) := by
  induction starts generalizing st with
  | nil => exact hinv
  | cons c rest ih =>
    unfold fillGroups
    cases hc : cloudTypes[c]? with
    | none => exact ih st hinv
    | some groupCompound => exact ih _ (frame_fillGroup K P clouds0 _ P st hinv)

/-- The repositioning leaves every tile that is not displaced in its place,
as it was, whatever the state of the window. -/
theorem applyNewCloudPositioning_frame (K : CloudConstants) (s : CompoundCloudSystem)
    (k : Nat) (e : ObjectID × CompoundCloudComponent) (hk : s.m_managedClouds[k]? = some e)
    (hd : isDisplaced K (calculateGridPositions K s.m_cloudGridCenter) e = false) :
    (applyNewCloudPositioning K s).clouds[k]? = some e := by
  unfold applyNewCloudPositioning
  have hcollect := collectFarAway_eq K (calculateGridPositions K s.m_cloudGridCenter)
    s.m_managedClouds.length 0 s.m_managedClouds [] (Nat.le_refl 0) (by omega)
  have hinit : FrameInvariant K (calculateGridPositions K s.m_cloudGridCenter) s.m_managedClouds
      { clouds := s.m_managedClouds
        tooFarAway := (collectFarAway K (calculateGridPositions K s.m_cloudGridCenter)
          s.m_managedClouds.length 0 s.m_managedClouds []).1
        recycled := []
        fatal := (collectFarAway K (calculateGridPositions K s.m_cloudGridCenter)
          s.m_managedClouds.length 0 s.m_managedClouds []).2 } := by
    constructor
    · intro k1 hk1
      simp only [hcollect, List.nil_append, List.mem_map, Option.some.injEq, exists_eq_right] at hk1
      obtain ⟨_, e1, he1, hd1⟩ := (mem_displacedFrom K _ 0 s.m_managedClouds k1).mp hk1
      exact ⟨e1, by simpa using he1, hd1⟩
    · intro k1 e1 he1 _
      exact he1
  exact (frame_fillGroups K s.m_cloudTypes _ s.m_managedClouds _ _ hinit).kept k e hk hd

theorem not_displaced_of_mem (K : CloudConstants) (hK : 0 < K.EPSILON) (P : List Float3)
    (e : ObjectID × CompoundCloudComponent) (h : e.2.m_position ∈ P) :
    isDisplaced K P e = false := by
  unfold isDisplaced
  simp only [Bool.not_eq_false', List.any_eq_true]
  refine ⟨e.2.m_position, h, ?_⟩
  simp [positionMatches, Float3.sub, Float3.HAddAbs, hK]

theorem doSpawnCycle_of_present (K : CloudConstants) (world : CellStageWorld)
    (s : CompoundCloudSystem) (playerPos : Float3) (hpresent : s.m_managedClouds ≠ [])
    (hcount : s.m_managedClouds.length = expectedCloudCount s.m_cloudTypes.length) :
    doSpawnCycle K world s playerPos =
      if s.m_cloudGridCenter ≠ calculateGridCenterForPlayerPos K playerPos then
        .ok { world := world
              system :=
                { m_cloudTypes := s.m_cloudTypes
                  m_cloudGridCenter := calculateGridCenterForPlayerPos K playerPos
                  m_managedClouds := (applyNewCloudPositioning K
                    { s with m_cloudGridCenter :=
                      calculateGridCenterForPlayerPos K playerPos }).clouds }
              recycled := (applyNewCloudPositioning K
                { s with m_cloudGridCenter := calculateGridCenterForPlayerPos K playerPos }).recycled
              fatal := (applyNewCloudPositioning K
                { s with m_cloudGridCenter := calculateGridCenterForPlayerPos K playerPos }).fatal }
      else .ok { world := world, system := s, recycled := [], fatal := 0 } := by
  have hne : s.m_managedClouds.isEmpty = false := by
    cases hm : s.m_managedClouds with
    | nil => exact absurd hm hpresent
    | cons a l => rfl
  unfold doSpawnCycle initialSpawn
  simp only [hne, Bool.false_eq_true, if_false]
  unfold updateWindow
  rw [if_neg (not_not.mpr hcount)]

/-- C21: in a window state with tiles present whose number of tiles passes
the assertion of `doSpawnCycle` (as it does in a Stable state), with a
positive epsilon, the spawn cycle returns and every tile whose position is one
of the required positions of the target centre is afterwards in its place
exactly as it was (position, ids and all grids); when the target centre is the
grid centre, the whole system and the world are as before and no tile is
recycled. -/
theorem window_update_frame (K : CloudConstants) (hK : 0 < K.EPSILON) (world : CellStageWorld)
    (s : CompoundCloudSystem) (playerPos : Float3) (hpresent : s.m_managedClouds ≠ [])
    (hcount : s.m_managedClouds.length = expectedCloudCount s.m_cloudTypes.length) :
    ∃ r, doSpawnCycle K world s playerPos = .ok r ∧
      (∀ (k : Nat) (e : ObjectID × CompoundCloudComponent), s.m_managedClouds[k]? = some e →
        e.2.m_position ∈
          calculateGridPositions K (calculateGridCenterForPlayerPos K playerPos) →
        r.system.m_managedClouds[k]? = some e) ∧
      (calculateGridCenterForPlayerPos K playerPos = s.m_cloudGridCenter →
        r.system = s ∧ r.world = world ∧ r.recycled = [] ∧ r.fatal = 0) := by
  rw [doSpawnCycle_of_present K world s playerPos hpresent hcount]
  by_cases hcenter : s.m_cloudGridCenter ≠ calculateGridCenterForPlayerPos K playerPos
  · rw [if_pos hcenter]
    refine ⟨_, rfl, fun k e hk hpos => ?_, fun heq => absurd heq.symm hcenter⟩
    exact applyNewCloudPositioning_frame K
      { s with m_cloudGridCenter := calculateGridCenterForPlayerPos K playerPos } k e hk
      (not_displaced_of_mem K hK _ e hpos)
  · rw [if_neg hcenter]
    exact ⟨_, rfl, fun k e hk _ => hk, fun _ => ⟨rfl, rfl, rfl, rfl⟩⟩

theorem toy_target_center :
    calculateGridCenterForPlayerPos toyConstants ⟨9, 0, 0⟩ = ⟨8, 0, 0⟩ := by
  norm_num [calculateGridCenterForPlayerPos, cppRound, toyConstants]

theorem window_update_frame_witness :
    ∃ r, doSpawnCycle toyConstants toyWorld toyWindow ⟨9, 0, 0⟩ = .ok r ∧
      r.system.m_managedClouds[0]? = some (100, toyTileAt ⟨0, 0, 0⟩) ∧
      r.system.m_managedClouds[7]? = some (107, toyTileAt ⟨0, 0, 8⟩) := by
  obtain ⟨r, hr, hkept, _⟩ := window_update_frame toyConstants (by norm_num [toyConstants])
    toyWorld toyWindow ⟨9, 0, 0⟩ (by simp [toyWindow]) (by decide)
  rw [toy_target_center] at hkept
  refine ⟨r, hr, hkept 0 _ rfl ?_, hkept 7 _ rfl ?_⟩
  · norm_num [calculateGridPositions, Float3.add, toyConstants, toyTileAt, toyTile]
  · norm_num [calculateGridPositions, Float3.add, toyConstants, toyTileAt, toyTile]

/-! ### Handled compounds and allocated grids -/

end Thrive
